import Mathlib

/-!
# Verification of a tic-tac-toe game with a minimax engine

Shallow embedding of the Rust program in src/src/main.rs: a 3x3 board,
an analyse function detecting wins and draws, and two near-duplicate
minimax search engines (one optimizing for the computer side, one for
the player side).  Rust mutation is modelled by explicit state passing:
each method that takes &mut self becomes a function Board -> Board x A.
The panic on a full board is modelled by an Option result (none = panic).
The recursive minimax is given a fuel parameter for structural
termination; fuel 9 (one per cell) is always sufficient on a 3x3 grid,
since every recursive call fills one previously Free cell.
-/

/-- Rust enum Tile - the contents of one cell: X, O, or Free. -/
inductive Tile
  | X
  | O
  | Free
deriving DecidableEq, Fintype

/-- Rust enum Move - whose move it is: the human Player or the Computer. -/
inductive Move
  | Player
  | Computer
deriving DecidableEq, Fintype

/-- Rust enum GameState - the outcome of a finished analysis: a win for a
side, or a draw.  The in-progress case is Option.none around this type. -/
inductive GameState
  | Win (m : Move)
  | Draw
deriving DecidableEq, Fintype

/-- Indexing a row list as the Rust code does with field[i][j]; all accesses
made by the program are in bounds on well-formed 3x3 boards, so the default
value never surfaces. -/
def fieldGet (f : List (List Tile)) (i j : Nat) : Tile :=
  (f.getD i []).getD j Tile.Free

/-- Writing one cell, as Rust's field[i][j] = t (List.set is the identity
out of bounds; the program only writes in bounds on well-formed boards). -/
def fieldSet (f : List (List Tile)) (i j : Nat) (t : Tile) : List (List Tile) :=
  f.set i ((f.getD i []).set j t)

/-- Rust struct Board: the 3x3 grid (Vec of Vec of Tile), whose move it is,
and which tile each side plays. -/
structure Board where
  field : List (List Tile)
  current_move : Move
  computer_tile : Tile
  player_tile : Tile
deriving DecidableEq

/-- The board is a genuine 3x3 grid, as the program always constructs it. -/
def WF (b : Board) : Prop :=
  b.field.length = 3 ∧ ∀ r ∈ b.field, r.length = 3

instance : DecidablePred WF := fun b => by
  unfold WF; infer_instance

/-- Reading one cell of the board. -/
def Board.getTile (b : Board) (i j : Nat) : Tile :=
  fieldGet b.field i j

/-- Writing one cell of the board. -/
def Board.setTile (b : Board) (i j : Nat) (t : Tile) : Board :=
  { b with field := fieldSet b.field i j t }

/-- Rust Board::make_move: writes the tile into the cell. -/
def Board.make_move (b : Board) (p : Nat × Nat) (tile : Tile) : Board :=
  b.setTile p.1 p.2 tile

/-- Rust Board::has_free_tiles: some row contains a Free cell. -/
def Board.has_free_tiles (b : Board) : Bool :=
  b.field.any fun row => row.contains Tile.Free

/-- Rust Board::change_player: flips current_move. -/
def Board.change_player (b : Board) : Board :=
  { b with current_move :=
      match b.current_move with
      | Move.Player => Move.Computer
      | Move.Computer => Move.Player }

/-- One winning-line condition of Board::analyse.  The source checks the
three rows, the three columns and the two diagonals with early returns that
all produce the same value, so the eight conditions are collected into one
disjunction, in source order. -/
def Board.lineWon (b : Board) : Prop :=
  (b.getTile 0 0 = b.getTile 0 1 ∧ b.getTile 0 1 = b.getTile 0 2 ∧ b.getTile 0 0 ≠ Tile.Free) ∨
  (b.getTile 1 0 = b.getTile 1 1 ∧ b.getTile 1 1 = b.getTile 1 2 ∧ b.getTile 1 0 ≠ Tile.Free) ∨
  (b.getTile 2 0 = b.getTile 2 1 ∧ b.getTile 2 1 = b.getTile 2 2 ∧ b.getTile 2 0 ≠ Tile.Free) ∨
  (b.getTile 0 0 = b.getTile 1 0 ∧ b.getTile 1 0 = b.getTile 2 0 ∧ b.getTile 0 0 ≠ Tile.Free) ∨
  (b.getTile 0 1 = b.getTile 1 1 ∧ b.getTile 1 1 = b.getTile 2 1 ∧ b.getTile 0 1 ≠ Tile.Free) ∨
  (b.getTile 0 2 = b.getTile 1 2 ∧ b.getTile 1 2 = b.getTile 2 2 ∧ b.getTile 0 2 ≠ Tile.Free) ∨
  (b.getTile 0 0 = b.getTile 1 1 ∧ b.getTile 1 1 = b.getTile 2 2 ∧ b.getTile 0 0 ≠ Tile.Free) ∨
  (b.getTile 0 2 = b.getTile 1 1 ∧ b.getTile 1 1 = b.getTile 2 0 ∧ b.getTile 0 2 ≠ Tile.Free)

instance (b : Board) : Decidable b.lineWon := by
  unfold Board.lineWon; infer_instance

/-- Rust Board::analyse: if some line holds three identical non-Free tiles,
a win attributed to current_move; else a draw when no Free cell remains;
else none (game still in progress). -/
def Board.analyse (b : Board) : Option GameState :=
  if b.lineWon then some (GameState.Win b.current_move)
  else if b.has_free_tiles then none
  else some GameState.Draw

/-- Rust Board::check_move: bounds check, then free-cell check. -/
def Board.check_move (b : Board) (p : Nat × Nat) : Except String (Nat × Nat) :=
  if p.1 ≤ 2 ∧ p.2 ≤ 2 then
    if b.getTile p.1 p.2 = Tile.Free then Except.ok (p.1, p.2)
    else Except.error "Choose free tile!"
  else Except.error "Place tile in bounds (0 <= col <= 2, 0 <= row <= 2)!"

/-- Rust MinimaxGame::evaluate for Board. -/
def Board.evaluate (b : Board) : Int :=
  match b.analyse with
  | some (GameState.Win Move.Computer) => 10
  | some (GameState.Win Move.Player) => -10
  | _ => 0

/-- Rust Board::evaluate_player: the side-mirrored scorer. -/
def Board.evaluate_player (b : Board) : Int :=
  match b.analyse with
  | some (GameState.Win Move.Player) => 10
  | some (GameState.Win Move.Computer) => -10
  | _ => 0

/-- Rust cmp::max on i32. -/
def imax (a b : Int) : Int := if a ≤ b then b else a

/-- Rust cmp::min on i32. -/
def imin (a b : Int) : Int := if b ≤ a then b else a

/-- The index pairs (i, j) visited by the source's nested loops
for i in 0..3 followed by for j in 0..3, in visiting order. -/
def allCells : List (Nat × Nat) :=
  [(0, 0), (0, 1), (0, 2), (1, 0), (1, 1), (1, 2), (2, 0), (2, 1), (2, 2)]

/-- Rust MinimaxGame::minimax for Board, with explicit state passing for
the &mut self mutation and a fuel argument for structural termination
(every recursive call fills one Free cell, so fuel 9 never runs out;
when fuel runs out the draw value 0 is returned, which is unreachable on
well-formed boards with sufficient fuel). -/
def Board.minimax : Board → Nat → Int → Bool → Board × Int
  | b, fuel, depth, is_max =>
    let score := b.evaluate
    if score = 10 then (b, score - depth)
    else if score = -10 then (b, score + depth)
    else if b.has_free_tiles = false then (b, 0)
    else
      match fuel with
      | 0 => (b, 0)
      | fuel' + 1 =>
        if is_max then
          allCells.foldl
            (fun acc ij =>
              if acc.1.getTile ij.1 ij.2 = Tile.Free then
                let b1 := acc.1.setTile ij.1 ij.2 acc.1.computer_tile
                let b2 := b1.change_player
                let r := Board.minimax b2 fuel' (depth + 1) (!is_max)
                let best := imax acc.2 r.2
                let b3 := r.1.setTile ij.1 ij.2 Tile.Free
                (b3.change_player, best)
              else acc)
            (b, -1000)
        else
          allCells.foldl
            (fun acc ij =>
              if acc.1.getTile ij.1 ij.2 = Tile.Free then
                let b1 := acc.1.setTile ij.1 ij.2 acc.1.player_tile
                let b2 := b1.change_player
                let r := Board.minimax b2 fuel' (depth + 1) (!is_max)
                let best := imin acc.2 r.2
                let b3 := r.1.setTile ij.1 ij.2 Tile.Free
                (b3.change_player, best)
              else acc)
            (b, 1000)

/-- The move-selection loop of Rust's Board::computer_move: fold over all
cells tracking the restored board, the best value seen (seed -1000) and the
best move ((0,0) initially), updating on strict improvement. -/
def Board.best_search (b : Board) : Board × Int × (Nat × Nat) :=
  allCells.foldl
    (fun acc ij =>
      if acc.1.getTile ij.1 ij.2 = Tile.Free then
        let b1 := acc.1.setTile ij.1 ij.2 acc.1.computer_tile
        let r := b1.minimax 9 0 false
        let b2 := r.1.setTile ij.1 ij.2 Tile.Free
        if r.2 > acc.2.1 then (b2, r.2, ij) else (b2, acc.2.1, acc.2.2)
      else acc)
    (b, -1000, (0, 0))

/-- Rust MinimaxGame::computer_move for Board: panics (modelled as none)
when no tile is free, else runs the selection loop and applies the best
move with the computer's tile. -/
def Board.computer_move (b : Board) : Option Board :=
  if b.has_free_tiles = false then none
  else
    let r := b.best_search
    some (r.1.make_move r.2.2 r.1.computer_tile)

/-- Rust Board::minimax_player: the side-mirrored search (places the
player's tile when maximizing and the computer's when minimizing, scored
by evaluate_player). -/
def Board.minimax_player : Board → Nat → Int → Bool → Board × Int
  | b, fuel, depth, is_max =>
    let score := b.evaluate_player
    if score = 10 then (b, score - depth)
    else if score = -10 then (b, score + depth)
    else if b.has_free_tiles = false then (b, 0)
    else
      match fuel with
      | 0 => (b, 0)
      | fuel' + 1 =>
        if is_max then
          allCells.foldl
            (fun acc ij =>
              if acc.1.getTile ij.1 ij.2 = Tile.Free then
                let b1 := acc.1.setTile ij.1 ij.2 acc.1.player_tile
                let b2 := b1.change_player
                let r := Board.minimax_player b2 fuel' (depth + 1) (!is_max)
                let best := imax acc.2 r.2
                let b3 := r.1.setTile ij.1 ij.2 Tile.Free
                (b3.change_player, best)
              else acc)
            (b, -1000)
        else
          allCells.foldl
            (fun acc ij =>
              if acc.1.getTile ij.1 ij.2 = Tile.Free then
                let b1 := acc.1.setTile ij.1 ij.2 acc.1.computer_tile
                let b2 := b1.change_player
                let r := Board.minimax_player b2 fuel' (depth + 1) (!is_max)
                let best := imin acc.2 r.2
                let b3 := r.1.setTile ij.1 ij.2 Tile.Free
                (b3.change_player, best)
              else acc)
            (b, 1000)

/-- The move-selection loop of Rust's Board::computer_player_move. -/
def Board.best_search_player (b : Board) : Board × Int × (Nat × Nat) :=
  allCells.foldl
    (fun acc ij =>
      if acc.1.getTile ij.1 ij.2 = Tile.Free then
        let b1 := acc.1.setTile ij.1 ij.2 acc.1.player_tile
        let r := b1.minimax_player 9 0 false
        let b2 := r.1.setTile ij.1 ij.2 Tile.Free
        if r.2 > acc.2.1 then (b2, r.2, ij) else (b2, acc.2.1, acc.2.2)
      else acc)
    (b, -1000, (0, 0))

/-- Rust Board::computer_player_move: the side-mirrored move chooser. -/
def Board.computer_player_move (b : Board) : Option Board :=
  if b.has_free_tiles = false then none
  else
    let r := b.best_search_player
    some (r.1.make_move r.2.2 r.1.player_tile)

/-- The empty board as constructed in main: all cells Free, X for the
computer, O for the player; the computer about to move. -/
def emptyBoard : Board :=
  ⟨[[Tile.Free, Tile.Free, Tile.Free],
    [Tile.Free, Tile.Free, Tile.Free],
    [Tile.Free, Tile.Free, Tile.Free]],
   Move.Computer, Tile.X, Tile.O⟩

/-- One step of the self-play loop of the test pc_vs_pc_1move_by_player:
the side to move plays with its engine. -/
def gameStep (b : Board) : Option Board :=
  match b.current_move with
  | Move.Player => b.computer_player_move
  | Move.Computer => b.computer_move

/-- Iterating n self-play steps, each followed by change_player, as the
test's inner for loop does. -/
def runMoves : Nat → Board → Option Board
  | 0, b => some b
  | n + 1, b => (gameStep b).bind fun b' => runMoves n b'.change_player

/-- One iteration of the test pc_vs_pc_1move_by_player: the player's tile
is placed at cell (first_move / 3, first_move % 3) of the empty board, then
the two engines alternate for the remaining 8 moves, and the final board is
analysed. -/
def playGame (first_move : Nat) : Option GameState :=
  let row := first_move / 3
  let col := first_move % 3
  let b := emptyBoard.setTile row col emptyBoard.player_tile
  (runMoves 8 b).bind Board.analyse

/-! ## Small list lemmas about set and getD -/

theorem list_set_oob {α : Type} : ∀ (l : List α) (i : Nat) (x : α), l.length ≤ i → l.set i x = l
  | [], _, _, _ => rfl
  | _ :: _, 0, _, h => absurd h (by simp)
  | a :: l, i + 1, x, h => by
    simp only [List.set]
    exact congrArg (a :: ·) (list_set_oob l i x (by simpa using h))

theorem list_getD_oob {α : Type} : ∀ (l : List α) (i : Nat) (d : α), l.length ≤ i → l.getD i d = d
  | [], _, _, _ => rfl
  | _ :: _, 0, _, h => absurd h (by simp)
  | _ :: l, i + 1, d, h => by
    simpa using list_getD_oob l i d (by simpa using h)

theorem list_getD_set_self {α : Type} :
    ∀ (l : List α) (i : Nat) (x d : α), i < l.length → (l.set i x).getD i d = x
  | [], i, _, _, h => absurd h (by simp)
  | _ :: _, 0, _, _, _ => rfl
  | _ :: l, i + 1, x, d, h => by
    simpa using list_getD_set_self l i x d (by simpa using h)

theorem list_getD_set_ne {α : Type} :
    ∀ (l : List α) (i j : Nat) (x d : α), i ≠ j → (l.set i x).getD j d = l.getD j d
  | [], _, _, _, _, _ => rfl
  | _ :: _, 0, 0, _, _, h => absurd rfl h
  | _ :: _, 0, _ + 1, _, _, _ => rfl
  | _ :: _, _ + 1, 0, _, _, _ => rfl
  | _ :: l, i + 1, j + 1, x, d, h => by
    simp only [List.set, List.getD_cons_succ]
    exact list_getD_set_ne l i j x d (fun e => h (by omega))

theorem list_set_getD_self {α : Type} :
    ∀ (l : List α) (i : Nat) (d : α), i < l.length → l.set i (l.getD i d) = l
  | [], i, _, h => absurd h (by simp)
  | _ :: _, 0, _, _ => rfl
  | a :: l, i + 1, d, h => by
    simp only [List.set, List.getD_cons_succ]
    exact congrArg (a :: ·) (list_set_getD_self l i d (by simpa using h))

/-! ## Board cell update lemmas -/

theorem fieldSet_revert (f : List (List Tile)) (i j : Nat) (t : Tile)
    (h : fieldGet f i j = Tile.Free) : fieldSet (fieldSet f i j t) i j Tile.Free = f := by
  unfold fieldSet fieldGet at *
  by_cases hi : i < f.length
  · have hrow : (f.set i ((f.getD i []).set j t)).getD i [] = (f.getD i []).set j t :=
      list_getD_set_self f i _ [] hi
    rw [hrow, List.set_set, List.set_set]
    by_cases hj : j < (f.getD i []).length
    · rw [← h, list_set_getD_self _ j _ hj]
      exact list_set_getD_self f i [] hi
    · rw [list_set_oob _ j _ (by omega)]
      exact list_set_getD_self f i [] hi
  · have h1 : f.set i ((f.getD i []).set j t) = f := list_set_oob f i _ (by omega)
    rw [h1]
    exact list_set_oob f i _ (by omega)

theorem setTile_revert (b : Board) (i j : Nat) (t : Tile)
    (h : b.getTile i j = Tile.Free) : (b.setTile i j t).setTile i j Tile.Free = b := by
  cases b
  simp only [Board.setTile, Board.getTile] at *
  congr 1
  exact fieldSet_revert _ i j t h

theorem setTile_change_player (b : Board) (i j : Nat) (t : Tile) :
    (b.change_player).setTile i j t = (b.setTile i j t).change_player := rfl

theorem change_player_change_player (b : Board) : b.change_player.change_player = b := by
  cases b with
  | mk f cm ct pt => cases cm <;> rfl

theorem getTile_change_player (b : Board) (i j : Nat) :
    b.change_player.getTile i j = b.getTile i j := rfl

theorem computer_tile_change_player (b : Board) :
    b.change_player.computer_tile = b.computer_tile := rfl

theorem player_tile_change_player (b : Board) :
    b.change_player.player_tile = b.player_tile := rfl

theorem getTile_setTile_ne (b : Board) (i j i' j' : Nat) (t : Tile)
    (h : (i, j) ≠ (i', j')) : (b.setTile i j t).getTile i' j' = b.getTile i' j' := by
  simp only [Board.setTile, Board.getTile, fieldSet, fieldGet]
  by_cases hi : i = i'
  · subst hi
    have hj : j ≠ j' := fun e => h (by rw [e])
    by_cases hlen : i < b.field.length
    · rw [list_getD_set_self b.field i _ [] hlen]
      exact list_getD_set_ne _ j j' t Tile.Free hj
    · rw [list_set_oob b.field i _ (by omega)]
  · rw [list_getD_set_ne b.field i i' _ [] hi]

theorem getTile_setTile_self (b : Board) (i j : Nat) (t : Tile)
    (hwf : WF b) (hi : i < 3) (hj : j < 3) : (b.setTile i j t).getTile i j = t := by
  obtain ⟨hlen, hrows⟩ := hwf
  simp only [Board.setTile, Board.getTile, fieldSet, fieldGet]
  have hil : i < b.field.length := by omega
  rw [list_getD_set_self b.field i _ [] hil]
  have hrow : (b.field.getD i []).length = 3 := by
    have hmem : b.field.getD i [] ∈ b.field := by
      rw [List.getD_eq_getElem?_getD, List.getElem?_eq_getElem hil]
      simp only [Option.getD_some]
      exact List.getElem_mem hil
    exact hrows _ hmem
  exact list_getD_set_self _ j t Tile.Free (by omega)

theorem setTile_current_move (b : Board) (i j : Nat) (t : Tile) :
    (b.setTile i j t).current_move = b.current_move := rfl

theorem setTile_computer_tile (b : Board) (i j : Nat) (t : Tile) :
    (b.setTile i j t).computer_tile = b.computer_tile := rfl

theorem setTile_player_tile (b : Board) (i j : Nat) (t : Tile) :
    (b.setTile i j t).player_tile = b.player_tile := rfl

/-! ## Generic lemmas about the fold loops -/

theorem foldl_fst {α β γ : Type} (step : α × γ → β → α × γ) (a : α)
    (h : ∀ v x, (step (a, v) x).1 = a) :
    ∀ (l : List β) (v : γ), (l.foldl step (a, v)).1 = a
  | [], _ => rfl
  | x :: t, v => by
    rcases hs : step (a, v) x with ⟨a', v'⟩
    have h1 : a' = a := by have := h v x; rw [hs] at this; exact this
    rw [List.foldl_cons, hs, h1]
    exact foldl_fst step a h t v'

theorem foldl_pure {α β γ : Type} (step : α × γ → β → α × γ) (g : γ → β → γ) (a : α)
    (h : ∀ v x, step (a, v) x = (a, g v x)) :
    ∀ (l : List β) (v : γ), l.foldl step (a, v) = (a, l.foldl g v)
  | [], _ => rfl
  | x :: t, v => by
    rw [List.foldl_cons, h v x, List.foldl_cons]
    exact foldl_pure step g a h t (g v x)

theorem foldl_congr_on {β γ : Type} (step step' : γ → β → γ) :
    ∀ (l : List β), (∀ v x, x ∈ l → step v x = step' v x) →
      ∀ v, l.foldl step v = l.foldl step' v
  | [], _, _ => rfl
  | x :: t, h, v => by
    rw [List.foldl_cons, List.foldl_cons, h v x (by simp)]
    exact foldl_congr_on step step' t (fun v y hy => h v y (by simp [hy])) _

theorem imax_cases (a b : Int) : imax a b = a ∨ imax a b = b := by
  unfold imax; split_ifs <;> simp

theorem imin_cases (a b : Int) : imin a b = a ∨ imin a b = b := by
  unfold imin; split_ifs <;> simp

theorem le_imax_left (a b : Int) : a ≤ imax a b := by
  unfold imax; split_ifs <;> omega

theorem le_imax_right (a b : Int) : b ≤ imax a b := by
  unfold imax; split_ifs <;> omega

theorem imin_le_left (a b : Int) : imin a b ≤ a := by
  unfold imin; split_ifs <;> omega

theorem imin_le_right (a b : Int) : imin a b ≤ b := by
  unfold imin; split_ifs <;> omega

/-- The max-accumulating loops only grow the accumulator. -/
theorem foldl_imax_ge_init {β : Type} (guard : β → Prop) [DecidablePred guard] (f : β → Int) :
    ∀ (l : List β) (s : Int),
      s ≤ l.foldl (fun v x => if guard x then imax v (f x) else v) s
  | [], s => le_refl s
  | x :: t, s => by
    rw [List.foldl_cons]
    refine le_trans ?_ (foldl_imax_ge_init guard f t _)
    split
    · exact le_imax_left s (f x)
    · exact le_refl s

/-- The max-accumulating loop dominates every guarded element. -/
theorem foldl_imax_ge_elem {β : Type} (guard : β → Prop) [DecidablePred guard] (f : β → Int) :
    ∀ (l : List β) (s : Int) (x : β), x ∈ l → guard x →
      f x ≤ l.foldl (fun v y => if guard y then imax v (f y) else v) s
  | [], _, _, hx, _ => absurd hx (by simp)
  | y :: t, s, x, hx, hg => by
    rw [List.foldl_cons]
    rcases List.mem_cons.mp hx with he | ht
    · subst he
      refine le_trans ?_ (foldl_imax_ge_init guard f t _)
      rw [if_pos hg]
      exact le_imax_right s (f x)
    · exact foldl_imax_ge_elem guard f t _ x ht hg

/-- The max-accumulating loop returns the seed or some guarded element. -/
theorem foldl_imax_mem {β : Type} (guard : β → Prop) [DecidablePred guard] (f : β → Int) :
    ∀ (l : List β) (s : Int),
      l.foldl (fun v y => if guard y then imax v (f y) else v) s = s ∨
      ∃ x, x ∈ l ∧ guard x ∧
        l.foldl (fun v y => if guard y then imax v (f y) else v) s = f x
  | [], s => Or.inl rfl
  | y :: t, s => by
    rw [List.foldl_cons]
    by_cases hg : guard y
    · rw [if_pos hg]
      rcases imax_cases s (f y) with he | he <;> rw [he]
      · rcases foldl_imax_mem guard f t s with h | ⟨x, hx, hgx, hv⟩
        · exact Or.inl h
        · exact Or.inr ⟨x, by simp [hx], hgx, hv⟩
      · rcases foldl_imax_mem guard f t (f y) with h | ⟨x, hx, hgx, hv⟩
        · exact Or.inr ⟨y, by simp, hg, h⟩
        · exact Or.inr ⟨x, by simp [hx], hgx, hv⟩
    · rw [if_neg hg]
      rcases foldl_imax_mem guard f t s with h | ⟨x, hx, hgx, hv⟩
      · exact Or.inl h
      · exact Or.inr ⟨x, by simp [hx], hgx, hv⟩

/-- The min-accumulating loops only shrink the accumulator. -/
theorem foldl_imin_le_init {β : Type} (guard : β → Prop) [DecidablePred guard] (f : β → Int) :
    ∀ (l : List β) (s : Int),
      l.foldl (fun v x => if guard x then imin v (f x) else v) s ≤ s
  | [], s => le_refl s
  | x :: t, s => by
    rw [List.foldl_cons]
    refine le_trans (foldl_imin_le_init guard f t _) ?_
    split
    · exact imin_le_left s (f x)
    · exact le_refl s

/-- The min-accumulating loop is below every guarded element. -/
theorem foldl_imin_le_elem {β : Type} (guard : β → Prop) [DecidablePred guard] (f : β → Int) :
    ∀ (l : List β) (s : Int) (x : β), x ∈ l → guard x →
      l.foldl (fun v y => if guard y then imin v (f y) else v) s ≤ f x
  | [], _, _, hx, _ => absurd hx (by simp)
  | y :: t, s, x, hx, hg => by
    rw [List.foldl_cons]
    rcases List.mem_cons.mp hx with he | ht
    · subst he
      refine le_trans (foldl_imin_le_init guard f t _) ?_
      rw [if_pos hg]
      exact imin_le_right s (f x)
    · exact foldl_imin_le_elem guard f t _ x ht hg

/-- The min-accumulating loop returns the seed or some guarded element. -/
theorem foldl_imin_mem {β : Type} (guard : β → Prop) [DecidablePred guard] (f : β → Int) :
    ∀ (l : List β) (s : Int),
      l.foldl (fun v y => if guard y then imin v (f y) else v) s = s ∨
      ∃ x, x ∈ l ∧ guard x ∧
        l.foldl (fun v y => if guard y then imin v (f y) else v) s = f x
  | [], s => Or.inl rfl
  | y :: t, s => by
    rw [List.foldl_cons]
    by_cases hg : guard y
    · rw [if_pos hg]
      rcases imin_cases s (f y) with he | he <;> rw [he]
      · rcases foldl_imin_mem guard f t s with h | ⟨x, hx, hgx, hv⟩
        · exact Or.inl h
        · exact Or.inr ⟨x, by simp [hx], hgx, hv⟩
      · rcases foldl_imin_mem guard f t (f y) with h | ⟨x, hx, hgx, hv⟩
        · exact Or.inr ⟨y, by simp, hg, h⟩
        · exact Or.inr ⟨x, by simp [hx], hgx, hv⟩
    · rw [if_neg hg]
      rcases foldl_imin_mem guard f t s with h | ⟨x, hx, hgx, hv⟩
      · exact Or.inl h
      · exact Or.inr ⟨x, by simp [hx], hgx, hv⟩

/-- The search recursion hands the board back exactly as it received it:
every hypothetical placement is reverted and every turn toggle undone. -/
theorem minimax_fst_eq (fuel : Nat) :
    ∀ (b : Board) (d : Int) (m : Bool), (b.minimax fuel d m).1 = b := by
  induction fuel with
  | zero =>
    intro b d m
    simp only [Board.minimax]
    split_ifs <;> rfl
  | succ fuel ih =>
    intro b d m
    simp only [Board.minimax]
    split_ifs with h1 h2 h3 h4
    · rfl
    · rfl
    · rfl
    · refine foldl_fst _ b ?_ allCells _
      intro v x
      dsimp only
      split_ifs with hg
      · dsimp only
        rw [ih]
        rw [setTile_change_player, change_player_change_player,
          setTile_revert _ _ _ _ hg]
      · rfl
    · refine foldl_fst _ b ?_ allCells _
      intro v x
      dsimp only
      split_ifs with hg
      · dsimp only
        rw [ih]
        rw [setTile_change_player, change_player_change_player,
          setTile_revert _ _ _ _ hg]
      · rfl

/-- Mirror-engine counterpart of the restoration invariant. -/
theorem minimax_player_fst_eq (fuel : Nat) :
    ∀ (b : Board) (d : Int) (m : Bool), (b.minimax_player fuel d m).1 = b := by
  induction fuel with
  | zero =>
    intro b d m
    simp only [Board.minimax_player]
    split_ifs <;> rfl
  | succ fuel ih =>
    intro b d m
    simp only [Board.minimax_player]
    split_ifs with h1 h2 h3 h4
    · rfl
    · rfl
    · rfl
    · refine foldl_fst _ b ?_ allCells _
      intro v x
      dsimp only
      split_ifs with hg
      · dsimp only
        rw [ih]
        rw [setTile_change_player, change_player_change_player,
          setTile_revert _ _ _ _ hg]
      · rfl
    · refine foldl_fst _ b ?_ allCells _
      intro v x
      dsimp only
      split_ifs with hg
      · dsimp only
        rw [ih]
        rw [setTile_change_player, change_player_change_player,
          setTile_revert _ _ _ _ hg]
      · rfl

/-! ## Spec-side predicates (from the specification text, for claim C3) -/

/-- Spec: some row, column, or diagonal holds three identical non-Empty
marks. -/
def specHasLine (b : Board) : Prop :=
  (∃ r < 3, b.getTile r 0 = b.getTile r 1 ∧ b.getTile r 1 = b.getTile r 2 ∧
    b.getTile r 0 ≠ Tile.Free) ∨
  (∃ c < 3, b.getTile 0 c = b.getTile 1 c ∧ b.getTile 1 c = b.getTile 2 c ∧
    b.getTile 0 c ≠ Tile.Free) ∨
  (b.getTile 0 0 = b.getTile 1 1 ∧ b.getTile 1 1 = b.getTile 2 2 ∧
    b.getTile 0 0 ≠ Tile.Free) ∨
  (b.getTile 0 2 = b.getTile 1 1 ∧ b.getTile 1 1 = b.getTile 2 0 ∧
    b.getTile 0 2 ≠ Tile.Free)

instance (b : Board) : Decidable (specHasLine b) := by
  unfold specHasLine; infer_instance

/-- Spec: no cell is Empty. -/
def specNoFree (b : Board) : Prop :=
  ∀ i < 3, ∀ j < 3, b.getTile i j ≠ Tile.Free

instance (b : Board) : Decidable (specNoFree b) := by
  unfold specNoFree; infer_instance

/-- Every well-formed board is a 3x3 grid of nine tiles. -/
theorem wf_cells (b : Board) (hwf : WF b) :
    ∃ t00 t01 t02 t10 t11 t12 t20 t21 t22 : Tile,
      b.field = [[t00, t01, t02], [t10, t11, t12], [t20, t21, t22]] := by
  obtain ⟨hlen, hrows⟩ := hwf
  obtain ⟨r0, r1, r2, hb⟩ := List.length_eq_three.mp hlen
  obtain ⟨a0, a1, a2, h0⟩ := List.length_eq_three.mp (hrows r0 (by rw [hb]; simp))
  obtain ⟨b0, b1, b2, hr1⟩ := List.length_eq_three.mp (hrows r1 (by rw [hb]; simp))
  obtain ⟨c0, c1, c2, hr2⟩ := List.length_eq_three.mp (hrows r2 (by rw [hb]; simp))
  exact ⟨a0, a1, a2, b0, b1, b2, c0, c1, c2, by rw [hb, h0, hr1, hr2]⟩

/-- analyse reads only the grid and current_move, never the tile
assignments (the conditions compare grid cells and the result quotes
current_move). -/
theorem analyse_mk_tiles (f : List (List Tile)) (cm : Move) (ct pt : Tile) :
    Board.analyse ⟨f, cm, ct, pt⟩ = Board.analyse ⟨f, cm, Tile.X, Tile.O⟩ := rfl


/-- The code's eight-way line check is exactly the spec's row, column, or
diagonal condition. -/
theorem lineWon_iff_spec (b : Board) : b.lineWon ↔ specHasLine b := by
  unfold Board.lineWon specHasLine
  constructor
  · rintro (h | h | h | h | h | h | h | h)
    · exact Or.inl ⟨0, by norm_num, h⟩
    · exact Or.inl ⟨1, by norm_num, h⟩
    · exact Or.inl ⟨2, by norm_num, h⟩
    · exact Or.inr (Or.inl ⟨0, by norm_num, h⟩)
    · exact Or.inr (Or.inl ⟨1, by norm_num, h⟩)
    · exact Or.inr (Or.inl ⟨2, by norm_num, h⟩)
    · exact Or.inr (Or.inr (Or.inl h))
    · exact Or.inr (Or.inr (Or.inr h))
  · rintro (⟨r, hr, h⟩ | ⟨c, hc, h⟩ | h | h)
    · interval_cases r
      · exact Or.inl h
      · exact Or.inr (Or.inl h)
      · exact Or.inr (Or.inr (Or.inl h))
    · interval_cases c
      · exact Or.inr (Or.inr (Or.inr (Or.inl h)))
      · exact Or.inr (Or.inr (Or.inr (Or.inr (Or.inl h))))
      · exact Or.inr (Or.inr (Or.inr (Or.inr (Or.inr (Or.inl h)))))
    · exact Or.inr (Or.inr (Or.inr (Or.inr (Or.inr (Or.inr (Or.inl h))))))
    · exact Or.inr (Or.inr (Or.inr (Or.inr (Or.inr (Or.inr (Or.inr h))))))

/-- On a well-formed board, having a free tile is the negation of the
spec's "no cell is Empty". -/
theorem has_free_iff_not_specNoFree (b : Board) (hwf : WF b) :
    b.has_free_tiles = true ↔ ¬ specNoFree b := by
  obtain ⟨t00, t01, t02, t10, t11, t12, t20, t21, t22, hf⟩ := wf_cells b hwf
  obtain ⟨f, cm, ct, pt⟩ := b
  simp only at hf
  subst hf
  unfold specNoFree
  push_neg
  constructor
  · intro h
    simp only [Board.has_free_tiles, List.any_eq_true, List.mem_cons,
      List.not_mem_nil, or_false, List.contains, List.elem_eq_mem,
      decide_eq_true_eq] at h
    obtain ⟨row, hrow, hc⟩ := h
    rcases hrow with h0 | h1 | h2
    · subst h0
      rcases List.mem_cons.mp hc with he | hc
      · exact ⟨0, by norm_num, 0, by norm_num, he.symm⟩
      rcases List.mem_cons.mp hc with he | hc
      · exact ⟨0, by norm_num, 1, by norm_num, he.symm⟩
      rcases List.mem_cons.mp hc with he | hc
      · exact ⟨0, by norm_num, 2, by norm_num, he.symm⟩
      · simp at hc
    · subst h1
      rcases List.mem_cons.mp hc with he | hc
      · exact ⟨1, by norm_num, 0, by norm_num, he.symm⟩
      rcases List.mem_cons.mp hc with he | hc
      · exact ⟨1, by norm_num, 1, by norm_num, he.symm⟩
      rcases List.mem_cons.mp hc with he | hc
      · exact ⟨1, by norm_num, 2, by norm_num, he.symm⟩
      · simp at hc
    · subst h2
      rcases List.mem_cons.mp hc with he | hc
      · exact ⟨2, by norm_num, 0, by norm_num, he.symm⟩
      rcases List.mem_cons.mp hc with he | hc
      · exact ⟨2, by norm_num, 1, by norm_num, he.symm⟩
      rcases List.mem_cons.mp hc with he | hc
      · exact ⟨2, by norm_num, 2, by norm_num, he.symm⟩
      · simp at hc
  · rintro ⟨i, hi, j, hj, h⟩
    simp only [Board.has_free_tiles, List.any_eq_true, List.mem_cons,
      List.not_mem_nil, or_false, List.contains, List.elem_eq_mem,
      decide_eq_true_eq]
    interval_cases i <;> interval_cases j
    · exact ⟨[t00, t01, t02], Or.inl rfl, by rw [← h]; simp [Board.getTile, fieldGet]⟩
    · exact ⟨[t00, t01, t02], Or.inl rfl, by rw [← h]; simp [Board.getTile, fieldGet]⟩
    · exact ⟨[t00, t01, t02], Or.inl rfl, by rw [← h]; simp [Board.getTile, fieldGet]⟩
    · exact ⟨[t10, t11, t12], Or.inr (Or.inl rfl), by rw [← h]; simp [Board.getTile, fieldGet]⟩
    · exact ⟨[t10, t11, t12], Or.inr (Or.inl rfl), by rw [← h]; simp [Board.getTile, fieldGet]⟩
    · exact ⟨[t10, t11, t12], Or.inr (Or.inl rfl), by rw [← h]; simp [Board.getTile, fieldGet]⟩
    · exact ⟨[t20, t21, t22], Or.inr (Or.inr rfl), by rw [← h]; simp [Board.getTile, fieldGet]⟩
    · exact ⟨[t20, t21, t22], Or.inr (Or.inr rfl), by rw [← h]; simp [Board.getTile, fieldGet]⟩
    · exact ⟨[t20, t21, t22], Or.inr (Or.inr rfl), by rw [← h]; simp [Board.getTile, fieldGet]⟩

/-- C3: analyse returns Win(current_move) exactly when some row, column, or
diagonal holds three identical non-Empty marks, Draw exactly when no such
line exists and no cell is Empty, and none (in progress) otherwise. -/
theorem c3_analyse_cases (b : Board) (hwf : WF b) :
    (b.analyse = some (GameState.Win b.current_move) ↔ specHasLine b) ∧
    (b.analyse = some GameState.Draw ↔ ¬ specHasLine b ∧ specNoFree b) ∧
    (b.analyse = none ↔ ¬ specHasLine b ∧ ¬ specNoFree b) := by
  have hline := lineWon_iff_spec b
  have hfree := has_free_iff_not_specNoFree b hwf
  unfold Board.analyse
  by_cases hl : b.lineWon
  · have hs : specHasLine b := hline.mp hl
    rw [if_pos hl]
    refine ⟨by simp [hs], ?_, ?_⟩
    · constructor
      · intro h; simp at h
      · rintro ⟨hns, _⟩; exact absurd hs hns
    · constructor
      · intro h; simp at h
      · rintro ⟨hns, _⟩; exact absurd hs hns
  · have hns : ¬ specHasLine b := fun hs => hl (hline.mpr hs)
    rw [if_neg hl]
    by_cases hf : b.has_free_tiles = true
    · rw [if_pos hf]
      have hnf : ¬ specNoFree b := hfree.mp hf
      exact ⟨by simp [hns], by simp [hnf], by simp [hns, hnf]⟩
    · rw [if_neg hf]
      have hnf : specNoFree b := by
        by_contra hcon
        exact hf (hfree.mpr hcon)
      exact ⟨by simp [hns], by simp [hns, hnf], by simp [hnf]⟩

/-- Witness for C3 at the empty board. -/
theorem c3_analyse_cases_witness :
    WF emptyBoard ∧
    ((emptyBoard.analyse = some (GameState.Win emptyBoard.current_move) ↔ specHasLine emptyBoard) ∧
     (emptyBoard.analyse = some GameState.Draw ↔ ¬ specHasLine emptyBoard ∧ specNoFree emptyBoard) ∧
     (emptyBoard.analyse = none ↔ ¬ specHasLine emptyBoard ∧ ¬ specNoFree emptyBoard)) :=
  ⟨by decide, c3_analyse_cases emptyBoard (by decide)⟩

/-- A board whose grid has a complete X line, with the computer to move. -/
def c2_board1 : Board :=
  ⟨[[Tile.X, Tile.X, Tile.X], [Tile.O, Tile.O, Tile.Free], [Tile.Free, Tile.Free, Tile.Free]],
   Move.Computer, Tile.X, Tile.O⟩

/-- Same grid, but with the player recorded as the current mover. -/
def c2_board2 : Board :=
  ⟨[[Tile.X, Tile.X, Tile.X], [Tile.O, Tile.O, Tile.Free], [Tile.Free, Tile.Free, Tile.Free]],
   Move.Player, Tile.X, Tile.O⟩

/-- C2 counterexample: two boards with cell-for-cell identical grids on
which analyse disagrees, because analyse attributes the win to
current_move, which differs. -/
theorem c2_counterexample :
    c2_board1.field = c2_board2.field ∧ c2_board1.analyse ≠ c2_board2.analyse := by
  decide

/-- C2 amended: analyse is a pure function of the grid AND current_move
(tile assignments are irrelevant); in particular calling it twice without
mutation yields identical results. -/
theorem c2_analyse_pure (b1 b2 : Board)
    (hf : b1.field = b2.field) (hm : b1.current_move = b2.current_move) :
    b1.analyse = b2.analyse := by
  obtain ⟨f1, cm1, ct1, pt1⟩ := b1
  obtain ⟨f2, cm2, ct2, pt2⟩ := b2
  simp only at hf hm
  subst hf; subst hm
  rfl

/-- Witness for the amended C2: same grid and mover, different tile
assignments, equal analyse results. -/
theorem c2_analyse_pure_witness :
    c2_board1.analyse = (Board.mk c2_board1.field Move.Computer Tile.O Tile.X).analyse :=
  c2_analyse_pure c2_board1 (Board.mk c2_board1.field Move.Computer Tile.O Tile.X) rfl rfl

/-- C6: the move choosers signal the fatal "No free tiles!" error (modelled
as none) exactly when the board has no Free cell. -/
theorem c6_engine_full_board_panics (b : Board) (_hwf : WF b) :
    (b.computer_move = none ↔ b.has_free_tiles = false) ∧
    (b.computer_player_move = none ↔ b.has_free_tiles = false) := by
  constructor
  · unfold Board.computer_move
    split_ifs with h
    · simp [h]
    · simp [h]
  · unfold Board.computer_player_move
    split_ifs with h
    · simp [h]
    · simp [h]

/-- Witness for C6 at a full board and at the empty board. -/
theorem c6_engine_full_board_panics_witness :
    WF emptyBoard ∧
    ((emptyBoard.computer_move = none ↔ emptyBoard.has_free_tiles = false) ∧
     (emptyBoard.computer_player_move = none ↔ emptyBoard.has_free_tiles = false)) :=
  ⟨by decide, c6_engine_full_board_panics emptyBoard (by decide)⟩

/-- C7: check_move accepts exactly the in-range Free cells, reports the
bounds message out of range and the free-tile message on occupied cells;
it takes the board by shared reference and cannot mutate it. -/
theorem c7_check_move_spec (b : Board) (_hwf : WF b) (row col : Nat) :
    (b.check_move (row, col) = Except.ok (row, col) ↔
      row < 3 ∧ col < 3 ∧ b.getTile row col = Tile.Free) ∧
    (¬ (row < 3 ∧ col < 3) →
      b.check_move (row, col) =
        Except.error "Place tile in bounds (0 <= col <= 2, 0 <= row <= 2)!") ∧
    (row < 3 → col < 3 → b.getTile row col ≠ Tile.Free →
      b.check_move (row, col) = Except.error "Choose free tile!") := by
  unfold Board.check_move
  dsimp only
  split_ifs with hb hfree
  · refine ⟨?_, ?_, ?_⟩
    · constructor
      · intro _; exact ⟨by omega, by omega, hfree⟩
      · intro _; rfl
    · intro h; exact absurd ⟨by omega, by omega⟩ h
    · intro _ _ h; exact absurd hfree h
  · refine ⟨?_, ?_, ?_⟩
    · constructor
      · intro h; simp at h
      · rintro ⟨_, _, h⟩; exact absurd h hfree
    · intro h; exact absurd ⟨by omega, by omega⟩ h
    · intro _ _ _; rfl
  · refine ⟨?_, ?_, ?_⟩
    · constructor
      · intro h; simp at h
      · rintro ⟨h1, h2, _⟩; exact absurd ⟨by omega, by omega⟩ hb
    · intro _; rfl
    · intro h1 h2 _; exact absurd ⟨by omega, by omega⟩ hb

/-- Witness for C7: in-range free cell accepted, out-of-range rejected. -/
theorem c7_check_move_spec_witness :
    WF emptyBoard ∧
    (emptyBoard.check_move (0, 0) = Except.ok (0, 0) ↔
      0 < 3 ∧ 0 < 3 ∧ emptyBoard.getTile 0 0 = Tile.Free) :=
  ⟨by decide, (c7_check_move_spec emptyBoard (by decide) 0 0).1⟩

/-- C8: the scorer returns 10 - depth on a win for the computer, -10 +
depth on a win for the player, and 0 on a full drawn board, before any
recursion (the equations hold for every fuel value, including 0). -/
theorem c8_minimax_terminal (b : Board) (fuel : Nat) (d : Int) (m : Bool) :
    (b.analyse = some (GameState.Win Move.Computer) → b.minimax fuel d m = (b, 10 - d)) ∧
    (b.analyse = some (GameState.Win Move.Player) → b.minimax fuel d m = (b, -10 + d)) ∧
    (b.analyse ≠ some (GameState.Win Move.Computer) →
      b.analyse ≠ some (GameState.Win Move.Player) →
      b.has_free_tiles = false → b.minimax fuel d m = (b, 0)) := by
  refine ⟨?_, ?_, ?_⟩
  · intro h
    have he : b.evaluate = 10 := by simp [Board.evaluate, h]
    unfold Board.minimax
    simp [he]
  · intro h
    have he : b.evaluate = -10 := by simp [Board.evaluate, h]
    unfold Board.minimax
    simp [he]
  · intro h1 h2 hf
    have he : b.evaluate = 0 := by
      unfold Board.evaluate
      rcases ha : b.analyse with _ | gs
      · rfl
      · rcases gs with mv | _
        · rcases mv with _ | _
          · exact absurd ha h2
          · exact absurd ha h1
        · rfl
    unfold Board.minimax
    simp [he, hf]

/-- Witness for C8 at a board with a complete computer line. -/
theorem c8_minimax_terminal_witness :
    c2_board1.analyse = some (GameState.Win Move.Computer) ∧
    c2_board1.minimax 5 2 true = (c2_board1, 10 - 2) :=
  ⟨by decide, (c8_minimax_terminal c2_board1 5 2 true).1 (by decide)⟩

/-! ## The side-mirror between the two engine variants (claim C9) -/

/-- Flipping a side, as change_player does. -/
def flipMove : Move → Move
  | Move.Player => Move.Computer
  | Move.Computer => Move.Player

/-- The board obtained by exchanging computer_tile with player_tile and
flipping current_move; the grid is untouched. -/
def mirror (b : Board) : Board :=
  ⟨b.field, flipMove b.current_move, b.player_tile, b.computer_tile⟩

theorem mirror_change_player (b : Board) :
    mirror (b.change_player) = (mirror b).change_player := by
  cases b with
  | mk f cm ct pt => cases cm <;> rfl

theorem mirror_setTile (b : Board) (i j : Nat) (t : Tile) :
    mirror (b.setTile i j t) = (mirror b).setTile i j t := rfl

/-- The mirrored board is scored by evaluate exactly as the original is
scored by evaluate_player. -/
theorem evaluate_mirror (b : Board) : (mirror b).evaluate = b.evaluate_player := by
  unfold Board.evaluate Board.evaluate_player Board.analyse
  have hlm : (mirror b).lineWon ↔ b.lineWon := Iff.rfl
  by_cases h : b.lineWon
  · rw [if_pos h, if_pos (hlm.mpr h)]
    cases hcm : b.current_move
    · cases b; simp only at hcm; subst hcm; rfl
    · cases b; simp only at hcm; subst hcm; rfl
  · rw [if_neg h, if_neg (fun hh => h (hlm.mp hh))]
    have hfm : (mirror b).has_free_tiles = b.has_free_tiles := rfl
    rw [hfm]
    cases hf : b.has_free_tiles <;> rfl

/-! ## Purifying the mutate-then-revert loops into value folds -/

/-- The maximizing loop of minimax threads the board through place, turn
toggle, recursion, revert, toggle; since every iteration restores the
board, the loop equals a pure fold over branch scores. -/
theorem minimax_max_fold (b : Board) (fuel : Nat) (d : Int) (m : Bool) (v : Int) :
    allCells.foldl
      (fun acc ij =>
        if acc.1.getTile ij.1 ij.2 = Tile.Free then
          ((((acc.1.setTile ij.1 ij.2 acc.1.computer_tile).change_player.minimax fuel
                (d + 1) m).1.setTile ij.1 ij.2 Tile.Free).change_player,
            imax acc.2
              ((acc.1.setTile ij.1 ij.2 acc.1.computer_tile).change_player.minimax fuel
                (d + 1) m).2)
        else acc)
      (b, v) =
    (b, allCells.foldl
      (fun w ij =>
        if b.getTile ij.1 ij.2 = Tile.Free then
          imax w ((b.setTile ij.1 ij.2 b.computer_tile).change_player.minimax fuel (d + 1) m).2
        else w)
      v) := by
  refine foldl_pure _ _ b ?_ allCells v
  intro w x
  dsimp only
  split_ifs with hg
  · rw [minimax_fst_eq]
    rw [setTile_change_player, change_player_change_player, setTile_revert _ _ _ _ hg]
  · rfl

/-- Minimizing-loop counterpart of minimax_max_fold. -/
theorem minimax_min_fold (b : Board) (fuel : Nat) (d : Int) (m : Bool) (v : Int) :
    allCells.foldl
      (fun acc ij =>
        if acc.1.getTile ij.1 ij.2 = Tile.Free then
          ((((acc.1.setTile ij.1 ij.2 acc.1.player_tile).change_player.minimax fuel
                (d + 1) m).1.setTile ij.1 ij.2 Tile.Free).change_player,
            imin acc.2
              ((acc.1.setTile ij.1 ij.2 acc.1.player_tile).change_player.minimax fuel
                (d + 1) m).2)
        else acc)
      (b, v) =
    (b, allCells.foldl
      (fun w ij =>
        if b.getTile ij.1 ij.2 = Tile.Free then
          imin w ((b.setTile ij.1 ij.2 b.player_tile).change_player.minimax fuel (d + 1) m).2
        else w)
      v) := by
  refine foldl_pure _ _ b ?_ allCells v
  intro w x
  dsimp only
  split_ifs with hg
  · rw [minimax_fst_eq]
    rw [setTile_change_player, change_player_change_player, setTile_revert _ _ _ _ hg]
  · rfl

/-- Maximizing loop of the mirrored engine as a pure fold. -/
theorem minimax_player_max_fold (b : Board) (fuel : Nat) (d : Int) (m : Bool) (v : Int) :
    allCells.foldl
      (fun acc ij =>
        if acc.1.getTile ij.1 ij.2 = Tile.Free then
          ((((acc.1.setTile ij.1 ij.2 acc.1.player_tile).change_player.minimax_player fuel
                (d + 1) m).1.setTile ij.1 ij.2 Tile.Free).change_player,
            imax acc.2
              ((acc.1.setTile ij.1 ij.2 acc.1.player_tile).change_player.minimax_player fuel
                (d + 1) m).2)
        else acc)
      (b, v) =
    (b, allCells.foldl
      (fun w ij =>
        if b.getTile ij.1 ij.2 = Tile.Free then
          imax w
            ((b.setTile ij.1 ij.2 b.player_tile).change_player.minimax_player fuel (d + 1) m).2
        else w)
      v) := by
  refine foldl_pure _ _ b ?_ allCells v
  intro w x
  dsimp only
  split_ifs with hg
  · rw [minimax_player_fst_eq]
    rw [setTile_change_player, change_player_change_player, setTile_revert _ _ _ _ hg]
  · rfl

/-- Minimizing loop of the mirrored engine as a pure fold. -/
theorem minimax_player_min_fold (b : Board) (fuel : Nat) (d : Int) (m : Bool) (v : Int) :
    allCells.foldl
      (fun acc ij =>
        if acc.1.getTile ij.1 ij.2 = Tile.Free then
          ((((acc.1.setTile ij.1 ij.2 acc.1.computer_tile).change_player.minimax_player fuel
                (d + 1) m).1.setTile ij.1 ij.2 Tile.Free).change_player,
            imin acc.2
              ((acc.1.setTile ij.1 ij.2 acc.1.computer_tile).change_player.minimax_player fuel
                (d + 1) m).2)
        else acc)
      (b, v) =
    (b, allCells.foldl
      (fun w ij =>
        if b.getTile ij.1 ij.2 = Tile.Free then
          imin w
            ((b.setTile ij.1 ij.2 b.computer_tile).change_player.minimax_player fuel (d + 1) m).2
        else w)
      v) := by
  refine foldl_pure _ _ b ?_ allCells v
  intro w x
  dsimp only
  split_ifs with hg
  · rw [minimax_player_fst_eq]
    rw [setTile_change_player, change_player_change_player, setTile_revert _ _ _ _ hg]
  · rfl

/-- The score computer_move assigns to a candidate cell: place the
computer tile there and run minimax at depth 0 with the opponent to move
(fuel 9 suffices for the at most 8 remaining free cells). -/
def mmScore (b : Board) (ij : Nat × Nat) : Int :=
  ((b.setTile ij.1 ij.2 b.computer_tile).minimax 9 0 false).2

/-- The score computer_player_move assigns to a candidate cell. -/
def mmScoreP (b : Board) (ij : Nat × Nat) : Int :=
  ((b.setTile ij.1 ij.2 b.player_tile).minimax_player 9 0 false).2

/-- The selection loop of computer_move restores the board each iteration
and therefore equals a pure best-score fold. -/
theorem best_search_fold (b : Board) :
    b.best_search =
    (b, allCells.foldl
      (fun p ij =>
        if b.getTile ij.1 ij.2 = Tile.Free then
          if mmScore b ij > p.1 then (mmScore b ij, ij) else p
        else p)
      (-1000, (0, 0))) := by
  unfold Board.best_search mmScore
  refine foldl_pure _ _ b ?_ allCells _
  intro w x
  dsimp only
  split_ifs with hg hv
  · rw [minimax_fst_eq, setTile_revert _ _ _ _ hg]
  · rw [minimax_fst_eq, setTile_revert _ _ _ _ hg]
  · rfl

/-- Mirror-engine counterpart of best_search_fold. -/
theorem best_search_player_fold (b : Board) :
    b.best_search_player =
    (b, allCells.foldl
      (fun p ij =>
        if b.getTile ij.1 ij.2 = Tile.Free then
          if mmScoreP b ij > p.1 then (mmScoreP b ij, ij) else p
        else p)
      (-1000, (0, 0))) := by
  unfold Board.best_search_player mmScoreP
  refine foldl_pure _ _ b ?_ allCells _
  intro w x
  dsimp only
  split_ifs with hg hv
  · rw [minimax_player_fst_eq, setTile_revert _ _ _ _ hg]
  · rw [minimax_player_fst_eq, setTile_revert _ _ _ _ hg]
  · rfl

/-- The mirrored engine computes exactly the score that the primary engine
computes on the mirrored board, at every fuel, depth and phase. -/
theorem minimax_player_val_mirror (fuel : Nat) :
    ∀ (b : Board) (d : Int) (m : Bool),
      (b.minimax_player fuel d m).2 = ((mirror b).minimax fuel d m).2 := by
  induction fuel with
  | zero =>
    intro b d m
    simp only [Board.minimax, Board.minimax_player]
    rw [evaluate_mirror]
    have hfm : (mirror b).has_free_tiles = b.has_free_tiles := rfl
    rw [hfm]
    split_ifs <;> rfl
  | succ fuel ih =>
    intro b d m
    simp only [Board.minimax, Board.minimax_player]
    rw [evaluate_mirror]
    have hfm : (mirror b).has_free_tiles = b.has_free_tiles := rfl
    rw [hfm]
    split_ifs with h1 h2 h3 h4
    · rfl
    · rfl
    · rfl
    · rw [minimax_player_max_fold, minimax_max_fold]
      dsimp only
      refine foldl_congr_on _ _ allCells ?_ _
      intro w x _
      have hgt : (mirror b).getTile x.1 x.2 = b.getTile x.1 x.2 := rfl
      have hct : (mirror b).computer_tile = b.player_tile := rfl
      rw [hgt, hct, ← mirror_setTile, ← mirror_change_player, ← ih]
    · rw [minimax_player_min_fold, minimax_min_fold]
      dsimp only
      refine foldl_congr_on _ _ allCells ?_ _
      intro w x _
      have hgt : (mirror b).getTile x.1 x.2 = b.getTile x.1 x.2 := rfl
      have hpt : (mirror b).player_tile = b.computer_tile := rfl
      rw [hgt, hpt, ← mirror_setTile, ← mirror_change_player, ← ih]

/-- C9: the two near-duplicate engine variants are mirror images of one
search: evaluate_player scores a board as evaluate scores the mirrored
board (computer_tile and player_tile exchanged, current_move flipped), and
minimax_player returns the same score as minimax on the mirrored board, so
a single search parameterized by the side to optimize for has the same
semantics. -/
theorem c9_engine_variants_mirror (b : Board) :
    b.evaluate_player = (mirror b).evaluate ∧
    ∀ (fuel : Nat) (d : Int) (m : Bool),
      (b.minimax_player fuel d m).2 = ((mirror b).minimax fuel d m).2 :=
  ⟨(evaluate_mirror b).symm, fun fuel d m => minimax_player_val_mirror fuel b d m⟩

/-! ## Well-formedness preservation and free-cell existence -/

theorem WF_setTile (b : Board) (i j : Nat) (t : Tile) (hwf : WF b) :
    WF (b.setTile i j t) := by
  obtain ⟨hlen, hrows⟩ := hwf
  constructor
  · simp [Board.setTile, fieldSet, hlen]
  · intro r hr
    simp only [Board.setTile, fieldSet] at hr
    by_cases hi : i < b.field.length
    · rcases List.mem_or_eq_of_mem_set hr with hmem | he
      · exact hrows r hmem
      · subst he
        rw [List.length_set]
        apply hrows
        rw [List.getD_eq_getElem?_getD, List.getElem?_eq_getElem hi]
        simp only [Option.getD_some]
        exact List.getElem_mem hi
    · rw [list_set_oob _ _ _ (by omega)] at hr
      exact hrows r hr

theorem WF_change_player (b : Board) (hwf : WF b) : WF b.change_player := hwf

theorem mem_allCells (ij : Nat × Nat) : ij ∈ allCells ↔ ij.1 < 3 ∧ ij.2 < 3 := by
  constructor
  · intro h
    fin_cases h <;> norm_num
  · rintro ⟨h1, h2⟩
    rcases ij with ⟨i, j⟩
    simp only at h1 h2
    interval_cases i <;> interval_cases j <;> simp [allCells]

/-- On a well-formed board, has_free_tiles holds exactly when the row-major
scan meets a Free cell. -/
theorem has_free_exists_cell (b : Board) (hwf : WF b) :
    b.has_free_tiles = true ↔ ∃ ij ∈ allCells, b.getTile ij.1 ij.2 = Tile.Free := by
  rw [has_free_iff_not_specNoFree b hwf]
  unfold specNoFree
  push_neg
  constructor
  · rintro ⟨i, hi, j, hj, h⟩
    exact ⟨(i, j), (mem_allCells (i, j)).mpr ⟨hi, hj⟩, h⟩
  · rintro ⟨ij, hmem, h⟩
    obtain ⟨h1, h2⟩ := (mem_allCells ij).mp hmem
    exact ⟨ij.1, h1, ij.2, h2, h⟩

/-- Every branch the search explores scores at least -10: terminal scores
are 10 - depth, -10 + depth or 0, and depth plus remaining fuel stays
small enough that 10 - depth cannot dip below -10. -/
theorem minimax_val_ge (fuel : Nat) :
    ∀ (b : Board) (d : Int) (m : Bool), WF b → 0 ≤ d → d + (fuel : Int) ≤ 20 →
      -10 ≤ (b.minimax fuel d m).2 := by
  induction fuel with
  | zero =>
    intro b d m hwf hd hsum
    simp only [Board.minimax]
    split_ifs with h1 h2 h3 <;> dsimp only
    · rw [h1]; push_cast at hsum; omega
    · rw [h2]; omega
    · omega
    · omega
  | succ fuel ih =>
    intro b d m hwf hd hsum
    simp only [Board.minimax]
    split_ifs with h1 h2 h3 h4
    · dsimp only; rw [h1]; push_cast at hsum; omega
    · dsimp only; rw [h2]; omega
    · dsimp only; omega
    · rw [minimax_max_fold]
      dsimp only
      have hfree : b.has_free_tiles = true := by
        cases hx : b.has_free_tiles
        · exact absurd hx h3
        · rfl
      obtain ⟨ij, hmem, hij⟩ := (has_free_exists_cell b hwf).mp hfree
      refine le_trans ?_ (foldl_imax_ge_elem _ _ allCells (-1000) ij hmem hij)
      exact ih _ (d + 1) (!m) (WF_change_player _ (WF_setTile b ij.1 ij.2 _ hwf))
        (by omega) (by push_cast at hsum ⊢; omega)
    · rw [minimax_min_fold]
      dsimp only
      rcases foldl_imin_mem (fun ij => b.getTile ij.1 ij.2 = Tile.Free)
          (fun ij => ((b.setTile ij.1 ij.2 b.player_tile).change_player.minimax fuel
            (d + 1) (!m)).2) allCells 1000 with h | ⟨x, hx, hgx, hv⟩
      · rw [h]; omega
      · rw [hv]
        exact ih _ (d + 1) (!m) (WF_change_player _ (WF_setTile b x.1 x.2 _ hwf))
          (by omega) (by push_cast at hsum ⊢; omega)

/-- Characterization of the strict-improvement selection fold: either no
guarded element beats the seed and the accumulator is unchanged, or the
result is the first guarded element attaining the maximum guarded value. -/
theorem foldl_best_spec {β : Type} (guard : β → Prop) [DecidablePred guard] (f : β → Int) :
    ∀ (l : List β) (v0 : Int) (m0 : β),
      (l.foldl (fun p x => if guard x then (if f x > p.1 then (f x, x) else p) else p) (v0, m0)
          = (v0, m0) ∧ ∀ x ∈ l, guard x → f x ≤ v0) ∨
      (∃ l1 x l2, l = l1 ++ x :: l2 ∧ guard x ∧
        l.foldl (fun p x => if guard x then (if f x > p.1 then (f x, x) else p) else p) (v0, m0)
          = (f x, x) ∧ v0 < f x ∧
        (∀ y ∈ l1, guard y → f y < f x) ∧
        (∀ y ∈ l, guard y → f y ≤ f x))
  | [], v0, m0 => Or.inl ⟨rfl, by simp⟩
  | a :: t, v0, m0 => by
    rw [List.foldl_cons]
    by_cases hg : guard a
    · rw [if_pos hg]
      by_cases hgt : f a > v0
      · rw [if_pos hgt]
        rcases foldl_best_spec guard f t (f a) a with ⟨heq, hall⟩ |
            ⟨l1, x, l2, hsp, hgx, heq, hlt, hfirst, hbnd⟩
        · refine Or.inr ⟨[], a, t, rfl, hg, heq, hgt, by simp, ?_⟩
          intro y hy hgy
          rcases List.mem_cons.mp hy with he | ht'
          · subst he; exact le_refl _
          · exact hall y ht' hgy
        · refine Or.inr ⟨a :: l1, x, l2, by rw [hsp]; rfl, hgx, heq, lt_trans hgt hlt, ?_, ?_⟩
          · intro y hy hgy
            rcases List.mem_cons.mp hy with he | hl1
            · subst he; exact hlt
            · exact hfirst y hl1 hgy
          · intro y hy hgy
            rcases List.mem_cons.mp hy with he | ht'
            · subst he; exact le_of_lt hlt
            · exact hbnd y ht' hgy
      · rw [if_neg hgt]
        rcases foldl_best_spec guard f t v0 m0 with ⟨heq, hall⟩ |
            ⟨l1, x, l2, hsp, hgx, heq, hlt, hfirst, hbnd⟩
        · refine Or.inl ⟨heq, ?_⟩
          intro y hy hgy
          rcases List.mem_cons.mp hy with he | ht'
          · subst he; exact le_of_not_lt hgt
          · exact hall y ht' hgy
        · refine Or.inr ⟨a :: l1, x, l2, by rw [hsp]; rfl, hgx, heq, hlt, ?_, ?_⟩
          · intro y hy hgy
            rcases List.mem_cons.mp hy with he | hl1
            · subst he; exact lt_of_le_of_lt (le_of_not_lt hgt) hlt
            · exact hfirst y hl1 hgy
          · intro y hy hgy
            rcases List.mem_cons.mp hy with he | ht'
            · subst he; exact le_of_lt (lt_of_le_of_lt (le_of_not_lt hgt) hlt)
            · exact hbnd y ht' hgy
    · rw [if_neg hg]
      rcases foldl_best_spec guard f t v0 m0 with ⟨heq, hall⟩ |
          ⟨l1, x, l2, hsp, hgx, heq, hlt, hfirst, hbnd⟩
      · refine Or.inl ⟨heq, ?_⟩
        intro y hy hgy
        rcases List.mem_cons.mp hy with he | ht'
        · subst he; exact absurd hgy hg
        · exact hall y ht' hgy
      · refine Or.inr ⟨a :: l1, x, l2, by rw [hsp]; rfl, hgx, heq, hlt, ?_, ?_⟩
        · intro y hy hgy
          rcases List.mem_cons.mp hy with he | hl1
          · subst he; exact absurd hgy hg
          · exact hfirst y hl1 hgy
        · intro y hy hgy
          rcases List.mem_cons.mp hy with he | ht'
          · subst he; exact absurd hgy hg
          · exact hbnd y ht' hgy

/-- Central characterization of computer_move on a board with a free cell:
it writes the computer tile into the first free cell (in the row-major
order of allCells) whose minimax score attains the maximum over all free
cells, and changes nothing else. -/
theorem computer_move_spec (b : Board) (hwf : WF b) (hfree : b.has_free_tiles = true) :
    ∃ l1 ij l2, allCells = l1 ++ ij :: l2 ∧
      b.getTile ij.1 ij.2 = Tile.Free ∧
      b.computer_move = some (b.setTile ij.1 ij.2 b.computer_tile) ∧
      (∀ y ∈ allCells, b.getTile y.1 y.2 = Tile.Free → mmScore b y ≤ mmScore b ij) ∧
      (∀ y ∈ l1, b.getTile y.1 y.2 = Tile.Free → mmScore b y < mmScore b ij) := by
  have hne : ¬ b.has_free_tiles = false := by rw [hfree]; simp
  rcases foldl_best_spec (fun ij => b.getTile ij.1 ij.2 = Tile.Free) (mmScore b)
      allCells (-1000) ((0 : Nat), (0 : Nat)) with ⟨heq, hall⟩ |
      ⟨l1, x, l2, hsp, hgx, heq, hlt, hfirst, hbnd⟩
  · exfalso
    obtain ⟨ij, hmem, hij⟩ := (has_free_exists_cell b hwf).mp hfree
    have h1 := hall ij hmem hij
    have h2 := minimax_val_ge 9 (b.setTile ij.1 ij.2 b.computer_tile) 0 false
        (WF_setTile b ij.1 ij.2 _ hwf) (le_refl 0) (by norm_num)
    unfold mmScore at h1
    omega
  · refine ⟨l1, x, l2, hsp, hgx, ?_, hbnd, hfirst⟩
    unfold Board.computer_move
    rw [if_neg hne]
    show some ((b.best_search).1.make_move (b.best_search).2.2 (b.best_search).1.computer_tile) = _
    rw [best_search_fold, heq]
    rfl

/-- Mirror-engine variant of minimax_val_ge, through the mirror lemma. -/
theorem minimax_player_val_ge (fuel : Nat) (b : Board) (d : Int) (m : Bool)
    (hwf : WF b) (hd : 0 ≤ d) (hsum : d + (fuel : Int) ≤ 20) :
    -10 ≤ (b.minimax_player fuel d m).2 := by
  rw [minimax_player_val_mirror]
  exact minimax_val_ge fuel (mirror b) d m hwf hd hsum

/-- Central characterization of computer_player_move, mirroring
computer_move_spec. -/
theorem computer_player_move_spec (b : Board) (hwf : WF b)
    (hfree : b.has_free_tiles = true) :
    ∃ l1 ij l2, allCells = l1 ++ ij :: l2 ∧
      b.getTile ij.1 ij.2 = Tile.Free ∧
      b.computer_player_move = some (b.setTile ij.1 ij.2 b.player_tile) ∧
      (∀ y ∈ allCells, b.getTile y.1 y.2 = Tile.Free → mmScoreP b y ≤ mmScoreP b ij) ∧
      (∀ y ∈ l1, b.getTile y.1 y.2 = Tile.Free → mmScoreP b y < mmScoreP b ij) := by
  have hne : ¬ b.has_free_tiles = false := by rw [hfree]; simp
  rcases foldl_best_spec (fun ij => b.getTile ij.1 ij.2 = Tile.Free) (mmScoreP b)
      allCells (-1000) ((0 : Nat), (0 : Nat)) with ⟨heq, hall⟩ |
      ⟨l1, x, l2, hsp, hgx, heq, hlt, hfirst, hbnd⟩
  · exfalso
    obtain ⟨ij, hmem, hij⟩ := (has_free_exists_cell b hwf).mp hfree
    have h1 := hall ij hmem hij
    have h2 := minimax_player_val_ge 9 (b.setTile ij.1 ij.2 b.player_tile) 0 false
        (WF_setTile b ij.1 ij.2 _ hwf) (le_refl 0) (by norm_num)
    unfold mmScoreP at h1
    omega
  · refine ⟨l1, x, l2, hsp, hgx, ?_, hbnd, hfirst⟩
    unfold Board.computer_player_move
    rw [if_neg hne]
    show some ((b.best_search_player).1.make_move (b.best_search_player).2.2
      (b.best_search_player).1.player_tile) = _
    rw [best_search_player_fold, heq]
    rfl

/-- C4: on a board with a free cell, computer_move writes the computer
tile into one previously Free cell and leaves every other cell, the
current_move and both tile assignments unchanged; and the inner minimax
recursion returns every board exactly as it received it. -/
theorem c4_computer_move_frame (b : Board) (hwf : WF b) (hfree : b.has_free_tiles = true) :
    (∃ i j, i < 3 ∧ j < 3 ∧ b.getTile i j = Tile.Free ∧
      b.computer_move = some (b.setTile i j b.computer_tile) ∧
      (b.setTile i j b.computer_tile).getTile i j = b.computer_tile ∧
      (∀ i' j', (i, j) ≠ (i', j') →
        (b.setTile i j b.computer_tile).getTile i' j' = b.getTile i' j') ∧
      (b.setTile i j b.computer_tile).current_move = b.current_move ∧
      (b.setTile i j b.computer_tile).computer_tile = b.computer_tile ∧
      (b.setTile i j b.computer_tile).player_tile = b.player_tile) ∧
    (∀ (b' : Board) (fuel : Nat) (d : Int) (m : Bool), (b'.minimax fuel d m).1 = b') := by
  constructor
  · obtain ⟨l1, ij, l2, hsp, hfij, hcm, _, _⟩ := computer_move_spec b hwf hfree
    have hmem : ij ∈ allCells := by rw [hsp]; simp
    obtain ⟨h1, h2⟩ := (mem_allCells ij).mp hmem
    exact ⟨ij.1, ij.2, h1, h2, hfij, hcm,
      getTile_setTile_self b ij.1 ij.2 _ hwf h1 h2,
      fun i' j' hne => getTile_setTile_ne b ij.1 ij.2 i' j' _ hne,
      rfl, rfl, rfl⟩
  · exact fun b' fuel d m => minimax_fst_eq fuel b' d m

/-- Witness for C4 at the empty board. -/
theorem c4_computer_move_frame_witness :
    WF emptyBoard ∧ emptyBoard.has_free_tiles = true ∧
    ((∃ i j, i < 3 ∧ j < 3 ∧ emptyBoard.getTile i j = Tile.Free ∧
      emptyBoard.computer_move = some (emptyBoard.setTile i j emptyBoard.computer_tile) ∧
      (emptyBoard.setTile i j emptyBoard.computer_tile).getTile i j = emptyBoard.computer_tile ∧
      (∀ i' j', (i, j) ≠ (i', j') →
        (emptyBoard.setTile i j emptyBoard.computer_tile).getTile i' j' =
          emptyBoard.getTile i' j') ∧
      (emptyBoard.setTile i j emptyBoard.computer_tile).current_move =
        emptyBoard.current_move ∧
      (emptyBoard.setTile i j emptyBoard.computer_tile).computer_tile =
        emptyBoard.computer_tile ∧
      (emptyBoard.setTile i j emptyBoard.computer_tile).player_tile =
        emptyBoard.player_tile) ∧
    (∀ (b' : Board) (fuel : Nat) (d : Int) (m : Bool), (b'.minimax fuel d m).1 = b')) :=
  ⟨by decide, by decide, c4_computer_move_frame emptyBoard (by decide) (by decide)⟩

/-- C10: every explored branch scores at least -10, strictly above the
-1000 seed, so the cell computer_move finally writes to was Free before
the call. -/
theorem c10_chosen_cell_free (b : Board) (hwf : WF b) (hfree : b.has_free_tiles = true) :
    (∀ ij ∈ allCells, b.getTile ij.1 ij.2 = Tile.Free → -10 ≤ mmScore b ij ∧ -1000 < mmScore b ij) ∧
    (∃ ij ∈ allCells, b.getTile ij.1 ij.2 = Tile.Free ∧
      b.computer_move = some (b.setTile ij.1 ij.2 b.computer_tile)) := by
  constructor
  · intro ij _ _
    have h := minimax_val_ge 9 (b.setTile ij.1 ij.2 b.computer_tile) 0 false
        (WF_setTile b ij.1 ij.2 _ hwf) (le_refl 0) (by norm_num)
    unfold mmScore
    omega
  · obtain ⟨l1, ij, l2, hsp, hfij, hcm, _, _⟩ := computer_move_spec b hwf hfree
    exact ⟨ij, by rw [hsp]; simp, hfij, hcm⟩

/-- Witness for C10 at the empty board. -/
theorem c10_chosen_cell_free_witness :
    WF emptyBoard ∧ emptyBoard.has_free_tiles = true ∧
    ((∀ ij ∈ allCells, emptyBoard.getTile ij.1 ij.2 = Tile.Free →
      -10 ≤ mmScore emptyBoard ij ∧ -1000 < mmScore emptyBoard ij) ∧
    (∃ ij ∈ allCells, emptyBoard.getTile ij.1 ij.2 = Tile.Free ∧
      emptyBoard.computer_move =
        some (emptyBoard.setTile ij.1 ij.2 emptyBoard.computer_tile))) :=
  ⟨by decide, by decide, c10_chosen_cell_free emptyBoard (by decide) (by decide)⟩

/-! ## A certified value table for the search

Boards are numbered by base-3 codes: digit c of code g (cell c in
row-major order, c = 3*row + col) is 0 for a Free cell and 1 or 2 for the
two marks.  The minimax value of every position for both phases is stored
in a table packed 5 bits per entry (value plus 10) into 39 chunk
constants of 1024 entries each; a local fixpoint check (entryChk) is
verified for every code by kernel computation, and a master theorem below
turns those local facts into the exact value of Board.minimax on decoded
boards. -/

/-- Base-3 digit c of a board code: the contents of cell c. -/
def tdigit (g c : Nat) : Nat := g / 3 ^ c % 3

/-- The eight winning-line conditions of analyse, on board codes. -/
def glineWon (g : Nat) : Bool :=
  (tdigit g 0 == tdigit g 1 && tdigit g 1 == tdigit g 2 && tdigit g 0 != 0) ||
  (tdigit g 3 == tdigit g 4 && tdigit g 4 == tdigit g 5 && tdigit g 3 != 0) ||
  (tdigit g 6 == tdigit g 7 && tdigit g 7 == tdigit g 8 && tdigit g 6 != 0) ||
  (tdigit g 0 == tdigit g 3 && tdigit g 3 == tdigit g 6 && tdigit g 0 != 0) ||
  (tdigit g 1 == tdigit g 4 && tdigit g 4 == tdigit g 7 && tdigit g 1 != 0) ||
  (tdigit g 2 == tdigit g 5 && tdigit g 5 == tdigit g 8 && tdigit g 2 != 0) ||
  (tdigit g 0 == tdigit g 4 && tdigit g 4 == tdigit g 8 && tdigit g 0 != 0) ||
  (tdigit g 2 == tdigit g 4 && tdigit g 4 == tdigit g 6 && tdigit g 2 != 0)

/-- has_free_tiles on board codes: some digit is 0. -/
def tfreeB (g : Nat) : Bool :=
  tdigit g 0 == 0 || tdigit g 1 == 0 || tdigit g 2 == 0 ||
  tdigit g 3 == 0 || tdigit g 4 == 0 || tdigit g 5 == 0 ||
  tdigit g 6 == 0 || tdigit g 7 == 0 || tdigit g 8 == 0

/-- Indicator of a free cell, used to count free cells of a code. -/
def countTerm (d : Nat) : Nat := if d == 0 then 1 else 0

/-- Number of free cells of a board code. -/
def freeCountG (g : Nat) : Nat :=
  countTerm (tdigit g 0) + countTerm (tdigit g 1) + countTerm (tdigit g 2) +
  countTerm (tdigit g 3) + countTerm (tdigit g 4) + countTerm (tdigit g 5) +
  countTerm (tdigit g 6) + countTerm (tdigit g 7) + countTerm (tdigit g 8)

def TAB0 : Nat :=
  23663643655145731394187678396944702566877004654635225604183789207686534557909021654130459791641818654455386980202771169339125756299585473258196008202275133329703312660382193662854960110664470511362668653579055828439092155225236019004884350970215518754065454500960356601025278689232865646765249943202446831977844467179968017797428194456874633468202491335697811054554582849835128219925159589914812529411088996057737951417834789412242985384578838385798557193668113675263148571682654866723672690078952157122490282371999540364691970304070899891275160290897577198502444483814672742410519189251800592944016390501807796544912048762465335501505716080018177910315415014520566701030415409842316673632889701606987664745419279005137716164362612155107091837971908962306548819329008377692205846437382918696797184278187310274989542157686623363376187586028081648539855782557670834111321440467527741321318856413336320138381500658090490082962415792842269160824847026664494880550421211066249605555950303037295453754504466763727269656238882830454588354908555806508579750925120143299800100338174886968008399553338781256531895994381640239044071220722671888108626386742775453845196389836366398893942613864297164840098751068266218058262534872119097161918653960525675789965682409432466234249471536251185215451986484509954557459917634964931740780139051044934857959268606437770411038884159904943826685912212946714500348797095117132316391413037607505724449049689019095468060366974403725058390579278939131301197977654144500198212018644999176526846120704166414302471235914

def TAB1 : Nat :=
  111770017747905556775589994506276892840206064680042573064792465180970892429300281381496904139649993229634380012802183294842626948664556515906149799842856213042194065143728169375362509007296655055650273059425215404706456993709551865272926546465819615122900973048137296167817705625911774149925922363221852742573215121179509792337950346557205062929677255016485629443118773724799248264406738088462491056210505115047505041687274491105854940601814411656639662605756646401317798844389236333733623188845999818209222007725954382893841283060552782340801782360633253016662769644583500362911169784467174955075778067053693101403198636139092993541779689305351241652007518356812046126315233458663981560550076073265578860129249417368792348645161726958641124724407180710588162294313340408103547197149238042223994729948601114718680286720371313522367044118903105652487114463801090919880172233941701171012379522147898973949427735226453770549063032601823295961367043880173726762148257600728732470394359409332676580260469755625423764574114474373343519801952218661793909554987410391255042399507770043565441181560516831978119089775214317237600342067995922665103524273233665789806669346541860622431567755674310092782199735383501437354823330584679249834390973744445410509113284868015827493488618789828908218570839980116800505449632986094875076622249166994825827781646344530072468131062425211082433458485053022867449281171645975026733844450050505308252950244550650238018842621469267623081327113107377239758636748733990454545557145890857670006728744940680433571767592980

def TAB2 : Nat :=
  3764568486008770486913376090703625824857197358839040266652754402168531808911504996799406024034133754184944631906083524466526802563626044114654730236670116691914556085815923146396936395802329409040374683137372534556392194146811218169879146425794558399998441667652136026862519709237433933610084294876957641195734560359068206687727618541807668020314565547444029361501247132543334331147834755815355561959473968891516170656026965987510280025833729847665214697541672267876141145282740383486038527389411746073611292612728835193451144267592967018739793616011286096019612423075102047911084462465572817219304420424707389996400629876302753293000665804638999000768259797077563985188527960798137278190002313390532581664967708714204376923443050928450428973883038202577297636111982861929634807580797117949224996987231339564863509711054674759638465844646395035504979452193622304336709382701623370453744920441492676194971355656709738960857651353625061609063586116169508631282578946333401025356463172264268914289054845915512370200185708604720352011189764270202261338116491699371046041815467616441811177853154089696244811166191210920928033803255617390805556247760205789471737490886988847147264387966803138852955767934801615988949818193277985816093333519724125327475832500682469691930658961761116514897110228434154936797510931052370069263846803583624030698954422947081182533693417340858246427607657785428389819857153838125007057832859656731023742032863455895740966562575352829808917139372321306014830049667726456820805627014839906363377390699746351883204186132

def TAB3 : Nat :=
  111768414150182433113365470743317969975678829505232818641925053469412792452097377421858062460487311222821580783421981773386379239656278923513025342151961720831513152894089391038085680095704780433248413215809967050741722148523689587174992826223505752653238257430245502970222002339872948259209855703225171309138766937288234511707718507446004352912732955473983191429871951172440779836212717895048551871518477959094838699525538955750584094692552701451696896095684297537319737417630318805516254618390348819112491158708070379399530355796205150208261587898851392422585295643963894002256120652308578995019938810474703034230051081350036355764241392902738418577881356962601174278114300930224428838566372624975487221998134361697976588405679005239549583402218880236168981032100433260033915488101578364045761164378437629920714708538491001337823722741050060851717226642649118659439300761561232508485558189767935021973317149276514567062701243785892261255910175888653139736497071652467819184769399777372638885870860045901049936766157171096931346663978697592367662089497341243678203755237364990218802100375313989026937298196590193753343945247298415269623806891115097172323752372287164581282699110391755916302255927882762915014035115438595276540798765929463172766654539021389553721860391207792269960991491009861132669440404775174306681560513002066956884828590817525028778093368546979754174685889626325518802457279512153265466318660011456033034017405038204265585426878932253488254198024847786593910117419291962635231533933107386415652019737746394952699457176641

def TAB4 : Nat :=
  3670558596760425464072002307791478976978885822287943840587732804482248568789088778447247898094805046187165975100423112679658213527591629981301646450987314436852242103604464608207452906458018994411194256737825786143888249355314570900486603608004994711692836801041509388601498895490440334329731777941600539078156091964111852263061995551859228021641025802226874010909853308265241447940981865078916241279237095483692816823684035701692363238734003690855058091004089931782017919488493070975920952739153718526560703747250179754685260048529451712181153678706041818711011928552572935292512984291369530361216623572510169812738230310458417051663912742436565101826021384703097659888177673121041373726005456859994127079478076020181276038952646690957975251566991711528926131434255380079069255207109090022461489810191521907374929331552954268864616927134981538753387575602941285093774006289186595787778844937441229314799293761483551431999694866882110474820388384217217637507851567891746466572860512519344799036880737809516158714534770473711496480066195153234582234697696951648241567163993263400192840162046295177644165742085774986979870478655894565956804434367787510216826604080425478382817828724269513072891795481459579697910826024628192630148755821338760811297710481139563089526537247098846576375052935334049349507627899674738620310622688455987150822684323236377929473881802516960346905553889694114974185274167849600572799535429417533170428511964230413770023907098943545999236503501658842976195550664084757649177189716899364103718291865126959115549083233

def TAB5 : Nat :=
  111771556018172892202895396340935031491490729783909381710549020465663497497827037887551313795523406306056969924791027416221403197492418441682406541224015537699843231651553534883217564043151872751885239159465151105454946595934068321467310216065145185353575431202266599517485834906556137176386236962775089054575863502848548837626307618086439630212206153580353762346620674823549433174514095625626039240911637017161140558694137230739362146678160851688905715643975974626598834595864049694569185387413655544737231426257867424311480115103129475352139218989467531092748938391999180004359206645251734791815547064376461658379732248636743143883490795464872917119640718803546044468150902420969922278099249221722626211887876218425174210772091595900719412589013233874818648708981675094339259534193759675272941826069813950661327684611002609717822282462549245600106465807392570322402434805460253923055036563868852995900494600753046455704032456275181008668576436061255161048809596030445029720079538025409857379152193804053889720555797266027699478167338833593020423059372537450575729952162827242799283760333446749862620112910604502624202996033290612104671932948853881605651795614598837492154813141809462852753833444795619324254297062176094755899435049826946361001835978177820750599069443828352832307366977914382681067774249411268820290303095231097818482648576505014149102261261843456970418988032659688354027244768652881858199459818607055748167497579738400426833695224432146947789247185699590747071721913220462644217317575872843157822217327949745799512163635220

def TAB6 : Nat :=
  111768509271354955287324006427901555505318847210998295934021650980302617693670551961090431777717522782317795833779184869068988357436115402427398609334396513756440416757839536496246640212141037769079384731715348357176880217485326209431907356425509292557346960797840995376458943664812709843622265995009851068930298505471165604111915717090440114548737164434636870338803478234570054597868305876552436295355078533640836003425093623073318019232828568572826055511761840115684550828204153544128619335702174249598736357580746739304149286617511329753852057915620141029463645577793573204097159000521966951197541852035261628172270885101628880697844314803316954847679970569168304946392663508824368424241841708512550434335670592474117959567738094960538662008163250968859074121415831375093972440183685626409344780282151447966420208363514483204966800387298026959163368226001766233978170253776763233536780781874461770484746047476835674756235981204667975513666715695192806734025439122649654012635404320992549986526313288367095102473979891580491741380080872221524821772824929933634984640218837969670494258313394526078607255113828419459412185050108220164530876081387373937483993121535126296010105275314329919096765384805485286969450487770530931777457580791081819738837016098181389621764148117449182753075121662898656766017545011792487696367681969807725729431123094509582351384852539977320412087212196157024135642984745752528296686006511878365887515445331322507691085633171671468680797062922351925352835509141263569472963912517435520384934487341629217976115810324

def TAB7 : Nat :=
  3776124576947343279334539775082697925221195990043767201486315281742650223586946466402139872352022918833619829366681673987303633302637034440270738301764270688129441072326879218146526303210664556606406452390161520193140170125472974694562864662010774734947525554287865459065387400173451854113760475437917920406395181211170938934288803832850142451115971333037465792777911915901623838576343953143971692694877288823782232948465982037602470523546641081957660412560504670591294551981219829810325684807110962534640539663542726910139915595396995348505111892455483880220245673012323422420156451741802392081246007758604321633144330594741435059171441872251531314776075359351350776803372804403836605093215781175801329228622898830013137521395603963379161289669510017404632580919954486044209664214465946690288015518544621740932635292111471362617481856277387563127203838559325330742534994370332184109347851891890542715463036291043107829361382890654617693623917118071878718095474956085674486936139746028386004664824613028509633800072704097693498223578843955765461071250019014199637815152462097458243997867193758852635068619288263514086290030314215349483655908843994461029073594883986465217065233659924111238320458241758438868921764672209879306548018797391746872652300325265091002275978767235480568806207516140707199696452162417238386582140011314425590874251488468394497122707582591229271588164590339524888069928986655622403437713251599346400312962382931833762623191224511342481145223298955572821548462458078855275756027609207130407558996158698576347645183585

def TAB8 : Nat :=
  3670558604444576778111885859904858037588557274728427053112421667683666277334030621896013196723610035164109024592132653444697417376595393517604940429645898172793824015525768787348579221915542083772950542997728021543767914163376654382108811208693078375545759263329846434430234592261694125784702395211300726662657148031472539285838938597660185997904194820516524086354854519339469977633727952127599668761787755286564728738129964400485143825263127201686852599940636748650246794723841818331983355158931049095136175245971164066363055048493844365135940063278000226186540846412245061303290170208926085506203468298869831325489164633080430310479234588217377214733303330653214144399819335032077333100111980352277961494522153452501584335668317587419514356364424539976704340111797497112999201857127775898744451864060160235691633142888455492292873339870480878379459955156133186695395165898310984286228475222721415368997375101426734877944993094943060115620549314141737248270527408443093791353862098991940319007727281280036366215672773500729791438615285497958421692846262303869903078088017154716780896093776856988845732977707448530576924997644137226321943687325397540967417526255422111036086165353709626398636399527959313882114409988212135582266550270987853708718322211345207939582800979444246084394916195587315015619228248864535737737172828962124605089875407245771826493296529673469488363063242382466605765043115081900934600976075193079535887039335535932521605893109726400102065316285783957265262411684702301291462011857838533969417679923794979163568361492

def TAB9 : Nat :=
  111768510744476587249730245576962715387708347801371535125469912559998978326191140996509274928095716124143275695225444709690284830119271821229330713412341424346884712142103106306562596021759299430438644786042360890369061733213546604706439812995856053328658322559662599757749922763102217406596111618513553149391520113773335909687242114328475530799119398787566727256719533745488369234531634694398911699881394539519037233221371406476119646291665593437511876302942608048427735105900786335016005238228780745351491832907270508622402358904553405639008118144016659179932354836204546112255870169574546338360757474735442595654418390367381032451910695903212571894621143109391636754383113530003335915766807074113119281385837683502046750053048279705307911485363239713935736256447367924915811146424068327150269082531012518916494795186356741110394846946447657481408252474370245545891128595091490425545348228914179239964057949130303023829136595425506663660518490670813296551281249521173235530193356546631970040637154768814951580061814758099296683316251030281386871956583680649489953257257252900017047975224044853871685651384966303424598897592568694415335761916367933421178409489564298012498255556651060528155452572550486403118106850660414775462126436953728000653773232863046917122371699310237473944383224077227993880750458606759836702627639190386303545016010726749146656722737219701835332048503986030341584663048401983371538568510749238249955793832666175912381252328972071808242218785185183334899422611944245191780052448653645689203062914164806663521742947393

def TAB10 : Nat :=
  111770017747905890284851406540857215303378480558665473006469516477951749934799096012669477117976062608302088558221128121898789184955344958719003256777708987877710538408233231161059801570076973870899008347970047337086845080934903091071580115031124381435328107156628950558785331617252940715470211722429279986674669473848576115472014573875575125771703835516627038105525129191601644141544785179129018620802295239010278371189807517063254341184891420394600332252064191926115335286861676302237165799429235209013517879994107512276645681052675540908502595287019096272411736573914584246552614933134126177259052870324011353532736610445513780208335187439148577760723906490551117365042562258607992155848245367724755454765641348299802613278186640433903958990987667692338401907997899911905209447910211281609441222486390962171153238185543229317503814026752958638047496035247853288194782343392737273386403118115154922258086409322403653159816862266951121219431022743426777314094634438654555014336196749153053045183803958215419816420343886727206965840186614455591386902327077122818714598700916443663341400798040615897191643310648709834412022930591219120972770426170225741841564994504650459242402008197206387647002180189101560171858930703439724322667746875961185604959623738272486560356767197291324596097224578088904546622383752575782379094065513148754110087478160098917830188318198953565951868499883073844509529629744689742420082324848798371557471121824834486453528466092119876585321273703746032192964930070075652313283801271303244425892766537249364362377104993

def TAB11 : Nat :=
  3670661586423892661279003611915185004994808460313981351315628582476559104428975328059094036628613321218053481206749270031566345782241767692711394636078991796142562218928880736952051943238267132998277763727134681253201260340435570146008821424363345773214248741337994236684484662189835140876484149733376137093586075532542705324063669280832045820501385307507304998992207741008663477393298964297780468700628269029912373368061642232196488258229301037919877636307940653256663364691775488615400679587052972020781077810727442549686645016318211686567535236001126068725494856729555177094982603966912677971086992345636257804744787929431659917339126524138820546957380840236530057248786514916212576161156168936958987554636688999773114138961374809263703949845408960428173832960781463416166737040950992486688804899212597837964011158903872561049560403987569714847083941452160793050647203322679026905810442618288744903830833279689382478264339745310597079017523058378863130117726144278856871211154453025157076808176979926056112565634066584929648751239431356182024663241525645837398670108849325003741424506075494886108626577733411615043737943792921611171111177222581172832907310769997755174991529939392757433322204997826200614105381802747674825186901795077714274113143095711196977333280082438777306431636117550436715807961265634527829014350425897289261284142296131003766197525074056711702700275311423939304448089807595488490061305539426511504251902716644954330959371926576813332372224275921020077806477682845448381014971811941620446004516221446763465408087060

def TAB12 : Nat :=
  3779169748635159833637263962477070811361570514690679459629167211463570713714329344229572637651342803481861997533164317997019713985775296815209038785947964247727624093571063969259224520105283513660304200039093272377287238290911006512837345176066821882747278868776644044224480081910691902218652400891124789030121996123059890399220048140953206633828912893530501024887302576291178342918594766764317434641912877365503301491205210808107536627965205227361542603205451920786329629017229768788108472398413223796480426561761221906674026103236770217841457882118183739763311509544576223810191379756879370054854181941840165057451006933904613424306903306300132520680201902301699530392362869907419922310439404907615303405238635401311156122455360751229850891245140355942588252622090627087086011300968207474727811528379188713875314379443894637754817306509124999090591984116731554733398829204397661243977451732128937155081778805274573039805622212075887744858266192169091493067573899055884519821193231207017352404453202207418094639134720103106269992382268074401082826189228663754806037735969547671008848173180866258053809619694987459856185706372744230614452693240855424375238417973531211962561973991059878520242152657253939534296976119266233877734147248770611581941684269215317409308144778679341540666590558410396798896423536778405720591114857584185166321914038116122584853902386823755786420585920690502667959282187488938055416555859961995002801012638448100905973344643853731593464528886032530435460985891876096118500695293373302321691496895824333660351989345

def TAB13 : Nat :=
  114886945704706191547545015876565073575034524326831598039574546927337363427669361885355571921534024294134000615131955891569504757558246345329084271214113032521216183121880508894583693867574108945416367740100757938365019964990641875012726998781869167686176178831531272032703938891100535879107268135239306591107324145901035787317872429091354172581301711482817941001423674285008630032836990185137236031444928947835449879902923486139859800767213826101798419877562500595134298985802858948297584629626913984295110888332957193522818802645816447789433149745893877711980929488543201335096416273111486424125995317379531154807366270898520964756344683620455376906186075106189102174975879393002343541829962280095345736426733806945931506573054692494973854452223243762205699837581230865748910042169348360691616517134556991777207025816114980424747527376016569726543945484740328829161505299438226633094501958127931281673810171378402528015827968736380478048194208246881321036242265747115083109130299725135546678393193572993796578712216062414207011092949183154129209278302492383209040679455101009243623466429308388654971228776075127386574369636471095458784144857560005699585637856885685796373078487011276946407336949063070436080887975322369714296521735446002557320220275809311239392108258031437213256642931407376464570640726594653900557708254860534390419777735599462870368782405742593793858585708854726527544304326022753503496863436487568504527024044639472050324117737082365828968128164888873522199761015333467727801587020197726871646105406118910212189987654258

def TAB14 : Nat :=
  3670558697336271464848511018569476723006667280752010028632766391957696276854250785449861642066412587103993331140068064024975719968246558042694363334326682746980600908446568334416906791864473582983226124670680885155673040535570317806018403492387384792421718865418367595023500940639929740942134885964127176484960657477965302627106817197800908652054333171071585721028038679815949632819290212775410470933284697709456843232307630854886936949207754318288689211559617824688825668777480534296064847934567260187178676075697251871191586705692513072521856170978288397851260379144446054157544764160888018827360174075502398841452445738792716943395086178853138309972837421428174538032626556517737876451299916969739399560874729288120362428188027833639124214311055615877901098482756477605378985001164090248996263953403315014881440260311080109358148747964072885109755821556504616294867260805004469877260056255188208687023659131515013790118042162216486289496571684123868999771506664465607339019734553192711246746998367528893993542184305728003947887631158696651275044376792122297006782582109411375732034873633601613934724876065185311952726477148716814611405659241417352760038269612078059757661421364029180224069358049111761756314097341765275332838302169555167206234152139642777225440359247190128408166451137751701990194770734947161964771296223174034145221379453406246457555436836887611209807751937483882068574188005370360932250153653477128771603900803338244464549073061608243379235912789110733483602927200790001943468101850023842444483545227732471020411013140

def TAB15 : Nat :=
  114886953477341672130623486960812454457233058022433071886281208321766065857119144048570026056389919097041412208270467006450847524485425680352761221558791755103361398198015723562995315295886849353679437468992520370190086401643946739317012019662154111033675120382546617054581210549358059076981178705539372819545290619538533359090482760065186974157325255517609339123020749276925672020375375135423639567630785467726199344028415900354639435100582304199741116716174438047551989147571249150111374116814406992605362934408220149202011343397195802458605929562245099314701145537957629717244297012428269260291999731607442564979527158383889097740574964684699277944768811823651205128378871087091154834454009727553013782347140334697326312194668453120282939326176773037204997519724323112859686444252294635433052777812258320346926493755293581735555654586516655741031191952939663792834457084782704423733437125909475397193220883723971341964699150904734756915864960376993674293801734671320269029968807580280395178226647023917430927990782628066238028941435796577668147389809899105916037909271800293655149058598265253643342349192797350580201238867375776175015236427658946963714490126071050350592644032227358514371513126959931000717503728663312727754578622610029736805690991196911090173625584693978004301912538434317858928697410855191761921884255949065616203484574996494688203759264540522394163124124180406653114178185795348183090436175530848017967591543967251980368222161325905500224804623323256510821039116025822023794947750584233487273336705455754823236233220116

def TAB16 : Nat :=
  60516721825684450680825408721830893079815673456433249961357779108424948963860396307551414179445287154307810095396794942330645289992066828464449676404144813355071614398241183024952902459330275628323622459925805901328824470586552863259614942494934180811871073580770012995937847648567069193065425132214559109492890891962685485364388421964825066242956280312011408058848580798643241025150062477300237222792271484591028296588421907828207457459070043266146829514282739924947645979456698278465555829594998958757004270880769708118973359570158059350595252094023180567159446902608936162789458888934236312766562513781558644207024386373144412426753892369132551302441022773016347724544626003876468450224288985288881819598761835933423377011799182033156576453027413863702431840344506041678124601012274913528443415700480682048392373142317140580656570745648436638953105620302052193229841466528541608198483481598996706806337135588695989383497603788155304185116005947389543558608381030337011145894345164014652897490609622435835741647969272573683333514783795350616225354480901917321388280057699850215440395785242490964538665621367585033992591370968091111404702702451000328282094826736443232939026088135857744461897839340182313075028465563705445987940608773577869271246528014144372606652077834392057964969292482868682468606221108695692158405331416553785906554082403804519921934155731341220487810912226449724603084607267998594093609332771629641888096285042354212551466314575239919298678376131146055160756319786197051045488179717625081333582047800487953962799581793

def TAB17 : Nat :=
  111771556118849791533669128012139839790897720756766697374458566942969358557971090789028141555543629496953192304707144591953334167344696478969029405475387915175022726031634382741538426328197542720609817238774181332729263078124864321836118206162231962981900407271040461306777040546109992901169132153483997206357466218457642143544810675198804613508212939722643210194576050870151658897949140853348815367473465761506338198586592929922383290293478646973177897463338330584830952516377775127652311425165479370849032734223682830080589872536561084335246088250719613238179486265989585237157963689261626260202025232843118620541061981137506286042817404034428283188954233930785403305588608894582657981888441743882243456074514262808109085897371379982462588508118307032304503790285479373420894616603190474529543609616475100419250421728535174390753372941356850742180473473621547329735944262638938216103832100761857708212890011975848201109822096374241033927043455476490697085163527596060528371450034336668845350274030902161898768801953473760025522879815295037170678502554044652283811761627795332305600152009355296203571401397171636250960125455744867612377436709312585386768327518819193011103406704233263022742400854704021715802733961670754411972549789493241077673962238726532278218451440428095488149084680709621799594637869357534162945210753018879022607562275468060666999339338315178077280097238205353285647176528098698300435460527007419175188171108161520433667374125675796666247315847536953506348610806720292476828560948290517983380399552858264961042365098602

def TAB18 : Nat :=
  3670558596760425464072002307791478976978885822287943840587732804482184112768856785457298946333785344482375117534251243069481943560844656378317828712672762242897173608914652393231220575404956923566073536217422683136936097625901929580491893696920688947725895257681490323107872441998912405361200511873588540781098550369711905537638939725637695992795302708357661571109754972234110255129512731528891535678380743776035716840826415024935046377814240675524712890509847583255253126272409150204057504660638210745616109772461322741328388445470699069096224008413544628660240026595567811737048031187802872802260211404665815282579525701190825549943841966564143550636551025487686391139322562630139622666216515815874218425917003567786182075982252697502652503372901902972844973726691123443519736644130976814705059630032995944801473698657749085474921196726218177200084304502413436965839461435907236729333819319142834928825154440022275398328409770636781819758979245116623482034372785221028849213881898065229924515926417062712038210363132807831233116080980209880738861120845536317730441105484393766846099692322612465331711640066234407032565477168923812246893236851323372618551299553194485573283808074048457899620161978326672524637883723004532659006104002988360620323584881449155237289180591235736603550049768616649924042170754073917918663295245398318413114083072463919709528216600399824514373927914591515440684744356212040990968277767043976770107441151979968675250362316163673256185039285754385375211033272489747207448851473765884518032981451328423566766002196

def TAB19 : Nat :=
  100402504102322686578919246057028770843469486253645020499413999192385359171512973520775659813824819429352529359829889288601834289281188695569360122128587788091795701179037170473395789029306517506510616117428548153832034058357104923225769149794008960991457448052462427886258504308795878688918842760078703056626485524506106257241078975015748763092492524134879739062287846711860917443373186013262075464523887060503857245739894324667466049105755160333904617685160220970663469662900628265819206707913703321300528700225982874859933497273371291298163009307743460239825375512597538676661961200053392958446220874003285509420171104737019434607677442336994444121966410792750813013065124073660983369559884581556489008711132097144533206899573848432431066630897059601111728318851217782643517181494195677085444477084801247179344644059926688805516107262135902217636468880812912369475042629087971660782559041361052548191028215199402321682745555206114964734232601540626183833683875052800559048461088803528472621032265200121110365579124897717257285754747549754782064535030924910424171279871686311477502717575924097032318736936844238727336594453835931967364951859774378304819451974183131491000006976935181770779915964156389308020621134741922172976505171475458010816986288018329717545227531438543005905643774791102081651023147905933176999579741825139242489316322650229484441531371225836281106945767966761706395199636165778733815253397699857539952531114207437949586095195920341523648227623728750045083435237979916689777474203356828297120968152118531888508917796884

def TAB20 : Nat :=
  3776122901140248283095418375054403333301215233714021277445430168675148534290432680872515447920806399517831083215111442426296666986922157000596906194179979738517464704949080792262520069327717975061286603741376959988392234118478577622064479384442758756785087862069975803789353597861886448480073121738467535955941768941358918045566112259604630775234868276643364548145866383010490620063635165046831548353428633540891323481172552122095913504509336946333058018466122250960212956273864202480350444939017265068294031193444617236307548538565738365702575259816671802576928338576119971996819663981686333487539794467930569491823610013847198388706296734743936831946194528612241907858891984803738022069949523340141637629760861087915625142191373947489311307996121853834138643650763496069562197691630039971161972879159365664918823406574137650107664031587987877390399118898691745378753183762124103216966261627445755597130707758920739472540088260199855975902700051118079064840585503452489707496080234925505469838595113194182719562656097456482360956077554114606720546335497579822946457602743477314398357144534250562234743601362377263411074941314043766958005020012292427059765218311140338787721095843902105429892858463299999942427224835959918225325880015545548175000841472463361308802131307851203431053384328773355951669307304135119544777197177449017200805946419205381983570693221145998471509023384954384918133959291590254846137628346599638380203304281847405745007129570447217879495048291761093193836549338814331563641180111394731214944591758827923982292158058

def TAB21 : Nat :=
  3779169748635074432879033062045006805211052584749569896409607483130963957556924331081022678009915463555750701975437275319244919407100629640954969864639805266317011060211063556249438146239256833188968354251551797598250747789097205341186650057856616331997372906773931089730454872408235323628279374025540521546857481415246187464919922591180675968799907533079498191533952421086583383195678431457790735023615734789525587883152458117214668378956828581327289608658879223100981695611986257147349059951746220317816975059072266020433729669332850044765831940800157743777513900602839277701744394611834203681409570457564592874095277349596921902621016574318026353686871333706747979009158750060931644992214242984065166799910890644319891570374554108816218396362618143095908757874295695513997495441593697420164770013449474156077416285087721988375481713583233861335740209856353512237737376766393311880834437212199664130471213808979366252427855551379062751735393640622692902365021637397658358353582265033282540570414551746897370586498149459818968628388037386058494733757576009196906913399972364987567674622300422171506805035456458094353156438531315213020196059684298873755358472302025855520417867348702524462104853847990566473227583996545305302593461311113118467316953794387547521104145086507719922442640782967271447778487345056141254933623980955002419320163870703936643625376482676937714601776530207244153298346994505313516155347731345610168430269830540657469073628622363343664292351348790769117674587710652070327398236093090056300690804497890553202215584833

def TAB22 : Nat :=
  114888378116400873692477954715921081812124166069892706236650833067548024357855865100993773654415419738376252451292896832116612765048265879621872251751829858247723878238053626310998118823599175690208337193634977397413600815330990673740432304463812359620985524343141941590785479788051985829944838135148753582605399673415817509565535099649145893240161485490626481893498459326639299970087794650845595091145976345433688985584155093455462797481710534677327787434916342070818522070544443603447132925783554342806605474444710382741368848878454298544197778767774647656553399798471978424455901549774214512449333950467948770918445335725127727499811964687146943036717904291188721550574081028510218363414416601055010791206180973139918026712041353074205045921067042187706794090795440477281583446288075718611517939103086050921586605998540539531978823518091246752332097671547212599585410302624687960236830668177515688401400301337561515244341276934655976739075908295235295435564923907270479785657239978210189390671628758081269588473354271296635943950391572610407392974421551268026282583829741608809387046559327469400732335100192625296782473088480598502502312544184428422299630202587217854844960331595727440150539337293852862247395981079009859775351382557443914675917572344665560260986210397238913745620381880146463117076882161520719477608277281473241482025070425510921575760041381994107288317499413481795300210549389334391114851154423386812160994342283630966296208552195002455015737493742751231837765734236508428218980759563445262568160210368850677372298054258

def TAB23 : Nat :=
  113313189158595033413887036053594970104603742540757358787135071391423747204949986373956590087032132553879499679570372078786413423409947778713005108324087463777353057732126369592387071371476600006741471493067749279199851283948143630043168615637130249433253107165639714260152403986946349706961211373880820917395886404565303902675501032740587225607203684389209394249050512982368439699851376039931194811453075989464820909412585965905432852085820070754813199188272170073149623670552586028491115077084116359802160968259735085593969258242157898108430917674185338660599944650391743017799533114484219346423538783188081435917479289812465378873027905464721862813076100958641024893706893067880947698132713229697932614373991303582369612670372667790808925104914833369468619204247016536468157456988462859546634599905670156723819570565279714198949311239797868583053568562249742205506175624717931189188668596802192888411390368729281283926934357223033418028633496884140477162629224990088113711431762988789587350862820413786604348107603298263406172504680771253510815854853523840611970273117479523734717032943542730515151216465111569703281809640378795009390939610208652557052061853237001125944588876070076647612004324292027992786341032632422062425058005635070952666419226806794324942995558302712434833058292250930819408878074374821013914856800548339717100516050053710868237965672642215852335469602777889427785229722642243064304667082039115218149135656089038353490071497407791583580376914512753786540634867183129381720094442301425700518896768555074157710393591828

def TAB24 : Nat :=
  111768406181213959373758638042231118941742127456616061102812050231312363154049421605669139240795604298524435172181899598314760382201312988843412802849002817858219681154881143819135714402180153517840877743633200400157833780633714453444475890919563935697485908558986637471907130823589539474146163950816493058715375100516255087923411681369208537132144088819918977450831551688665951747800475902199018101521732709230889445172254644689080789340281875841945331606486200409328573266198560408801596452059824626103931244124223576327126503307569593445846304651751541547381577093955529459303012510015542882358710541204963672371235897313798165621874089943481981789951868792498562396159386451148072452768397844760232404105229817221417436005498197601028646638212181671032729633888788577027296461762154222797559286540936230037460792390062392909904961034503869453438211726966729385679806906897668779715188001331781707600184446456213065769991623626816920437005645869293697673717492233128228225925481156570764359089617486154924330953197205465297463843844206689740390190179630911419937746853346586678085243966339655178760455232194927703590153224895459286203665561803047278633934815938465848065282260175102139762911147382851214943493510169639928550954929941657418176249779993206336585463353820440881859533445057787943768509519672835865335922252518403952450549703853152309037524902820266649478210294370532877170960810480426210440267143742160943258524036816502666300020317515549652359703200976305687049869337578158324625045256156591457961743761429951149056001593970

def TAB25 : Nat :=
  23655575137417440371919296467769083426081713749496843802347173975790832790299361312178536512033285784557370130967893701053250083873207231774037677615464322591133201019226679845232701105099500848723038076498145515092530509225297342996307707658004264999539842209365931308952195734015606324063291232872220213728179585711286188538547483576149872290874732181766290383001565164620664149536072647080148112388443436544292871726865069218757991011204444178166998441785797081591997715942281029833549561080407066828872508597349287201607096056748829715002414645179017379168154625320366567432776083306997069638061592557058276576531245271991425887965177066741175702255349450807266484515827076339603689407021309729689478536571694266819842420175975604525112189486712691300105350955234785173439974751713584196231553612633605042264091160575342376343129121936604473363126463090373528461144927181739940079053476320647495489231576726744111852984742409618832683549015988062985800668548203170351486321373370993991524773983394919815469610394490956055905326373752704444921743242341060682952787181789165381052582913194294788799427584305305679077069839514102824712813540646032762494305527081909464385080655229554514419712821625625476834140869300539327222480303384919547691118934284233494931564452718701812114405553626198469531542926857255729148722898647937075228829385026481739174411442649889193420037231946250402239750296165733780211792673328864779804750939645118530196399623505211788200971575946602619676129755065625581850493197071959313913849924033070483263838586465

def TAB26 : Nat :=
  3670558596760425464072002307876676304670252416733761767210424804443190335623288269095047791026057873975485125107808323556370461609509693189577784021238211934671609565293991086297797594272314915669487523133390142260855092428549077141719305108985191338063723631836531461909435325748252541962679052103679211678676762732493605116445391307554518696340828111981104997477895121441306834366646152667170019290322600808133761413735071858746587966581263011395482604501195638217062583781238101350309515196964531667702091593987168121407394042900078287628713952726089092934821899491792208266924167278591474068329126175363098612084881883744886461118731730922689347203109863087575821653478694512544785518153764928622994268072769242189213157020515838353788248734722808483960231866820250163862528408946553144034408917416799844152808301217202919549513765781452724834587700848789191988896673767566347489009403192241335432888418709021341471453812843647142084895772360791625736009818276349715904158817470701445955346572322355250442679996211623187945514076736834741911164574556427140676321585518713737565561612599316138924614286011454374738049504227342122529807554069169044972565828567484622476783346878597712667551709156076201072042734388156283866347170916155588422125013593669072328063934110207435875429772393849487744737842957214196735279685274722530954565078707562557766640918817345674791701313767338392746508824824396298090678419865835422756934005304668998485171260375682399483845210738838898970653353658977114658706875657345765378773062596541544583968871011

def TAB27 : Nat :=
  58866575672365834048285444343207361065934978678894253998439067746621109677763688459828486718355232434609233072374129367887056558093278033402644959642965736820071012555128454484707309282952430429434828271610317039180622949044555011154150215219995846386828930435802100035998233501309285423509280263842543307676157505734303206676363061628598608921804883453044807186911454895786538025537679166372731422548385615843351418027111986938634254900643522719907741607614715151823952139240643305178412648401092283572085370897642600980350557052758600566326383053255493473171291863597776517909617901829339937584814965920203066800901597006107226845468506890004724633028424613132591845550139158768711205061549303295570269793031816347563307047461076540112149577077149525600331557759378220037950602310853377709817832866584089278560293767371818617290254233378063210673856056331473619442001275701879419622279812197660482730672284498192847952595650286891776154145134630520488832606336874246835033858088767978767933075581255566597136051930690950034749339716908359998819456053777917421041261941436199242093213222220000738178815372655646972758685878936024027528864418848291134979422349889579454740986900778057142876798451976296030989447371938565152597233362810553022668049831394566216414424947251492900423643394145342109928566409707603356244395512248545984837522822069815806699976078974159399157338208137244322969248494280825129872623188333783668519441188894509242194422411266193736551536114295459908699581444448207848182456629060152437808846909266680990412344152084

def TAB28 : Nat :=
  11929315439471382758234046335399348379450692717154901859420252211267590913076953211398103196366651355653346356390014543798289420171909332135839139296966663934938133064663809825785892032186119430516598108300645399681419020768868817988760231168594694827981109729380816883890440804095675245423617483148499093738135110166364216908191684386970173961716097304592593230990068852926548368548588580395293343566593209281952002581157240397134798940964334221836433067826933368605804996599948067486871915185182275283487082304521211747631659511368247640911021300834504112354832135478386315269363541999827103190997607095050305767338890147961915982085320490945037823372838176797729479442880205427395260098642966853602976670748411308705576210010306668178757093020606015378223681818405220174620835274326367778930313074875335852076431542825949011728543919016342335654953150778075205742379117158869137895666522613332282268115510290891813974538287940519749806163502688389995940809402138425657959021693171756221242059700266793605890028984615215966468127931336666218583840832710042783545927536923366632933365794081792527242825159360180048622806262463099973105855868446017210032369141197564529095785091561660748952167904253747115673841941216649420793540689813894533851778874896918091175752811758236565588907778616139019489543859966007815813715322931066375033614096510682746406217028678501674309558478565959158987382409064198948933882844301993268325550564441155157088310610213651902975480148304871803679950469166026696052495851394942800192691509379864584065085735956

def TAB29 : Nat :=
  111768509178463185375338166350772321270646964046771307767964478551940736710946763678837655029145665875422111382867537980873202230235507482986904016272404369009301237350894462533455716140211613282807474620423555373973259853360565414778875491963300776334554390427648559420965795503721478594737322513445633303740852142571661570055297724958104570228058681552749967849432245495296063341490329589947924547129504118754984625614260068234748246831116618071752190719413105355367335423619046058142064533528106580186108596835101559210623358703777987737073182219681674348091844212186801748392885061776718107459832035916607663644673893454133143634295090865308282423810323861761813346053734909825728523888796352735443476047767886240208629129707481975487535354704037724490622924204886015031485532130047344967764266682580908597557101718639198023316881730897499092066875554973024506757495404063322782397367085990585735852922112582638620883520656495727496230117530855792386734219592004716531777961455999971010686537719859631811975377660300971954663767114546538243039249222913502015264980185425609436198404365054261519434165150213807720716209021639618560083393082191508403928726734036525202296809680335864376208293344798383479074199300646967579974633609121112842454248374409732784129829517392869329292434134060691452538734309210306335714712276654448500205786022779067043517855553716250991179055855557458882924640285774405553212134561306161570267153092354774710512588792798426591367446189647895216286619804687679838336820420160318347781749516636659834997730988097

def TAB30 : Nat :=
  3670558596760432840073033862256604943058842953684590099038600689557998919648802234331583628529628805651283848509744995915134788117190274262568729028224759210152099442928605248467685573651351600519492918968616440460817259912671437735761693639946329561141176308616609667503823523261541280253906217760077703496196604494619866576971196392375393947457512856185736167656661954035671917836996749805145509474451303956493190468166713820655669570750966080036594291083415786434751890684837003341140458100388122889791843124085967525012784543260201849057496674914632298099701863384264587893937180766933273166400028381454652450492936671561018034623148342335885900417645703854746418399899387574003123338360183507167492254489786180034077588127439393270761129492321133619143119668775165717661212792991529171647071839355323465354198598255472740995436617189811051571765497892275005042553542989259807974839953698139407518590847068812208602558668736850237493082618997668777952967279537254482902725474580844055831818654239249656990211495120710369406115229506009098202886233614819629372945871228333936764665970565562399637375015747670173028445780301268425953689508463731996000698697119795725072922574228692821556388232566164211371181101910449344686960020626186360702340435462356334735651632319123358626413577793239933755036199964474418986665551843579477538887083504418921964984256737577204394462923992590987897844221419498725918325893165573799768477286057272550580922805089658292687606150715241729881683547726714057504426720861252898693857138536249364580439524417

def TAB31 : Nat :=
  3776125977054773576121634528526970727481338794906714776007616874463839400579771918609652082248829906965109674367554280131115687340928803124952184749323551053962631176342655744070166595620118747285368668849165223353829969484304058271797697878621136594374298423882392761871423893991339549878434506637390760765641011731511178293472285941803547723630079891499988905911905814582424807804736930293389144927299300550963804741519049407782072327579978379228744300021323452759286968117821399270528153844265907849750981209073853612152521789266926779620778192551776180039487788606906113167864042774657935049866127941732432844790860092750536509408601686835532880349973956470133790484507183877987934242587818359514143873491700758322027467266507610999906251041720951630926494384322728165529218751556774645939409987492717434078191637589456878764052163020658273759848012851835211683012253144825458543273220317873909302559864195876596766345169855758202453057550087756005454771276042533040926315115240700669889559755804736565940315311531528221659625516717181247666254927417059348565400449266943286019748163754833701486503150747458739659316936662695419674650138448261990334940076214526035518028226812241289553278865086616069694882246628633069333918277829003852590353710403946943763157459728600710067203061096109142113953827700518037549906309010503482300476933987794073203448403826425740485703923546588524885916887214002063586980032479725665034262318165729589726689695329434446327718663395313792081547330255479018886920264071690503249332021582824433923194376212

def TAB32 : Nat :=
  111768509272893268622975131911779666283863652427816891650213485670146351723314695790619352236348471993524763131350842521434889630175162242771424931087025897804582294757048631313930987744415278952827652961168378787015545817650247793945396468476357103882934129077476917270877719696468938656977720641299300195666660968262081620129661624857161592823346023023317533682009883337395130883177017499630906307443272483123605334020426347249363472833222451032791002130570917552813565286133268622319629902275623912091945402405933131149981026152801023689393530055768020386851609207913456081871988597987659024110786518247552507664538407488403488507981768647890325484074326444592702751965952325877677259843675199011363819848099500251636988281089075890737439497432529782534624202202615146971431595759542624040220434946756450957532020867700238917811612163964190715245234820078043180054876325926142351450831899129868477364506874689030937318494660078505763015824844931267009892116399246362853222823195405617478368200515444188968500929945843697612184281884999241623912549097334383448741435210596290564326879679100751042868171530856188896846394467531469092905356037226660377667098007142578628705860930148808664898870742521836693551061558376498597215038450762780933222776045689740152705208967479889162927829013524924679880185042449649193772558972528472984136585407567137619500927106289035749167074686284424327567479428707221885539260322583520739649535556370531278171195493006888335184029127827727111626808585272966097944774683880768396098684860952936808879091634196

def TAB33 : Nat :=
  3670558649745222420768522733158247416306677395001170082816919410804068775786392667851173396905306365404037547302609865349516635433177561141767703516695415504823062071934750241996846168342594138783099448921057043230984235269953729493773652611419781643065993288158817222649723387800259055889169414664231225564791010941062654213323305906214917515820486152416067855328227548184703240798291427242513837079903818333520434708390365982228261927731473734743812990169137331226788775508302998589670679090703396195894515252164898237596992353929141335384903401229215559101276418099754363900564562651747374949703266768304135986223541534798331233450730486330180863824477018748424897123366568210196798702424013358840378564279214431235153560894487783496636284978390599035637025201169566956097077451823444232163028756216482831338414234442109369817546892998445300413213987280104816442182073849434362315339595202385401006406865159515916682641170823107430780203721109252953792790222914569979934334033928026579035520961093956606050227232657860125311115711732604016236132865183003695824420168614951142154950053260085523315295212882894534453935077680164477782657461527264028143096974055793054505637500536911228359034540972025240740595566676346741185856218885165574802561933343407097681467158480901398234590259599580336615016568720845923784364555599101972667380329351226121878819466371618556900384757740119882138007721951641539144495417222577977627789856344069978500818956054823993636140295329142488154746063123150773195212870429251211550162461397000104181730660372

def TAB34 : Nat :=
  11921250247242172932669980597348536353619272853228550195148173779679123039050109692293249607645864827364261625478705250401178959786315372014268831622204756927715055733950101561378186781463800502992083734884369730760763997230824394772431438290691945010019964701166048441711509303571731909663343728660979068475452965110558545485206315949783691199630478351796869404060737879938690737987315894662507103167296020519304026719707941919282900000353504357967689535026226328807729955941559697844357261579255546483423317430501606456286763380150823889875871049805766733441269906988357656971874740960113993445547903154068423695311838202332155843115032396305210499682880331009850264727036938723941248510476136850486236878467585660161000732689982097463399547583723113700383883685176585138824821308721209179334726309776415140525136471960257965084725354938292098111346261917279678129868556415899362105735176045538292892043667548880000928434197055768339975711965275815469772419085734099026951746976388103971082996819799029037955542137138115642458124137881501604503565591295415485275039471948741828780607818896933674493569085037470560973047887579931961850444773527840539516291281178210853740225162002727847591458411580639567785881841414627612439553552051512119672679714047228350497309417662717352365141407115149024027335628104459824507512832207670513423635625524262429862046366309439668117596714993128143098170293265762786809731817505464481937474178951737072989508360536724985594801779923155628079893797669963959052672391229911936243540749396434257897953710100

def TAB35 : Nat :=
  3670558596760521380579068250354552496779244493460364077856118317742176044769503441870159368371277582326536137543111995333433463544539899462289143799948012679844981826837275052392663640193903298975654619137573895060726499521844388011827492934241865828334998517868653491630188015032953183346010921464357262750515610155203802267677380583168224544945460312871754720007256008821764237961751287980610793634716851180864111351485453117893215470671397935030749925208040133719932620786280159929197740841752792456133133396818647884215954537527767079814049341254087407689088733253625942389918962239086401227309873149930533127995158455559802256591915116889927609958142575479873111935205737785502767957517928672614605595612399493948321168437105485943696274772071490043329617524377255265668885524355975868336685295640826527564339977297115809107672217293370990956827280847687359208027633893744871712662375928371885493612576246853573306128455675064773851729049804703393759340344052525398472710301352743781457514007064085335345049541912893948003171096366691760231127607598593833792203248529616482437318975329101841951142592692961872909392148156112127833743239390099667446808617793271978302942862438978343744464926074840546123450668675411446174677274842512008062074051703348396609396997049709964842983249115003552317371503146126809372120131073687914684788203571019720252943745777410974536622616222063586522737070212042295113270064526921320282250601251317115657613829883299758364380632709000436095738428699191808319351290925546009170116560649926478762681061441

def TAB36 : Nat :=
  3670558596760425464072002307791478976978885822287943840587732804482184112768856785457298946385557289622211822111116628684899801246008279564557540713279196115286490188233432349100220224778741058272534731963924740078542646705523208517309319097354501857401498724732797729857811582782617345407643570441670000193788300237462170986821692972065271096836167452793387147547081805953265890877876728063729947229403715446442732315259288935647751388429473356979523594789527321457005121197402371089523178751585986773264831134736254401023293265802601829269589594914471070644939641743283710208058496888843121624458701397335617707402679057099957300662426328186283014475673414375727345632970013819092731041465464015598203424878071033036677233096849210911003388899597717315916325033727676477551128042969282771816588200182193727913789691866702993767354810274507202642145099552151557638387571916543928973139592031359707956880751302601735119097861391300042251839519265545013884586524780071779538888092168693197823190657175883591208414711005325152799004983281254786928847471990323562495109512391662911372862164910729552750550427628913450721040461077391943339330643855837511439781354853298265006645248219816787849526546087593694917458265562555907354523207474884988203130032650195011554911736905790963214030627081631233354147984659168340422877336175291390681574706249854929685317581620551386978452963349928843835402742116508627284030381553687121784625102038246357763935595139501444803929499354422462043704665440148868749975952158587299442168300522931977817319035489

def TAB37 : Nat :=
  3670558596760425464072002307791478976978885822287943840587732804482184112768856785457298946333785344482375117534251243069481943560844656378317828712672762242897173608914652393231220575404956923566073536217422683136936097625901929580491893696920688947725895257681490323107872441998912405361200511873588540781098550369711905537638939725637695992795302708357661571109754972234110255129512731528891535678380743776035716840826415024935046377814240675524712890509847583255253126272409150204057504660638210745616109772461322741328388445470699069096224008413544628660240026595567811737048031187802872802260211404665815282579525701190825549943841966564143550636551025487686391139322562630139622666216515815874218425917003567786182075982252697502652503372901902972844973726691123443519736644130976814705059630032995944801473698657749085474921196726073590096410666636884039733698815054095532904506048648450899990018807841474928263770937424409445723632836913162815742475662792756366827571280883857934302484826473071470375045065004619903707606558465785117461408821880886776781521417835822259899657598430103621813797030560370018278811520007715659747973599481698921170521765386517362292917646050234646915377542246136803819431666231564896332698467925387821291696848602090629671817997427917535900293922321737305987523934643980074907885527161771141342876363690719540256990596227344213906632882276447697563269672302573959649113195790952828305497725794422672326519754867233999853594403607252730783184647455954276841992427988699858617181927482431957214167060500

def TAB38 : Nat :=
  4258381036776775086784729601987317191759536828843435945060400056163366456202846955273939100579293333659362455812449565295047488866363477562840827925116338578564636346013736072082591679910041800300843003880191907689821701564741837236670621148113571077804128082701218134064905885141468270429564054382191353767495554631970624578370380812123480542126847852378704849266911095812683567072824772173265031189387919764180878261669638296539615339809681914383444514321617086218537300016961753706608160986857117489909191969109867273211536302060374324252743170617916306588114718953855437627523942116704501480951599869662741352706615605220253440930747570816922931789417776011502739378409591296020

def tabChunk (j : Nat) : Nat :=
  (if j < 19 then (if j < 9 then (if j < 4 then (if j < 2 then (if j < 1 then TAB0 else TAB1) else (if j < 3 then TAB2 else TAB3)) else (if j < 6 then (if j < 5 then TAB4 else TAB5) else (if j < 7 then TAB6 else (if j < 8 then TAB7 else TAB8)))) else (if j < 14 then (if j < 11 then (if j < 10 then TAB9 else TAB10) else (if j < 12 then TAB11 else (if j < 13 then TAB12 else TAB13))) else (if j < 16 then (if j < 15 then TAB14 else TAB15) else (if j < 17 then TAB16 else (if j < 18 then TAB17 else TAB18))))) else (if j < 29 then (if j < 24 then (if j < 21 then (if j < 20 then TAB19 else TAB20) else (if j < 22 then TAB21 else (if j < 23 then TAB22 else TAB23))) else (if j < 26 then (if j < 25 then TAB24 else TAB25) else (if j < 27 then TAB26 else (if j < 28 then TAB27 else TAB28)))) else (if j < 34 then (if j < 31 then (if j < 30 then TAB29 else TAB30) else (if j < 32 then TAB31 else (if j < 33 then TAB32 else TAB33))) else (if j < 36 then (if j < 35 then TAB34 else TAB35) else (if j < 37 then TAB36 else (if j < 38 then TAB37 else TAB38))))))

/-- Raw table lookup: entry index 2*g + (1 for the maximizing phase),
5 bits per entry, stored value is the minimax value plus 10. -/
def ivlook (g : Nat) (m : Bool) : Nat :=
  (tabChunk ((2 * g + cond m 1 0) / 1024)) >>> (5 * ((2 * g + cond m 1 0) % 1024)) &&& 31

/-- The tabled minimax value of code g in phase m, as an integer. -/
def vlook (g : Nat) (m : Bool) : Int := (ivlook g m : Int) - 10

/-- One depth step on stored values: values move one unit towards 0,
mirroring the depth adjustment 10 - depth / -10 + depth of the search. -/
def shiftOne (v : Int) : Int := if 0 < v then v - 1 else if v < 0 then v + 1 else 0

/-- shiftOne on raw 5-bit entries (value plus 10). -/
def nshiftOne (v : Nat) : Nat := if 10 < v then v - 1 else if v < 10 then v + 1 else 10

/-- The depth adjustment performed by d plies of search: a positive value
found at depth d is reported as v - d, a negative one as v + d. -/
def shiftBy (d v : Int) : Int := if 0 < v then v - d else if v < 0 then v + d else 0

/-- Fixpoint check, maximizing phase, upper bound: each free child keeps
the stored parent value an upper bound. -/
def chkMaxChild (g e1 c : Nat) : Bool :=
  tdigit g c != 0 || nshiftOne (ivlook (g + 3 ^ c) false) ≤ e1

/-- Fixpoint check, maximizing phase: some free child attains the value. -/
def chkMaxHit (g e1 c : Nat) : Bool :=
  tdigit g c == 0 && nshiftOne (ivlook (g + 3 ^ c) false) == e1

/-- Fixpoint check, minimizing phase, lower bound. -/
def chkMinChild (g e0 c : Nat) : Bool :=
  tdigit g c != 0 || e0 ≤ nshiftOne (ivlook (g + 2 * 3 ^ c) true)

/-- Fixpoint check, minimizing phase: some free child attains the value. -/
def chkMinHit (g e0 c : Nat) : Bool :=
  tdigit g c == 0 && nshiftOne (ivlook (g + 2 * 3 ^ c) true) == e0

/-- Range check on stored entries: a value is 0 or at distance at most
the number of free cells from the extremes, and at most 20. -/
def rangeChk (g e : Nat) : Bool :=
  (e == 10 || 20 - freeCountG g ≤ e || e ≤ freeCountG g) && e ≤ 20

/-- The local fixpoint property of one table code: terminal codes store
the exact terminal values, and every other code stores the max (resp.
min) over its free children of the depth-shifted child values. -/
def entryChk (g : Nat) : Bool :=
  if glineWon g then ivlook g false == 20 && ivlook g true == 0
  else if tfreeB g = false then ivlook g false == 10 && ivlook g true == 10
  else
    (chkMaxChild g (ivlook g true) 0 && chkMaxChild g (ivlook g true) 1 &&
     chkMaxChild g (ivlook g true) 2 && chkMaxChild g (ivlook g true) 3 &&
     chkMaxChild g (ivlook g true) 4 && chkMaxChild g (ivlook g true) 5 &&
     chkMaxChild g (ivlook g true) 6 && chkMaxChild g (ivlook g true) 7 &&
     chkMaxChild g (ivlook g true) 8) &&
    (chkMaxHit g (ivlook g true) 0 || chkMaxHit g (ivlook g true) 1 ||
     chkMaxHit g (ivlook g true) 2 || chkMaxHit g (ivlook g true) 3 ||
     chkMaxHit g (ivlook g true) 4 || chkMaxHit g (ivlook g true) 5 ||
     chkMaxHit g (ivlook g true) 6 || chkMaxHit g (ivlook g true) 7 ||
     chkMaxHit g (ivlook g true) 8) &&
    (chkMinChild g (ivlook g false) 0 && chkMinChild g (ivlook g false) 1 &&
     chkMinChild g (ivlook g false) 2 && chkMinChild g (ivlook g false) 3 &&
     chkMinChild g (ivlook g false) 4 && chkMinChild g (ivlook g false) 5 &&
     chkMinChild g (ivlook g false) 6 && chkMinChild g (ivlook g false) 7 &&
     chkMinChild g (ivlook g false) 8) &&
    (chkMinHit g (ivlook g false) 0 || chkMinHit g (ivlook g false) 1 ||
     chkMinHit g (ivlook g false) 2 || chkMinHit g (ivlook g false) 3 ||
     chkMinHit g (ivlook g false) 4 || chkMinHit g (ivlook g false) 5 ||
     chkMinHit g (ivlook g false) 6 || chkMinHit g (ivlook g false) 7 ||
     chkMinHit g (ivlook g false) 8) &&
    rangeChk g (ivlook g true) && rangeChk g (ivlook g false)

/-- Bounded universal quantifier as a Bool loop, for chunked kernel
verification of the table. -/
def forAllRange (f : Nat → Bool) : Nat → Nat → Bool
  | _, 0 => true
  | lo, n + 1 => f lo && forAllRange f (lo + 1) n

/-- Soundness of the check loop. -/
theorem forAllRange_true (f : Nat → Bool) :
    ∀ (n lo : Nat), forAllRange f lo n = true →
      ∀ i, lo ≤ i → i < lo + n → f i = true
  | 0, lo, _, i, h1, h2 => absurd h2 (by omega)
  | n + 1, lo, h, i, h1, h2 => by
    rw [forAllRange, Bool.and_eq_true] at h
    rcases Nat.eq_or_lt_of_le h1 with he | hlt
    · rw [← he]; exact h.1
    · exact forAllRange_true f n (lo + 1) h.2 i hlt (by omega)

/-! ## Arithmetic facts about board codes: digit updates and free counts -/

/-- Placing mark k on free cell c sets digit c of the code to k. -/
theorem dig_upd_self (g k c : Nat) (hc : c < 9) (h : tdigit g c = 0) (hk : k ≤ 2) :
    tdigit (g + k * 3 ^ c) c = k := by
  interval_cases c <;> (simp only [tdigit] at h ⊢; norm_num at h ⊢; omega)

/-- Placing a mark on free cell c leaves every other digit unchanged. -/
theorem dig_upd_other (g k c c' : Nat) (hc : c < 9) (hc' : c' < 9) (hne : c' ≠ c)
    (h : tdigit g c = 0) (hk : k ≤ 2) :
    tdigit (g + k * 3 ^ c) c' = tdigit g c' := by
  interval_cases c <;> interval_cases c' <;>
    simp only [tdigit] at h ⊢ <;> norm_num at h hne ⊢ <;> omega

/-- countTerm is the indicator of digit 0. -/
theorem ct_spec (d : Nat) : (d = 0 ∧ countTerm d = 1) ∨ (d ≠ 0 ∧ countTerm d = 0) := by
  cases d <;> simp [countTerm]

theorem ct_le (d : Nat) : countTerm d ≤ 1 := by
  cases d <;> simp [countTerm]

/-- A 3x3 code has at most 9 free cells. -/
theorem fc_le9 (g : Nat) : freeCountG g ≤ 9 := by
  have a0 := ct_le (tdigit g 0); have a1 := ct_le (tdigit g 1)
  have a2 := ct_le (tdigit g 2); have a3 := ct_le (tdigit g 3)
  have a4 := ct_le (tdigit g 4); have a5 := ct_le (tdigit g 5)
  have a6 := ct_le (tdigit g 6); have a7 := ct_le (tdigit g 7)
  have a8 := ct_le (tdigit g 8)
  simp only [freeCountG]
  omega

/-- tfreeB agrees with positivity of the free count. -/
theorem tfree_iff (g : Nat) : tfreeB g = true ↔ 1 ≤ freeCountG g := by
  have a0 := ct_spec (tdigit g 0); have a1 := ct_spec (tdigit g 1)
  have a2 := ct_spec (tdigit g 2); have a3 := ct_spec (tdigit g 3)
  have a4 := ct_spec (tdigit g 4); have a5 := ct_spec (tdigit g 5)
  have a6 := ct_spec (tdigit g 6); have a7 := ct_spec (tdigit g 7)
  have a8 := ct_spec (tdigit g 8)
  simp only [tfreeB, Bool.or_eq_true, beq_iff_eq, freeCountG]
  omega

/-- Negated form of tfree_iff. -/
theorem tfree_false_iff (g : Nat) : tfreeB g = false ↔ freeCountG g = 0 := by
  have h := tfree_iff g
  cases hb : tfreeB g
  · rw [hb] at h; simp at h ⊢; omega
  · rw [hb] at h; simp at h ⊢; omega

/-- Placing a mark on a free cell decreases the free count by one. -/
theorem fc_upd (g k c : Nat) (hc : c < 9) (h : tdigit g c = 0)
    (hk1 : 1 ≤ k) (hk : k ≤ 2) :
    freeCountG (g + k * 3 ^ c) + 1 = freeCountG g := by
  have hct0 : countTerm 0 = 1 := rfl
  interval_cases c
  · have hs : tdigit (g + k * 3 ^ 0) 0 = k :=
      dig_upd_self g k 0 (by norm_num) h hk
    have h1 : tdigit (g + k * 3 ^ 0) 1 = tdigit g 1 :=
      dig_upd_other g k 0 1 (by norm_num) (by norm_num) (by norm_num) h hk
    have h2 : tdigit (g + k * 3 ^ 0) 2 = tdigit g 2 :=
      dig_upd_other g k 0 2 (by norm_num) (by norm_num) (by norm_num) h hk
    have h3 : tdigit (g + k * 3 ^ 0) 3 = tdigit g 3 :=
      dig_upd_other g k 0 3 (by norm_num) (by norm_num) (by norm_num) h hk
    have h4 : tdigit (g + k * 3 ^ 0) 4 = tdigit g 4 :=
      dig_upd_other g k 0 4 (by norm_num) (by norm_num) (by norm_num) h hk
    have h5 : tdigit (g + k * 3 ^ 0) 5 = tdigit g 5 :=
      dig_upd_other g k 0 5 (by norm_num) (by norm_num) (by norm_num) h hk
    have h6 : tdigit (g + k * 3 ^ 0) 6 = tdigit g 6 :=
      dig_upd_other g k 0 6 (by norm_num) (by norm_num) (by norm_num) h hk
    have h7 : tdigit (g + k * 3 ^ 0) 7 = tdigit g 7 :=
      dig_upd_other g k 0 7 (by norm_num) (by norm_num) (by norm_num) h hk
    have h8 : tdigit (g + k * 3 ^ 0) 8 = tdigit g 8 :=
      dig_upd_other g k 0 8 (by norm_num) (by norm_num) (by norm_num) h hk
    have hck := ct_spec k
    simp only [freeCountG, h1, h2, h3, h4, h5, h6, h7, h8, hs, h, hct0]
    omega
  · have hs : tdigit (g + k * 3 ^ 1) 1 = k :=
      dig_upd_self g k 1 (by norm_num) h hk
    have h0 : tdigit (g + k * 3 ^ 1) 0 = tdigit g 0 :=
      dig_upd_other g k 1 0 (by norm_num) (by norm_num) (by norm_num) h hk
    have h2 : tdigit (g + k * 3 ^ 1) 2 = tdigit g 2 :=
      dig_upd_other g k 1 2 (by norm_num) (by norm_num) (by norm_num) h hk
    have h3 : tdigit (g + k * 3 ^ 1) 3 = tdigit g 3 :=
      dig_upd_other g k 1 3 (by norm_num) (by norm_num) (by norm_num) h hk
    have h4 : tdigit (g + k * 3 ^ 1) 4 = tdigit g 4 :=
      dig_upd_other g k 1 4 (by norm_num) (by norm_num) (by norm_num) h hk
    have h5 : tdigit (g + k * 3 ^ 1) 5 = tdigit g 5 :=
      dig_upd_other g k 1 5 (by norm_num) (by norm_num) (by norm_num) h hk
    have h6 : tdigit (g + k * 3 ^ 1) 6 = tdigit g 6 :=
      dig_upd_other g k 1 6 (by norm_num) (by norm_num) (by norm_num) h hk
    have h7 : tdigit (g + k * 3 ^ 1) 7 = tdigit g 7 :=
      dig_upd_other g k 1 7 (by norm_num) (by norm_num) (by norm_num) h hk
    have h8 : tdigit (g + k * 3 ^ 1) 8 = tdigit g 8 :=
      dig_upd_other g k 1 8 (by norm_num) (by norm_num) (by norm_num) h hk
    have hck := ct_spec k
    simp only [freeCountG, h0, h2, h3, h4, h5, h6, h7, h8, hs, h, hct0]
    omega
  · have hs : tdigit (g + k * 3 ^ 2) 2 = k :=
      dig_upd_self g k 2 (by norm_num) h hk
    have h0 : tdigit (g + k * 3 ^ 2) 0 = tdigit g 0 :=
      dig_upd_other g k 2 0 (by norm_num) (by norm_num) (by norm_num) h hk
    have h1 : tdigit (g + k * 3 ^ 2) 1 = tdigit g 1 :=
      dig_upd_other g k 2 1 (by norm_num) (by norm_num) (by norm_num) h hk
    have h3 : tdigit (g + k * 3 ^ 2) 3 = tdigit g 3 :=
      dig_upd_other g k 2 3 (by norm_num) (by norm_num) (by norm_num) h hk
    have h4 : tdigit (g + k * 3 ^ 2) 4 = tdigit g 4 :=
      dig_upd_other g k 2 4 (by norm_num) (by norm_num) (by norm_num) h hk
    have h5 : tdigit (g + k * 3 ^ 2) 5 = tdigit g 5 :=
      dig_upd_other g k 2 5 (by norm_num) (by norm_num) (by norm_num) h hk
    have h6 : tdigit (g + k * 3 ^ 2) 6 = tdigit g 6 :=
      dig_upd_other g k 2 6 (by norm_num) (by norm_num) (by norm_num) h hk
    have h7 : tdigit (g + k * 3 ^ 2) 7 = tdigit g 7 :=
      dig_upd_other g k 2 7 (by norm_num) (by norm_num) (by norm_num) h hk
    have h8 : tdigit (g + k * 3 ^ 2) 8 = tdigit g 8 :=
      dig_upd_other g k 2 8 (by norm_num) (by norm_num) (by norm_num) h hk
    have hck := ct_spec k
    simp only [freeCountG, h0, h1, h3, h4, h5, h6, h7, h8, hs, h, hct0]
    omega
  · have hs : tdigit (g + k * 3 ^ 3) 3 = k :=
      dig_upd_self g k 3 (by norm_num) h hk
    have h0 : tdigit (g + k * 3 ^ 3) 0 = tdigit g 0 :=
      dig_upd_other g k 3 0 (by norm_num) (by norm_num) (by norm_num) h hk
    have h1 : tdigit (g + k * 3 ^ 3) 1 = tdigit g 1 :=
      dig_upd_other g k 3 1 (by norm_num) (by norm_num) (by norm_num) h hk
    have h2 : tdigit (g + k * 3 ^ 3) 2 = tdigit g 2 :=
      dig_upd_other g k 3 2 (by norm_num) (by norm_num) (by norm_num) h hk
    have h4 : tdigit (g + k * 3 ^ 3) 4 = tdigit g 4 :=
      dig_upd_other g k 3 4 (by norm_num) (by norm_num) (by norm_num) h hk
    have h5 : tdigit (g + k * 3 ^ 3) 5 = tdigit g 5 :=
      dig_upd_other g k 3 5 (by norm_num) (by norm_num) (by norm_num) h hk
    have h6 : tdigit (g + k * 3 ^ 3) 6 = tdigit g 6 :=
      dig_upd_other g k 3 6 (by norm_num) (by norm_num) (by norm_num) h hk
    have h7 : tdigit (g + k * 3 ^ 3) 7 = tdigit g 7 :=
      dig_upd_other g k 3 7 (by norm_num) (by norm_num) (by norm_num) h hk
    have h8 : tdigit (g + k * 3 ^ 3) 8 = tdigit g 8 :=
      dig_upd_other g k 3 8 (by norm_num) (by norm_num) (by norm_num) h hk
    have hck := ct_spec k
    simp only [freeCountG, h0, h1, h2, h4, h5, h6, h7, h8, hs, h, hct0]
    omega
  · have hs : tdigit (g + k * 3 ^ 4) 4 = k :=
      dig_upd_self g k 4 (by norm_num) h hk
    have h0 : tdigit (g + k * 3 ^ 4) 0 = tdigit g 0 :=
      dig_upd_other g k 4 0 (by norm_num) (by norm_num) (by norm_num) h hk
    have h1 : tdigit (g + k * 3 ^ 4) 1 = tdigit g 1 :=
      dig_upd_other g k 4 1 (by norm_num) (by norm_num) (by norm_num) h hk
    have h2 : tdigit (g + k * 3 ^ 4) 2 = tdigit g 2 :=
      dig_upd_other g k 4 2 (by norm_num) (by norm_num) (by norm_num) h hk
    have h3 : tdigit (g + k * 3 ^ 4) 3 = tdigit g 3 :=
      dig_upd_other g k 4 3 (by norm_num) (by norm_num) (by norm_num) h hk
    have h5 : tdigit (g + k * 3 ^ 4) 5 = tdigit g 5 :=
      dig_upd_other g k 4 5 (by norm_num) (by norm_num) (by norm_num) h hk
    have h6 : tdigit (g + k * 3 ^ 4) 6 = tdigit g 6 :=
      dig_upd_other g k 4 6 (by norm_num) (by norm_num) (by norm_num) h hk
    have h7 : tdigit (g + k * 3 ^ 4) 7 = tdigit g 7 :=
      dig_upd_other g k 4 7 (by norm_num) (by norm_num) (by norm_num) h hk
    have h8 : tdigit (g + k * 3 ^ 4) 8 = tdigit g 8 :=
      dig_upd_other g k 4 8 (by norm_num) (by norm_num) (by norm_num) h hk
    have hck := ct_spec k
    simp only [freeCountG, h0, h1, h2, h3, h5, h6, h7, h8, hs, h, hct0]
    omega
  · have hs : tdigit (g + k * 3 ^ 5) 5 = k :=
      dig_upd_self g k 5 (by norm_num) h hk
    have h0 : tdigit (g + k * 3 ^ 5) 0 = tdigit g 0 :=
      dig_upd_other g k 5 0 (by norm_num) (by norm_num) (by norm_num) h hk
    have h1 : tdigit (g + k * 3 ^ 5) 1 = tdigit g 1 :=
      dig_upd_other g k 5 1 (by norm_num) (by norm_num) (by norm_num) h hk
    have h2 : tdigit (g + k * 3 ^ 5) 2 = tdigit g 2 :=
      dig_upd_other g k 5 2 (by norm_num) (by norm_num) (by norm_num) h hk
    have h3 : tdigit (g + k * 3 ^ 5) 3 = tdigit g 3 :=
      dig_upd_other g k 5 3 (by norm_num) (by norm_num) (by norm_num) h hk
    have h4 : tdigit (g + k * 3 ^ 5) 4 = tdigit g 4 :=
      dig_upd_other g k 5 4 (by norm_num) (by norm_num) (by norm_num) h hk
    have h6 : tdigit (g + k * 3 ^ 5) 6 = tdigit g 6 :=
      dig_upd_other g k 5 6 (by norm_num) (by norm_num) (by norm_num) h hk
    have h7 : tdigit (g + k * 3 ^ 5) 7 = tdigit g 7 :=
      dig_upd_other g k 5 7 (by norm_num) (by norm_num) (by norm_num) h hk
    have h8 : tdigit (g + k * 3 ^ 5) 8 = tdigit g 8 :=
      dig_upd_other g k 5 8 (by norm_num) (by norm_num) (by norm_num) h hk
    have hck := ct_spec k
    simp only [freeCountG, h0, h1, h2, h3, h4, h6, h7, h8, hs, h, hct0]
    omega
  · have hs : tdigit (g + k * 3 ^ 6) 6 = k :=
      dig_upd_self g k 6 (by norm_num) h hk
    have h0 : tdigit (g + k * 3 ^ 6) 0 = tdigit g 0 :=
      dig_upd_other g k 6 0 (by norm_num) (by norm_num) (by norm_num) h hk
    have h1 : tdigit (g + k * 3 ^ 6) 1 = tdigit g 1 :=
      dig_upd_other g k 6 1 (by norm_num) (by norm_num) (by norm_num) h hk
    have h2 : tdigit (g + k * 3 ^ 6) 2 = tdigit g 2 :=
      dig_upd_other g k 6 2 (by norm_num) (by norm_num) (by norm_num) h hk
    have h3 : tdigit (g + k * 3 ^ 6) 3 = tdigit g 3 :=
      dig_upd_other g k 6 3 (by norm_num) (by norm_num) (by norm_num) h hk
    have h4 : tdigit (g + k * 3 ^ 6) 4 = tdigit g 4 :=
      dig_upd_other g k 6 4 (by norm_num) (by norm_num) (by norm_num) h hk
    have h5 : tdigit (g + k * 3 ^ 6) 5 = tdigit g 5 :=
      dig_upd_other g k 6 5 (by norm_num) (by norm_num) (by norm_num) h hk
    have h7 : tdigit (g + k * 3 ^ 6) 7 = tdigit g 7 :=
      dig_upd_other g k 6 7 (by norm_num) (by norm_num) (by norm_num) h hk
    have h8 : tdigit (g + k * 3 ^ 6) 8 = tdigit g 8 :=
      dig_upd_other g k 6 8 (by norm_num) (by norm_num) (by norm_num) h hk
    have hck := ct_spec k
    simp only [freeCountG, h0, h1, h2, h3, h4, h5, h7, h8, hs, h, hct0]
    omega
  · have hs : tdigit (g + k * 3 ^ 7) 7 = k :=
      dig_upd_self g k 7 (by norm_num) h hk
    have h0 : tdigit (g + k * 3 ^ 7) 0 = tdigit g 0 :=
      dig_upd_other g k 7 0 (by norm_num) (by norm_num) (by norm_num) h hk
    have h1 : tdigit (g + k * 3 ^ 7) 1 = tdigit g 1 :=
      dig_upd_other g k 7 1 (by norm_num) (by norm_num) (by norm_num) h hk
    have h2 : tdigit (g + k * 3 ^ 7) 2 = tdigit g 2 :=
      dig_upd_other g k 7 2 (by norm_num) (by norm_num) (by norm_num) h hk
    have h3 : tdigit (g + k * 3 ^ 7) 3 = tdigit g 3 :=
      dig_upd_other g k 7 3 (by norm_num) (by norm_num) (by norm_num) h hk
    have h4 : tdigit (g + k * 3 ^ 7) 4 = tdigit g 4 :=
      dig_upd_other g k 7 4 (by norm_num) (by norm_num) (by norm_num) h hk
    have h5 : tdigit (g + k * 3 ^ 7) 5 = tdigit g 5 :=
      dig_upd_other g k 7 5 (by norm_num) (by norm_num) (by norm_num) h hk
    have h6 : tdigit (g + k * 3 ^ 7) 6 = tdigit g 6 :=
      dig_upd_other g k 7 6 (by norm_num) (by norm_num) (by norm_num) h hk
    have h8 : tdigit (g + k * 3 ^ 7) 8 = tdigit g 8 :=
      dig_upd_other g k 7 8 (by norm_num) (by norm_num) (by norm_num) h hk
    have hck := ct_spec k
    simp only [freeCountG, h0, h1, h2, h3, h4, h5, h6, h8, hs, h, hct0]
    omega
  · have hs : tdigit (g + k * 3 ^ 8) 8 = k :=
      dig_upd_self g k 8 (by norm_num) h hk
    have h0 : tdigit (g + k * 3 ^ 8) 0 = tdigit g 0 :=
      dig_upd_other g k 8 0 (by norm_num) (by norm_num) (by norm_num) h hk
    have h1 : tdigit (g + k * 3 ^ 8) 1 = tdigit g 1 :=
      dig_upd_other g k 8 1 (by norm_num) (by norm_num) (by norm_num) h hk
    have h2 : tdigit (g + k * 3 ^ 8) 2 = tdigit g 2 :=
      dig_upd_other g k 8 2 (by norm_num) (by norm_num) (by norm_num) h hk
    have h3 : tdigit (g + k * 3 ^ 8) 3 = tdigit g 3 :=
      dig_upd_other g k 8 3 (by norm_num) (by norm_num) (by norm_num) h hk
    have h4 : tdigit (g + k * 3 ^ 8) 4 = tdigit g 4 :=
      dig_upd_other g k 8 4 (by norm_num) (by norm_num) (by norm_num) h hk
    have h5 : tdigit (g + k * 3 ^ 8) 5 = tdigit g 5 :=
      dig_upd_other g k 8 5 (by norm_num) (by norm_num) (by norm_num) h hk
    have h6 : tdigit (g + k * 3 ^ 8) 6 = tdigit g 6 :=
      dig_upd_other g k 8 6 (by norm_num) (by norm_num) (by norm_num) h hk
    have h7 : tdigit (g + k * 3 ^ 8) 7 = tdigit g 7 :=
      dig_upd_other g k 8 7 (by norm_num) (by norm_num) (by norm_num) h hk
    have hck := ct_spec k
    simp only [freeCountG, h0, h1, h2, h3, h4, h5, h6, h7, hs, h, hct0]
    omega

/-- Placing a mark on a free cell keeps the code below 3^9. -/
theorem code_upd_lt (g k c : Nat) (hg : g < 19683) (hc : c < 9)
    (h : tdigit g c = 0) (hk : k ≤ 2) :
    g + k * 3 ^ c < 19683 := by
  interval_cases c <;> (simp only [tdigit] at h; norm_num at h ⊢; omega)

/-- Every digit of a code is 0, 1 or 2. -/
theorem tdigit_lt (g c : Nat) : tdigit g c < 3 :=
  Nat.mod_lt _ (by norm_num)

/-! ## Decoding board codes to Boards

decodeBy maps a code to a Board through a tile decoder; tileC (digit 1 is
the computer's X) serves the primary engine and tileP (digit 1 is the
player's O) the mirrored engine, so one table serves both searches. -/

/-- Tile decoder for the primary engine: 1 is X (the computer's mark). -/
def tileC (n : Nat) : Tile :=
  if n = 0 then Tile.Free else if n = 1 then Tile.X else Tile.O

/-- Tile decoder for the mirrored engine: 1 is O (the player's mark). -/
def tileP (n : Nat) : Tile :=
  if n = 0 then Tile.Free else if n = 1 then Tile.O else Tile.X

/-- The board denoted by a code, under a tile decoder: the game's fixed
tile assignment (computer X, player O) and an explicit side to move. -/
def decodeBy (tl : Nat → Tile) (g : Nat) (cm : Move) : Board :=
  ⟨[[tl (tdigit g 0), tl (tdigit g 1), tl (tdigit g 2)],
    [tl (tdigit g 3), tl (tdigit g 4), tl (tdigit g 5)],
    [tl (tdigit g 6), tl (tdigit g 7), tl (tdigit g 8)]],
   cm, Tile.X, Tile.O⟩

/-- Code decoding for the primary (computer) engine. -/
def decodeC (g : Nat) (cm : Move) : Board := decodeBy tileC g cm

/-- Code decoding for the mirrored (player) engine. -/
def decodeP (g : Nat) (cm : Move) : Board := decodeBy tileP g cm

/-- Side to move of a board handed to the primary engine in phase m:
the maximizing phase runs with the opponent denoted as current (the
search toggles current_move before each recursive call). -/
def cmLinkC (m : Bool) : Move := cond m Move.Player Move.Computer

/-- Side to move linkage for the mirrored engine. -/
def cmLinkP (m : Bool) : Move := cond m Move.Computer Move.Player

theorem tileC_free : ∀ a, a < 3 → (tileC a = Tile.Free ↔ a = 0) := by decide

theorem tileC_inj : ∀ a, a < 3 → ∀ b, b < 3 → (tileC a = tileC b ↔ a = b) := by decide

theorem tileP_free : ∀ a, a < 3 → (tileP a = Tile.Free ↔ a = 0) := by decide

theorem tileP_inj : ∀ a, a < 3 → ∀ b, b < 3 → (tileP a = tileP b ↔ a = b) := by decide

theorem WF_decodeBy (tl : Nat → Tile) (g : Nat) (cm : Move) : WF (decodeBy tl g cm) :=
  ⟨rfl, by intro r hr; fin_cases hr <;> rfl⟩

theorem getTile_decodeBy (tl : Nat → Tile) (g : Nat) (cm : Move) (i j : Nat)
    (hi : i < 3) (hj : j < 3) :
    (decodeBy tl g cm).getTile i j = tl (tdigit g (3 * i + j)) := by
  interval_cases i <;> interval_cases j <;> rfl

theorem change_player_decodeBy (tl : Nat → Tile) (g : Nat) (cm : Move) :
    (decodeBy tl g cm).change_player = decodeBy tl g (flipMove cm) := by
  cases cm <;> rfl

theorem flip_cmLinkC (m : Bool) : flipMove (cmLinkC m) = cmLinkC (!m) := by
  cases m <;> rfl

theorem flip_cmLinkP (m : Bool) : flipMove (cmLinkP m) = cmLinkP (!m) := by
  cases m <;> rfl

/-- Writing mark k into the free cell (i, j) of a decoded board decodes
the code with digit 3*i+j set to k. -/
theorem setTile_decodeBy (tl : Nat → Tile) (g : Nat) (cm : Move) (i j k : Nat)
    (hi : i < 3) (hj : j < 3) (_hk1 : 1 ≤ k) (hk2 : k ≤ 2)
    (hd : tdigit g (3 * i + j) = 0) :
    (decodeBy tl g cm).setTile i j (tl k) =
      decodeBy tl (g + k * 3 ^ (3 * i + j)) cm := by
  interval_cases i <;> interval_cases j
  · rw [show (3 * 0 + 0 : Nat) = 0 from rfl] at hd ⊢
    have e1 : tdigit (g + k * 3 ^ 0) 1 = tdigit g 1 :=
      dig_upd_other g k 0 1 (by norm_num) (by norm_num) (by norm_num) hd hk2
    have e2 : tdigit (g + k * 3 ^ 0) 2 = tdigit g 2 :=
      dig_upd_other g k 0 2 (by norm_num) (by norm_num) (by norm_num) hd hk2
    have e3 : tdigit (g + k * 3 ^ 0) 3 = tdigit g 3 :=
      dig_upd_other g k 0 3 (by norm_num) (by norm_num) (by norm_num) hd hk2
    have e4 : tdigit (g + k * 3 ^ 0) 4 = tdigit g 4 :=
      dig_upd_other g k 0 4 (by norm_num) (by norm_num) (by norm_num) hd hk2
    have e5 : tdigit (g + k * 3 ^ 0) 5 = tdigit g 5 :=
      dig_upd_other g k 0 5 (by norm_num) (by norm_num) (by norm_num) hd hk2
    have e6 : tdigit (g + k * 3 ^ 0) 6 = tdigit g 6 :=
      dig_upd_other g k 0 6 (by norm_num) (by norm_num) (by norm_num) hd hk2
    have e7 : tdigit (g + k * 3 ^ 0) 7 = tdigit g 7 :=
      dig_upd_other g k 0 7 (by norm_num) (by norm_num) (by norm_num) hd hk2
    have e8 : tdigit (g + k * 3 ^ 0) 8 = tdigit g 8 :=
      dig_upd_other g k 0 8 (by norm_num) (by norm_num) (by norm_num) hd hk2
    have es : tdigit (g + k * 3 ^ 0) 0 = k :=
      dig_upd_self g k 0 (by norm_num) hd hk2
    show Board.mk [[tl k, tl (tdigit g 1), tl (tdigit g 2)],
        [tl (tdigit g 3), tl (tdigit g 4), tl (tdigit g 5)],
        [tl (tdigit g 6), tl (tdigit g 7), tl (tdigit g 8)]] cm Tile.X Tile.O = _
    simp only [decodeBy, e1, e2, e3, e4, e5, e6, e7, e8, es]
  · rw [show (3 * 0 + 1 : Nat) = 1 from rfl] at hd ⊢
    have e0 : tdigit (g + k * 3 ^ 1) 0 = tdigit g 0 :=
      dig_upd_other g k 1 0 (by norm_num) (by norm_num) (by norm_num) hd hk2
    have e2 : tdigit (g + k * 3 ^ 1) 2 = tdigit g 2 :=
      dig_upd_other g k 1 2 (by norm_num) (by norm_num) (by norm_num) hd hk2
    have e3 : tdigit (g + k * 3 ^ 1) 3 = tdigit g 3 :=
      dig_upd_other g k 1 3 (by norm_num) (by norm_num) (by norm_num) hd hk2
    have e4 : tdigit (g + k * 3 ^ 1) 4 = tdigit g 4 :=
      dig_upd_other g k 1 4 (by norm_num) (by norm_num) (by norm_num) hd hk2
    have e5 : tdigit (g + k * 3 ^ 1) 5 = tdigit g 5 :=
      dig_upd_other g k 1 5 (by norm_num) (by norm_num) (by norm_num) hd hk2
    have e6 : tdigit (g + k * 3 ^ 1) 6 = tdigit g 6 :=
      dig_upd_other g k 1 6 (by norm_num) (by norm_num) (by norm_num) hd hk2
    have e7 : tdigit (g + k * 3 ^ 1) 7 = tdigit g 7 :=
      dig_upd_other g k 1 7 (by norm_num) (by norm_num) (by norm_num) hd hk2
    have e8 : tdigit (g + k * 3 ^ 1) 8 = tdigit g 8 :=
      dig_upd_other g k 1 8 (by norm_num) (by norm_num) (by norm_num) hd hk2
    have es : tdigit (g + k * 3 ^ 1) 1 = k :=
      dig_upd_self g k 1 (by norm_num) hd hk2
    show Board.mk [[tl (tdigit g 0), tl k, tl (tdigit g 2)],
        [tl (tdigit g 3), tl (tdigit g 4), tl (tdigit g 5)],
        [tl (tdigit g 6), tl (tdigit g 7), tl (tdigit g 8)]] cm Tile.X Tile.O = _
    simp only [decodeBy, e0, e2, e3, e4, e5, e6, e7, e8, es]
  · rw [show (3 * 0 + 2 : Nat) = 2 from rfl] at hd ⊢
    have e0 : tdigit (g + k * 3 ^ 2) 0 = tdigit g 0 :=
      dig_upd_other g k 2 0 (by norm_num) (by norm_num) (by norm_num) hd hk2
    have e1 : tdigit (g + k * 3 ^ 2) 1 = tdigit g 1 :=
      dig_upd_other g k 2 1 (by norm_num) (by norm_num) (by norm_num) hd hk2
    have e3 : tdigit (g + k * 3 ^ 2) 3 = tdigit g 3 :=
      dig_upd_other g k 2 3 (by norm_num) (by norm_num) (by norm_num) hd hk2
    have e4 : tdigit (g + k * 3 ^ 2) 4 = tdigit g 4 :=
      dig_upd_other g k 2 4 (by norm_num) (by norm_num) (by norm_num) hd hk2
    have e5 : tdigit (g + k * 3 ^ 2) 5 = tdigit g 5 :=
      dig_upd_other g k 2 5 (by norm_num) (by norm_num) (by norm_num) hd hk2
    have e6 : tdigit (g + k * 3 ^ 2) 6 = tdigit g 6 :=
      dig_upd_other g k 2 6 (by norm_num) (by norm_num) (by norm_num) hd hk2
    have e7 : tdigit (g + k * 3 ^ 2) 7 = tdigit g 7 :=
      dig_upd_other g k 2 7 (by norm_num) (by norm_num) (by norm_num) hd hk2
    have e8 : tdigit (g + k * 3 ^ 2) 8 = tdigit g 8 :=
      dig_upd_other g k 2 8 (by norm_num) (by norm_num) (by norm_num) hd hk2
    have es : tdigit (g + k * 3 ^ 2) 2 = k :=
      dig_upd_self g k 2 (by norm_num) hd hk2
    show Board.mk [[tl (tdigit g 0), tl (tdigit g 1), tl k],
        [tl (tdigit g 3), tl (tdigit g 4), tl (tdigit g 5)],
        [tl (tdigit g 6), tl (tdigit g 7), tl (tdigit g 8)]] cm Tile.X Tile.O = _
    simp only [decodeBy, e0, e1, e3, e4, e5, e6, e7, e8, es]
  · rw [show (3 * 1 + 0 : Nat) = 3 from rfl] at hd ⊢
    have e0 : tdigit (g + k * 3 ^ 3) 0 = tdigit g 0 :=
      dig_upd_other g k 3 0 (by norm_num) (by norm_num) (by norm_num) hd hk2
    have e1 : tdigit (g + k * 3 ^ 3) 1 = tdigit g 1 :=
      dig_upd_other g k 3 1 (by norm_num) (by norm_num) (by norm_num) hd hk2
    have e2 : tdigit (g + k * 3 ^ 3) 2 = tdigit g 2 :=
      dig_upd_other g k 3 2 (by norm_num) (by norm_num) (by norm_num) hd hk2
    have e4 : tdigit (g + k * 3 ^ 3) 4 = tdigit g 4 :=
      dig_upd_other g k 3 4 (by norm_num) (by norm_num) (by norm_num) hd hk2
    have e5 : tdigit (g + k * 3 ^ 3) 5 = tdigit g 5 :=
      dig_upd_other g k 3 5 (by norm_num) (by norm_num) (by norm_num) hd hk2
    have e6 : tdigit (g + k * 3 ^ 3) 6 = tdigit g 6 :=
      dig_upd_other g k 3 6 (by norm_num) (by norm_num) (by norm_num) hd hk2
    have e7 : tdigit (g + k * 3 ^ 3) 7 = tdigit g 7 :=
      dig_upd_other g k 3 7 (by norm_num) (by norm_num) (by norm_num) hd hk2
    have e8 : tdigit (g + k * 3 ^ 3) 8 = tdigit g 8 :=
      dig_upd_other g k 3 8 (by norm_num) (by norm_num) (by norm_num) hd hk2
    have es : tdigit (g + k * 3 ^ 3) 3 = k :=
      dig_upd_self g k 3 (by norm_num) hd hk2
    show Board.mk [[tl (tdigit g 0), tl (tdigit g 1), tl (tdigit g 2)],
        [tl k, tl (tdigit g 4), tl (tdigit g 5)],
        [tl (tdigit g 6), tl (tdigit g 7), tl (tdigit g 8)]] cm Tile.X Tile.O = _
    simp only [decodeBy, e0, e1, e2, e4, e5, e6, e7, e8, es]
  · rw [show (3 * 1 + 1 : Nat) = 4 from rfl] at hd ⊢
    have e0 : tdigit (g + k * 3 ^ 4) 0 = tdigit g 0 :=
      dig_upd_other g k 4 0 (by norm_num) (by norm_num) (by norm_num) hd hk2
    have e1 : tdigit (g + k * 3 ^ 4) 1 = tdigit g 1 :=
      dig_upd_other g k 4 1 (by norm_num) (by norm_num) (by norm_num) hd hk2
    have e2 : tdigit (g + k * 3 ^ 4) 2 = tdigit g 2 :=
      dig_upd_other g k 4 2 (by norm_num) (by norm_num) (by norm_num) hd hk2
    have e3 : tdigit (g + k * 3 ^ 4) 3 = tdigit g 3 :=
      dig_upd_other g k 4 3 (by norm_num) (by norm_num) (by norm_num) hd hk2
    have e5 : tdigit (g + k * 3 ^ 4) 5 = tdigit g 5 :=
      dig_upd_other g k 4 5 (by norm_num) (by norm_num) (by norm_num) hd hk2
    have e6 : tdigit (g + k * 3 ^ 4) 6 = tdigit g 6 :=
      dig_upd_other g k 4 6 (by norm_num) (by norm_num) (by norm_num) hd hk2
    have e7 : tdigit (g + k * 3 ^ 4) 7 = tdigit g 7 :=
      dig_upd_other g k 4 7 (by norm_num) (by norm_num) (by norm_num) hd hk2
    have e8 : tdigit (g + k * 3 ^ 4) 8 = tdigit g 8 :=
      dig_upd_other g k 4 8 (by norm_num) (by norm_num) (by norm_num) hd hk2
    have es : tdigit (g + k * 3 ^ 4) 4 = k :=
      dig_upd_self g k 4 (by norm_num) hd hk2
    show Board.mk [[tl (tdigit g 0), tl (tdigit g 1), tl (tdigit g 2)],
        [tl (tdigit g 3), tl k, tl (tdigit g 5)],
        [tl (tdigit g 6), tl (tdigit g 7), tl (tdigit g 8)]] cm Tile.X Tile.O = _
    simp only [decodeBy, e0, e1, e2, e3, e5, e6, e7, e8, es]
  · rw [show (3 * 1 + 2 : Nat) = 5 from rfl] at hd ⊢
    have e0 : tdigit (g + k * 3 ^ 5) 0 = tdigit g 0 :=
      dig_upd_other g k 5 0 (by norm_num) (by norm_num) (by norm_num) hd hk2
    have e1 : tdigit (g + k * 3 ^ 5) 1 = tdigit g 1 :=
      dig_upd_other g k 5 1 (by norm_num) (by norm_num) (by norm_num) hd hk2
    have e2 : tdigit (g + k * 3 ^ 5) 2 = tdigit g 2 :=
      dig_upd_other g k 5 2 (by norm_num) (by norm_num) (by norm_num) hd hk2
    have e3 : tdigit (g + k * 3 ^ 5) 3 = tdigit g 3 :=
      dig_upd_other g k 5 3 (by norm_num) (by norm_num) (by norm_num) hd hk2
    have e4 : tdigit (g + k * 3 ^ 5) 4 = tdigit g 4 :=
      dig_upd_other g k 5 4 (by norm_num) (by norm_num) (by norm_num) hd hk2
    have e6 : tdigit (g + k * 3 ^ 5) 6 = tdigit g 6 :=
      dig_upd_other g k 5 6 (by norm_num) (by norm_num) (by norm_num) hd hk2
    have e7 : tdigit (g + k * 3 ^ 5) 7 = tdigit g 7 :=
      dig_upd_other g k 5 7 (by norm_num) (by norm_num) (by norm_num) hd hk2
    have e8 : tdigit (g + k * 3 ^ 5) 8 = tdigit g 8 :=
      dig_upd_other g k 5 8 (by norm_num) (by norm_num) (by norm_num) hd hk2
    have es : tdigit (g + k * 3 ^ 5) 5 = k :=
      dig_upd_self g k 5 (by norm_num) hd hk2
    show Board.mk [[tl (tdigit g 0), tl (tdigit g 1), tl (tdigit g 2)],
        [tl (tdigit g 3), tl (tdigit g 4), tl k],
        [tl (tdigit g 6), tl (tdigit g 7), tl (tdigit g 8)]] cm Tile.X Tile.O = _
    simp only [decodeBy, e0, e1, e2, e3, e4, e6, e7, e8, es]
  · rw [show (3 * 2 + 0 : Nat) = 6 from rfl] at hd ⊢
    have e0 : tdigit (g + k * 3 ^ 6) 0 = tdigit g 0 :=
      dig_upd_other g k 6 0 (by norm_num) (by norm_num) (by norm_num) hd hk2
    have e1 : tdigit (g + k * 3 ^ 6) 1 = tdigit g 1 :=
      dig_upd_other g k 6 1 (by norm_num) (by norm_num) (by norm_num) hd hk2
    have e2 : tdigit (g + k * 3 ^ 6) 2 = tdigit g 2 :=
      dig_upd_other g k 6 2 (by norm_num) (by norm_num) (by norm_num) hd hk2
    have e3 : tdigit (g + k * 3 ^ 6) 3 = tdigit g 3 :=
      dig_upd_other g k 6 3 (by norm_num) (by norm_num) (by norm_num) hd hk2
    have e4 : tdigit (g + k * 3 ^ 6) 4 = tdigit g 4 :=
      dig_upd_other g k 6 4 (by norm_num) (by norm_num) (by norm_num) hd hk2
    have e5 : tdigit (g + k * 3 ^ 6) 5 = tdigit g 5 :=
      dig_upd_other g k 6 5 (by norm_num) (by norm_num) (by norm_num) hd hk2
    have e7 : tdigit (g + k * 3 ^ 6) 7 = tdigit g 7 :=
      dig_upd_other g k 6 7 (by norm_num) (by norm_num) (by norm_num) hd hk2
    have e8 : tdigit (g + k * 3 ^ 6) 8 = tdigit g 8 :=
      dig_upd_other g k 6 8 (by norm_num) (by norm_num) (by norm_num) hd hk2
    have es : tdigit (g + k * 3 ^ 6) 6 = k :=
      dig_upd_self g k 6 (by norm_num) hd hk2
    show Board.mk [[tl (tdigit g 0), tl (tdigit g 1), tl (tdigit g 2)],
        [tl (tdigit g 3), tl (tdigit g 4), tl (tdigit g 5)],
        [tl k, tl (tdigit g 7), tl (tdigit g 8)]] cm Tile.X Tile.O = _
    simp only [decodeBy, e0, e1, e2, e3, e4, e5, e7, e8, es]
  · rw [show (3 * 2 + 1 : Nat) = 7 from rfl] at hd ⊢
    have e0 : tdigit (g + k * 3 ^ 7) 0 = tdigit g 0 :=
      dig_upd_other g k 7 0 (by norm_num) (by norm_num) (by norm_num) hd hk2
    have e1 : tdigit (g + k * 3 ^ 7) 1 = tdigit g 1 :=
      dig_upd_other g k 7 1 (by norm_num) (by norm_num) (by norm_num) hd hk2
    have e2 : tdigit (g + k * 3 ^ 7) 2 = tdigit g 2 :=
      dig_upd_other g k 7 2 (by norm_num) (by norm_num) (by norm_num) hd hk2
    have e3 : tdigit (g + k * 3 ^ 7) 3 = tdigit g 3 :=
      dig_upd_other g k 7 3 (by norm_num) (by norm_num) (by norm_num) hd hk2
    have e4 : tdigit (g + k * 3 ^ 7) 4 = tdigit g 4 :=
      dig_upd_other g k 7 4 (by norm_num) (by norm_num) (by norm_num) hd hk2
    have e5 : tdigit (g + k * 3 ^ 7) 5 = tdigit g 5 :=
      dig_upd_other g k 7 5 (by norm_num) (by norm_num) (by norm_num) hd hk2
    have e6 : tdigit (g + k * 3 ^ 7) 6 = tdigit g 6 :=
      dig_upd_other g k 7 6 (by norm_num) (by norm_num) (by norm_num) hd hk2
    have e8 : tdigit (g + k * 3 ^ 7) 8 = tdigit g 8 :=
      dig_upd_other g k 7 8 (by norm_num) (by norm_num) (by norm_num) hd hk2
    have es : tdigit (g + k * 3 ^ 7) 7 = k :=
      dig_upd_self g k 7 (by norm_num) hd hk2
    show Board.mk [[tl (tdigit g 0), tl (tdigit g 1), tl (tdigit g 2)],
        [tl (tdigit g 3), tl (tdigit g 4), tl (tdigit g 5)],
        [tl (tdigit g 6), tl k, tl (tdigit g 8)]] cm Tile.X Tile.O = _
    simp only [decodeBy, e0, e1, e2, e3, e4, e5, e6, e8, es]
  · rw [show (3 * 2 + 2 : Nat) = 8 from rfl] at hd ⊢
    have e0 : tdigit (g + k * 3 ^ 8) 0 = tdigit g 0 :=
      dig_upd_other g k 8 0 (by norm_num) (by norm_num) (by norm_num) hd hk2
    have e1 : tdigit (g + k * 3 ^ 8) 1 = tdigit g 1 :=
      dig_upd_other g k 8 1 (by norm_num) (by norm_num) (by norm_num) hd hk2
    have e2 : tdigit (g + k * 3 ^ 8) 2 = tdigit g 2 :=
      dig_upd_other g k 8 2 (by norm_num) (by norm_num) (by norm_num) hd hk2
    have e3 : tdigit (g + k * 3 ^ 8) 3 = tdigit g 3 :=
      dig_upd_other g k 8 3 (by norm_num) (by norm_num) (by norm_num) hd hk2
    have e4 : tdigit (g + k * 3 ^ 8) 4 = tdigit g 4 :=
      dig_upd_other g k 8 4 (by norm_num) (by norm_num) (by norm_num) hd hk2
    have e5 : tdigit (g + k * 3 ^ 8) 5 = tdigit g 5 :=
      dig_upd_other g k 8 5 (by norm_num) (by norm_num) (by norm_num) hd hk2
    have e6 : tdigit (g + k * 3 ^ 8) 6 = tdigit g 6 :=
      dig_upd_other g k 8 6 (by norm_num) (by norm_num) (by norm_num) hd hk2
    have e7 : tdigit (g + k * 3 ^ 8) 7 = tdigit g 7 :=
      dig_upd_other g k 8 7 (by norm_num) (by norm_num) (by norm_num) hd hk2
    have es : tdigit (g + k * 3 ^ 8) 8 = k :=
      dig_upd_self g k 8 (by norm_num) hd hk2
    show Board.mk [[tl (tdigit g 0), tl (tdigit g 1), tl (tdigit g 2)],
        [tl (tdigit g 3), tl (tdigit g 4), tl (tdigit g 5)],
        [tl (tdigit g 6), tl (tdigit g 7), tl k]] cm Tile.X Tile.O = _
    simp only [decodeBy, e0, e1, e2, e3, e4, e5, e6, e7, es]

/-! ## Bridges between decoded boards and code-level predicates -/

theorem bool_eq_of_iff {a b : Bool} (h : (a = true) ↔ (b = true)) : a = b := by
  cases a <;> cases b <;> simp_all

/-- One line of three cells wins exactly when the three digits agree and
are not 0, for any injective tile decoder. -/
theorem line3_congr (tl : Nat → Tile)
    (hfree : ∀ a, a < 3 → (tl a = Tile.Free ↔ a = 0))
    (hinj : ∀ a, a < 3 → ∀ b, b < 3 → (tl a = tl b ↔ a = b))
    (a b c : Nat) (ha : a < 3) (hb : b < 3) (hc : c < 3) :
    (tl a = tl b ∧ tl b = tl c ∧ tl a ≠ Tile.Free) ↔ (a = b ∧ b = c ∧ ¬ a = 0) := by
  rw [hinj a ha b hb, hinj b hb c hc]
  constructor
  · rintro ⟨h1, h2, h3⟩
    exact ⟨h1, h2, fun h0 => h3 ((hfree a ha).mpr h0)⟩
  · rintro ⟨h1, h2, h3⟩
    exact ⟨h1, h2, fun h0 => h3 ((hfree a ha).mp h0)⟩

/-- lineWon of a decoded board is glineWon of the code. -/
theorem lineWon_decodeBy (tl : Nat → Tile) (g : Nat) (cm : Move)
    (hfree : ∀ a, a < 3 → (tl a = Tile.Free ↔ a = 0))
    (hinj : ∀ a, a < 3 → ∀ b, b < 3 → (tl a = tl b ↔ a = b)) :
    (decodeBy tl g cm).lineWon ↔ glineWon g = true := by
  simp only [glineWon, Bool.or_eq_true, Bool.and_eq_true, beq_iff_eq, bne_iff_ne,
    and_assoc, or_assoc]
  refine or_congr ?_ (or_congr ?_ (or_congr ?_ (or_congr ?_ (or_congr ?_
    (or_congr ?_ (or_congr ?_ ?_))))))
  · exact line3_congr tl hfree hinj _ _ _ (tdigit_lt g 0) (tdigit_lt g 1) (tdigit_lt g 2)
  · exact line3_congr tl hfree hinj _ _ _ (tdigit_lt g 3) (tdigit_lt g 4) (tdigit_lt g 5)
  · exact line3_congr tl hfree hinj _ _ _ (tdigit_lt g 6) (tdigit_lt g 7) (tdigit_lt g 8)
  · exact line3_congr tl hfree hinj _ _ _ (tdigit_lt g 0) (tdigit_lt g 3) (tdigit_lt g 6)
  · exact line3_congr tl hfree hinj _ _ _ (tdigit_lt g 1) (tdigit_lt g 4) (tdigit_lt g 7)
  · exact line3_congr tl hfree hinj _ _ _ (tdigit_lt g 2) (tdigit_lt g 5) (tdigit_lt g 8)
  · exact line3_congr tl hfree hinj _ _ _ (tdigit_lt g 0) (tdigit_lt g 4) (tdigit_lt g 8)
  · exact line3_congr tl hfree hinj _ _ _ (tdigit_lt g 2) (tdigit_lt g 4) (tdigit_lt g 6)

theorem lineWon_decodeC (g : Nat) (cm : Move) :
    (decodeC g cm).lineWon ↔ glineWon g = true :=
  lineWon_decodeBy tileC g cm tileC_free tileC_inj

theorem lineWon_decodeP (g : Nat) (cm : Move) :
    (decodeP g cm).lineWon ↔ glineWon g = true :=
  lineWon_decodeBy tileP g cm tileP_free tileP_inj

/-- A code with some digit 0 satisfies tfreeB. -/
theorem tfreeB_of_digit (g c : Nat) (hc : c < 9) (h : tdigit g c = 0) :
    tfreeB g = true := by
  interval_cases c <;> simp only [tfreeB, Bool.or_eq_true, beq_iff_eq, or_assoc] <;> tauto

/-- tfreeB yields a concrete free digit. -/
theorem digit_of_tfreeB (g : Nat) (h : tfreeB g = true) :
    ∃ c, c < 9 ∧ tdigit g c = 0 := by
  simp only [tfreeB, Bool.or_eq_true, beq_iff_eq, or_assoc] at h
  rcases h with h | h | h | h | h | h | h | h | h
  · exact ⟨0, by norm_num, h⟩
  · exact ⟨1, by norm_num, h⟩
  · exact ⟨2, by norm_num, h⟩
  · exact ⟨3, by norm_num, h⟩
  · exact ⟨4, by norm_num, h⟩
  · exact ⟨5, by norm_num, h⟩
  · exact ⟨6, by norm_num, h⟩
  · exact ⟨7, by norm_num, h⟩
  · exact ⟨8, by norm_num, h⟩

/-- has_free_tiles of a decoded board is tfreeB of the code. -/
theorem has_free_decodeBy (tl : Nat → Tile) (g : Nat) (cm : Move)
    (hfree : ∀ a, a < 3 → (tl a = Tile.Free ↔ a = 0)) :
    (decodeBy tl g cm).has_free_tiles = tfreeB g := by
  apply bool_eq_of_iff
  rw [has_free_exists_cell _ (WF_decodeBy tl g cm)]
  constructor
  · rintro ⟨ij, hmem, hf⟩
    obtain ⟨h1, h2⟩ := (mem_allCells ij).mp hmem
    rw [getTile_decodeBy tl g cm ij.1 ij.2 h1 h2] at hf
    exact tfreeB_of_digit g _ (by omega)
      ((hfree _ (tdigit_lt g _)).mp hf)
  · intro h
    obtain ⟨c, hc, hd⟩ := digit_of_tfreeB g h
    refine ⟨(c / 3, c % 3), (mem_allCells _).mpr ⟨by omega, by omega⟩, ?_⟩
    rw [getTile_decodeBy tl g cm (c / 3) (c % 3) (by omega) (by omega)]
    rw [show 3 * (c / 3) + c % 3 = c from by omega]
    exact (hfree _ (tdigit_lt g c)).mpr hd

theorem has_free_decodeC (g : Nat) (cm : Move) :
    (decodeC g cm).has_free_tiles = tfreeB g :=
  has_free_decodeBy tileC g cm tileC_free

theorem has_free_decodeP (g : Nat) (cm : Move) :
    (decodeP g cm).has_free_tiles = tfreeB g :=
  has_free_decodeBy tileP g cm tileP_free

/-- evaluate on a decoded board, through the phase linkage: a completed
line was made by the previous mover, so it scores +10 for the engine
exactly when the engine is not to move (the minimizing phase). -/
theorem evaluate_decodeC (g : Nat) (m : Bool) :
    (decodeC g (cmLinkC m)).evaluate =
      if glineWon g then (if m then (-10 : Int) else 10) else 0 := by
  cases hl : glineWon g
  · have hnl : ¬ (decodeC g (cmLinkC m)).lineWon := by
      rw [lineWon_decodeC]; simp [hl]
    simp only [Board.evaluate, Board.analyse, if_neg hnl, hl]
    cases hf : (decodeC g (cmLinkC m)).has_free_tiles <;> simp [hf]
  · have hyl : (decodeC g (cmLinkC m)).lineWon := (lineWon_decodeC g _).mpr hl
    simp only [Board.evaluate, Board.analyse, if_pos hyl, hl, if_true]
    cases m <;> rfl

/-- evaluate_player on a decoded board for the mirrored engine. -/
theorem evaluate_player_decodeP (g : Nat) (m : Bool) :
    (decodeP g (cmLinkP m)).evaluate_player =
      if glineWon g then (if m then (-10 : Int) else 10) else 0 := by
  cases hl : glineWon g
  · have hnl : ¬ (decodeP g (cmLinkP m)).lineWon := by
      rw [lineWon_decodeP]; simp [hl]
    simp only [Board.evaluate_player, Board.analyse, if_neg hnl, hl]
    cases hf : (decodeP g (cmLinkP m)).has_free_tiles <;> simp [hf]
  · have hyl : (decodeP g (cmLinkP m)).lineWon := (lineWon_decodeP g _).mpr hl
    simp only [Board.evaluate_player, Board.analyse, if_pos hyl, hl, if_true]
    cases m <;> rfl

/-! ## Kernel verification of the table fixpoint, in chunks -/

-- TABLE CHECK BEGIN
set_option maxRecDepth 10000

theorem chk_c0 : forAllRange entryChk 0 1000 = true := by decide!

theorem chk_c1 : forAllRange entryChk 1000 1000 = true := by decide!

theorem chk_c2 : forAllRange entryChk 2000 1000 = true := by decide!

theorem chk_c3 : forAllRange entryChk 3000 1000 = true := by decide!

theorem chk_c4 : forAllRange entryChk 4000 1000 = true := by decide!

theorem chk_c5 : forAllRange entryChk 5000 1000 = true := by decide!

theorem chk_c6 : forAllRange entryChk 6000 1000 = true := by decide!

theorem chk_c7 : forAllRange entryChk 7000 1000 = true := by decide!

theorem chk_c8 : forAllRange entryChk 8000 1000 = true := by decide!

theorem chk_c9 : forAllRange entryChk 9000 1000 = true := by decide!

theorem chk_c10 : forAllRange entryChk 10000 1000 = true := by decide!

theorem chk_c11 : forAllRange entryChk 11000 1000 = true := by decide!

theorem chk_c12 : forAllRange entryChk 12000 1000 = true := by decide!

theorem chk_c13 : forAllRange entryChk 13000 1000 = true := by decide!

theorem chk_c14 : forAllRange entryChk 14000 1000 = true := by decide!

theorem chk_c15 : forAllRange entryChk 15000 1000 = true := by decide!

theorem chk_c16 : forAllRange entryChk 16000 1000 = true := by decide!

theorem chk_c17 : forAllRange entryChk 17000 1000 = true := by decide!

theorem chk_c18 : forAllRange entryChk 18000 1000 = true := by decide!

theorem chk_c19 : forAllRange entryChk 19000 683 = true := by decide!

/-- Every code passes the local fixpoint check. -/
theorem tableChk : ∀ g, g < 19683 → entryChk g = true := by
  intro g hg
  by_cases h0 : g < 1000
  · exact forAllRange_true entryChk 1000 0 chk_c0 g (by omega) (by omega)
  by_cases h1 : g < 2000
  · exact forAllRange_true entryChk 1000 1000 chk_c1 g (by omega) (by omega)
  by_cases h2 : g < 3000
  · exact forAllRange_true entryChk 1000 2000 chk_c2 g (by omega) (by omega)
  by_cases h3 : g < 4000
  · exact forAllRange_true entryChk 1000 3000 chk_c3 g (by omega) (by omega)
  by_cases h4 : g < 5000
  · exact forAllRange_true entryChk 1000 4000 chk_c4 g (by omega) (by omega)
  by_cases h5 : g < 6000
  · exact forAllRange_true entryChk 1000 5000 chk_c5 g (by omega) (by omega)
  by_cases h6 : g < 7000
  · exact forAllRange_true entryChk 1000 6000 chk_c6 g (by omega) (by omega)
  by_cases h7 : g < 8000
  · exact forAllRange_true entryChk 1000 7000 chk_c7 g (by omega) (by omega)
  by_cases h8 : g < 9000
  · exact forAllRange_true entryChk 1000 8000 chk_c8 g (by omega) (by omega)
  by_cases h9 : g < 10000
  · exact forAllRange_true entryChk 1000 9000 chk_c9 g (by omega) (by omega)
  by_cases h10 : g < 11000
  · exact forAllRange_true entryChk 1000 10000 chk_c10 g (by omega) (by omega)
  by_cases h11 : g < 12000
  · exact forAllRange_true entryChk 1000 11000 chk_c11 g (by omega) (by omega)
  by_cases h12 : g < 13000
  · exact forAllRange_true entryChk 1000 12000 chk_c12 g (by omega) (by omega)
  by_cases h13 : g < 14000
  · exact forAllRange_true entryChk 1000 13000 chk_c13 g (by omega) (by omega)
  by_cases h14 : g < 15000
  · exact forAllRange_true entryChk 1000 14000 chk_c14 g (by omega) (by omega)
  by_cases h15 : g < 16000
  · exact forAllRange_true entryChk 1000 15000 chk_c15 g (by omega) (by omega)
  by_cases h16 : g < 17000
  · exact forAllRange_true entryChk 1000 16000 chk_c16 g (by omega) (by omega)
  by_cases h17 : g < 18000
  · exact forAllRange_true entryChk 1000 17000 chk_c17 g (by omega) (by omega)
  by_cases h18 : g < 19000
  · exact forAllRange_true entryChk 1000 18000 chk_c18 g (by omega) (by omega)
  exact forAllRange_true entryChk 683 19000 chk_c19 g (by omega) (by omega)
-- TABLE CHECK END

/-! ## Reading the verified check back as facts about stored values -/

/-- A winning code stores the exact terminal entries. -/
theorem entry_line_raw (g : Nat) (hg : g < 19683) (hl : glineWon g = true) :
    ivlook g false = 20 ∧ ivlook g true = 0 := by
  have h := tableChk g hg
  unfold entryChk at h
  rw [if_pos hl] at h
  simp only [Bool.and_eq_true, beq_iff_eq] at h
  exact h

/-- A full drawn code stores the draw entries. -/
theorem entry_full_raw (g : Nat) (hg : g < 19683) (hl : glineWon g = false)
    (hf : tfreeB g = false) :
    ivlook g false = 10 ∧ ivlook g true = 10 := by
  have h := tableChk g hg
  unfold entryChk at h
  rw [if_neg (by simp [hl]), if_pos hf] at h
  simp only [Bool.and_eq_true, beq_iff_eq] at h
  exact h

/-- The raw conjunction for a non-terminal code. -/
theorem entry_fold_raw (g : Nat) (hg : g < 19683) (hl : glineWon g = false)
    (hf : tfreeB g = true) :
    ((chkMaxChild g (ivlook g true) 0 && chkMaxChild g (ivlook g true) 1 &&
      chkMaxChild g (ivlook g true) 2 && chkMaxChild g (ivlook g true) 3 &&
      chkMaxChild g (ivlook g true) 4 && chkMaxChild g (ivlook g true) 5 &&
      chkMaxChild g (ivlook g true) 6 && chkMaxChild g (ivlook g true) 7 &&
      chkMaxChild g (ivlook g true) 8) &&
     (chkMaxHit g (ivlook g true) 0 || chkMaxHit g (ivlook g true) 1 ||
      chkMaxHit g (ivlook g true) 2 || chkMaxHit g (ivlook g true) 3 ||
      chkMaxHit g (ivlook g true) 4 || chkMaxHit g (ivlook g true) 5 ||
      chkMaxHit g (ivlook g true) 6 || chkMaxHit g (ivlook g true) 7 ||
      chkMaxHit g (ivlook g true) 8) &&
     (chkMinChild g (ivlook g false) 0 && chkMinChild g (ivlook g false) 1 &&
      chkMinChild g (ivlook g false) 2 && chkMinChild g (ivlook g false) 3 &&
      chkMinChild g (ivlook g false) 4 && chkMinChild g (ivlook g false) 5 &&
      chkMinChild g (ivlook g false) 6 && chkMinChild g (ivlook g false) 7 &&
      chkMinChild g (ivlook g false) 8) &&
     (chkMinHit g (ivlook g false) 0 || chkMinHit g (ivlook g false) 1 ||
      chkMinHit g (ivlook g false) 2 || chkMinHit g (ivlook g false) 3 ||
      chkMinHit g (ivlook g false) 4 || chkMinHit g (ivlook g false) 5 ||
      chkMinHit g (ivlook g false) 6 || chkMinHit g (ivlook g false) 7 ||
      chkMinHit g (ivlook g false) 8) &&
     rangeChk g (ivlook g true) && rangeChk g (ivlook g false)) = true := by
  have h := tableChk g hg
  unfold entryChk at h
  rw [if_neg (by simp [hl]), if_neg (by simp [hf])] at h
  exact h

/-- Each free child bounds the stored maximizing value from below. -/
theorem entry_max_le (g : Nat) (hg : g < 19683) (hl : glineWon g = false)
    (hf : tfreeB g = true) :
    ∀ c, c < 9 → tdigit g c = 0 →
      nshiftOne (ivlook (g + 3 ^ c) false) ≤ ivlook g true := by
  have h := entry_fold_raw g hg hl hf
  simp only [Bool.and_eq_true] at h
  obtain ⟨⟨⟨⟨⟨⟨⟨⟨⟨⟨⟨⟨⟨a0, a1⟩, a2⟩, a3⟩, a4⟩, a5⟩, a6⟩, a7⟩, a8⟩, _⟩, _⟩, _⟩, _⟩, _⟩ := h
  simp only [chkMaxChild, Bool.or_eq_true, bne_iff_ne, decide_eq_true_eq]
    at a0 a1 a2 a3 a4 a5 a6 a7 a8
  intro c hc hd
  interval_cases c
  · rcases a0 with h | h
    · exact absurd hd h
    · exact h
  · rcases a1 with h | h
    · exact absurd hd h
    · exact h
  · rcases a2 with h | h
    · exact absurd hd h
    · exact h
  · rcases a3 with h | h
    · exact absurd hd h
    · exact h
  · rcases a4 with h | h
    · exact absurd hd h
    · exact h
  · rcases a5 with h | h
    · exact absurd hd h
    · exact h
  · rcases a6 with h | h
    · exact absurd hd h
    · exact h
  · rcases a7 with h | h
    · exact absurd hd h
    · exact h
  · rcases a8 with h | h
    · exact absurd hd h
    · exact h

/-- Some free child attains the stored maximizing value. -/
theorem entry_max_ex (g : Nat) (hg : g < 19683) (hl : glineWon g = false)
    (hf : tfreeB g = true) :
    ∃ c, c < 9 ∧ tdigit g c = 0 ∧
      nshiftOne (ivlook (g + 3 ^ c) false) = ivlook g true := by
  have h := entry_fold_raw g hg hl hf
  simp only [Bool.and_eq_true] at h
  obtain ⟨⟨⟨⟨⟨_, hB⟩, _⟩, _⟩, _⟩, _⟩ := h
  simp only [chkMaxHit, Bool.or_eq_true, Bool.and_eq_true, beq_iff_eq, or_assoc] at hB
  rcases hB with h | h | h | h | h | h | h | h | h
  · exact ⟨0, by norm_num, h.1, h.2⟩
  · exact ⟨1, by norm_num, h.1, h.2⟩
  · exact ⟨2, by norm_num, h.1, h.2⟩
  · exact ⟨3, by norm_num, h.1, h.2⟩
  · exact ⟨4, by norm_num, h.1, h.2⟩
  · exact ⟨5, by norm_num, h.1, h.2⟩
  · exact ⟨6, by norm_num, h.1, h.2⟩
  · exact ⟨7, by norm_num, h.1, h.2⟩
  · exact ⟨8, by norm_num, h.1, h.2⟩

/-- Each free child bounds the stored minimizing value from above. -/
theorem entry_min_le (g : Nat) (hg : g < 19683) (hl : glineWon g = false)
    (hf : tfreeB g = true) :
    ∀ c, c < 9 → tdigit g c = 0 →
      ivlook g false ≤ nshiftOne (ivlook (g + 2 * 3 ^ c) true) := by
  have h := entry_fold_raw g hg hl hf
  simp only [Bool.and_eq_true] at h
  obtain ⟨⟨⟨⟨_, ⟨⟨⟨⟨⟨⟨⟨⟨a0, a1⟩, a2⟩, a3⟩, a4⟩, a5⟩, a6⟩, a7⟩, a8⟩⟩, _⟩, _⟩, _⟩ := h
  simp only [chkMinChild, Bool.or_eq_true, bne_iff_ne, decide_eq_true_eq]
    at a0 a1 a2 a3 a4 a5 a6 a7 a8
  intro c hc hd
  interval_cases c
  · rcases a0 with h | h
    · exact absurd hd h
    · exact h
  · rcases a1 with h | h
    · exact absurd hd h
    · exact h
  · rcases a2 with h | h
    · exact absurd hd h
    · exact h
  · rcases a3 with h | h
    · exact absurd hd h
    · exact h
  · rcases a4 with h | h
    · exact absurd hd h
    · exact h
  · rcases a5 with h | h
    · exact absurd hd h
    · exact h
  · rcases a6 with h | h
    · exact absurd hd h
    · exact h
  · rcases a7 with h | h
    · exact absurd hd h
    · exact h
  · rcases a8 with h | h
    · exact absurd hd h
    · exact h

/-- Some free child attains the stored minimizing value. -/
theorem entry_min_ex (g : Nat) (hg : g < 19683) (hl : glineWon g = false)
    (hf : tfreeB g = true) :
    ∃ c, c < 9 ∧ tdigit g c = 0 ∧
      nshiftOne (ivlook (g + 2 * 3 ^ c) true) = ivlook g false := by
  have h := entry_fold_raw g hg hl hf
  simp only [Bool.and_eq_true] at h
  obtain ⟨⟨⟨_, hD⟩, _⟩, _⟩ := h
  simp only [chkMinHit, Bool.or_eq_true, Bool.and_eq_true, beq_iff_eq, or_assoc] at hD
  rcases hD with h | h | h | h | h | h | h | h | h
  · exact ⟨0, by norm_num, h.1, h.2⟩
  · exact ⟨1, by norm_num, h.1, h.2⟩
  · exact ⟨2, by norm_num, h.1, h.2⟩
  · exact ⟨3, by norm_num, h.1, h.2⟩
  · exact ⟨4, by norm_num, h.1, h.2⟩
  · exact ⟨5, by norm_num, h.1, h.2⟩
  · exact ⟨6, by norm_num, h.1, h.2⟩
  · exact ⟨7, by norm_num, h.1, h.2⟩
  · exact ⟨8, by norm_num, h.1, h.2⟩

/-- Range facts for a non-terminal code: each side is the draw entry or
within the free count of the extremes, and at most 20. -/
theorem entry_range_raw (g : Nat) (hg : g < 19683) (hl : glineWon g = false)
    (hf : tfreeB g = true) :
    ((ivlook g true = 10 ∨ 20 - freeCountG g ≤ ivlook g true ∨
        ivlook g true ≤ freeCountG g) ∧ ivlook g true ≤ 20) ∧
    ((ivlook g false = 10 ∨ 20 - freeCountG g ≤ ivlook g false ∨
        ivlook g false ≤ freeCountG g) ∧ ivlook g false ≤ 20) := by
  have h := entry_fold_raw g hg hl hf
  simp only [Bool.and_eq_true] at h
  obtain ⟨⟨_, hR1⟩, hR2⟩ := h
  simp only [rangeChk, Bool.and_eq_true, Bool.or_eq_true, beq_iff_eq,
    decide_eq_true_eq, or_assoc] at hR1 hR2
  exact ⟨hR1, hR2⟩

/-- Every stored entry is at most 20 (so every value is at most 10). -/
theorem elook_le (g : Nat) (m : Bool) (hg : g < 19683) : ivlook g m ≤ 20 := by
  cases hl : glineWon g
  · cases hf : tfreeB g
    · have h := entry_full_raw g hg hl hf
      cases m
      · omega
      · omega
    · have h := entry_range_raw g hg hl hf
      cases m
      · omega
      · omega
  · have h := entry_line_raw g hg hl
    cases m
    · omega
    · omega

/-- Raw depth step versus the integer depth step on decoded values. -/
theorem nshiftOne_cast (e : Nat) (he : e ≤ 20) :
    (nshiftOne e : Int) - 10 = shiftOne ((e : Int) - 10) := by
  unfold nshiftOne shiftOne
  split_ifs <;> omega

/-- Values of winning codes. -/
theorem vl_line (g : Nat) (hg : g < 19683) (hl : glineWon g = true) :
    vlook g false = 10 ∧ vlook g true = -10 := by
  have h := entry_line_raw g hg hl
  unfold vlook
  omega

/-- Values of full drawn codes. -/
theorem vl_full (g : Nat) (hg : g < 19683) (hl : glineWon g = false)
    (hf : tfreeB g = false) :
    vlook g false = 0 ∧ vlook g true = 0 := by
  have h := entry_full_raw g hg hl hf
  unfold vlook
  omega

/-- All stored values lie in [-10, 10]. -/
theorem vl_bounds (g : Nat) (m : Bool) (hg : g < 19683) :
    -10 ≤ vlook g m ∧ vlook g m ≤ 10 := by
  have h := elook_le g m hg
  unfold vlook
  omega

/-- Maximizing-phase upper bound, on decoded values. -/
theorem vl_max_le (g : Nat) (hg : g < 19683) (hl : glineWon g = false)
    (hf : tfreeB g = true) :
    ∀ c, c < 9 → tdigit g c = 0 →
      shiftOne (vlook (g + 3 ^ c) false) ≤ vlook g true := by
  intro c hc hd
  have h := entry_max_le g hg hl hf c hc hd
  have hch : g + 3 ^ c < 19683 := by
    have := code_upd_lt g 1 c hg hc hd (by norm_num)
    omega
  have hcast := nshiftOne_cast (ivlook (g + 3 ^ c) false) (elook_le _ _ hch)
  unfold vlook
  rw [← hcast]
  omega

/-- Maximizing-phase achiever, on decoded values. -/
theorem vl_max_ex (g : Nat) (hg : g < 19683) (hl : glineWon g = false)
    (hf : tfreeB g = true) :
    ∃ c, c < 9 ∧ tdigit g c = 0 ∧
      shiftOne (vlook (g + 3 ^ c) false) = vlook g true := by
  obtain ⟨c, hc, hd, he⟩ := entry_max_ex g hg hl hf
  refine ⟨c, hc, hd, ?_⟩
  have hch : g + 3 ^ c < 19683 := by
    have := code_upd_lt g 1 c hg hc hd (by norm_num)
    omega
  have hcast := nshiftOne_cast (ivlook (g + 3 ^ c) false) (elook_le _ _ hch)
  unfold vlook
  rw [← hcast]
  omega

/-- Minimizing-phase lower bound, on decoded values. -/
theorem vl_min_le (g : Nat) (hg : g < 19683) (hl : glineWon g = false)
    (hf : tfreeB g = true) :
    ∀ c, c < 9 → tdigit g c = 0 →
      vlook g false ≤ shiftOne (vlook (g + 2 * 3 ^ c) true) := by
  intro c hc hd
  have h := entry_min_le g hg hl hf c hc hd
  have hch : g + 2 * 3 ^ c < 19683 := code_upd_lt g 2 c hg hc hd (by norm_num)
  have hcast := nshiftOne_cast (ivlook (g + 2 * 3 ^ c) true) (elook_le _ _ hch)
  unfold vlook
  rw [← hcast]
  omega

/-- Minimizing-phase achiever, on decoded values. -/
theorem vl_min_ex (g : Nat) (hg : g < 19683) (hl : glineWon g = false)
    (hf : tfreeB g = true) :
    ∃ c, c < 9 ∧ tdigit g c = 0 ∧
      shiftOne (vlook (g + 2 * 3 ^ c) true) = vlook g false := by
  obtain ⟨c, hc, hd, he⟩ := entry_min_ex g hg hl hf
  refine ⟨c, hc, hd, ?_⟩
  have hch : g + 2 * 3 ^ c < 19683 := code_upd_lt g 2 c hg hc hd (by norm_num)
  have hcast := nshiftOne_cast (ivlook (g + 2 * 3 ^ c) true) (elook_le _ _ hch)
  unfold vlook
  rw [← hcast]
  omega

/-- Every stored value is 0 or at distance at least 10 - freeCount from 0:
a decided game ends within the remaining free cells. -/
theorem vl_range_all (g : Nat) (m : Bool) (hg : g < 19683) :
    vlook g m = 0 ∨ 10 - (freeCountG g : Int) ≤ vlook g m ∨
      vlook g m ≤ -(10 - (freeCountG g : Int)) := by
  cases hl : glineWon g
  · cases hf : tfreeB g
    · have h := vl_full g hg hl hf
      cases m
      · omega
      · omega
    · have h := entry_range_raw g hg hl hf
      cases m <;> unfold vlook <;> omega
  · have h := vl_line g hg hl
    cases m
    · omega
    · omega

/-! ## Specialized decode bridges and depth-shift algebra -/

theorem getTile_decodeC (g : Nat) (cm : Move) (i j : Nat) (hi : i < 3) (hj : j < 3) :
    (decodeC g cm).getTile i j = tileC (tdigit g (3 * i + j)) :=
  getTile_decodeBy tileC g cm i j hi hj

theorem getTile_decodeP (g : Nat) (cm : Move) (i j : Nat) (hi : i < 3) (hj : j < 3) :
    (decodeP g cm).getTile i j = tileP (tdigit g (3 * i + j)) :=
  getTile_decodeBy tileP g cm i j hi hj

theorem tile_free_decodeC (g : Nat) (cm : Move) (i j : Nat) (hi : i < 3) (hj : j < 3) :
    (decodeC g cm).getTile i j = Tile.Free ↔ tdigit g (3 * i + j) = 0 := by
  rw [getTile_decodeC g cm i j hi hj]
  exact tileC_free _ (tdigit_lt g _)

theorem tile_free_decodeP (g : Nat) (cm : Move) (i j : Nat) (hi : i < 3) (hj : j < 3) :
    (decodeP g cm).getTile i j = Tile.Free ↔ tdigit g (3 * i + j) = 0 := by
  rw [getTile_decodeP g cm i j hi hj]
  exact tileP_free _ (tdigit_lt g _)

theorem setTile_decodeC_X (g : Nat) (cm : Move) (i j : Nat) (hi : i < 3) (hj : j < 3)
    (hd : tdigit g (3 * i + j) = 0) :
    (decodeC g cm).setTile i j Tile.X = decodeC (g + 3 ^ (3 * i + j)) cm := by
  have h := setTile_decodeBy tileC g cm i j 1 hi hj (by norm_num) (by norm_num) hd
  rw [show tileC 1 = Tile.X from rfl, one_mul] at h
  exact h

theorem setTile_decodeC_O (g : Nat) (cm : Move) (i j : Nat) (hi : i < 3) (hj : j < 3)
    (hd : tdigit g (3 * i + j) = 0) :
    (decodeC g cm).setTile i j Tile.O = decodeC (g + 2 * 3 ^ (3 * i + j)) cm := by
  have h := setTile_decodeBy tileC g cm i j 2 hi hj (by norm_num) (by norm_num) hd
  rw [show tileC 2 = Tile.O from rfl] at h
  exact h

theorem setTile_decodeP_O (g : Nat) (cm : Move) (i j : Nat) (hi : i < 3) (hj : j < 3)
    (hd : tdigit g (3 * i + j) = 0) :
    (decodeP g cm).setTile i j Tile.O = decodeP (g + 3 ^ (3 * i + j)) cm := by
  have h := setTile_decodeBy tileP g cm i j 1 hi hj (by norm_num) (by norm_num) hd
  rw [show tileP 1 = Tile.O from rfl, one_mul] at h
  exact h

theorem setTile_decodeP_X (g : Nat) (cm : Move) (i j : Nat) (hi : i < 3) (hj : j < 3)
    (hd : tdigit g (3 * i + j) = 0) :
    (decodeP g cm).setTile i j Tile.X = decodeP (g + 2 * 3 ^ (3 * i + j)) cm := by
  have h := setTile_decodeBy tileP g cm i j 2 hi hj (by norm_num) (by norm_num) hd
  rw [show tileP 2 = Tile.X from rfl] at h
  exact h

theorem change_player_decodeC (g : Nat) (cm : Move) :
    (decodeC g cm).change_player = decodeC g (flipMove cm) :=
  change_player_decodeBy tileC g cm

theorem change_player_decodeP (g : Nat) (cm : Move) :
    (decodeP g cm).change_player = decodeP g (flipMove cm) :=
  change_player_decodeBy tileP g cm

theorem shiftBy_zero (v : Int) : shiftBy 0 v = v := by
  unfold shiftBy
  split_ifs <;> omega

/-- A depth step commutes with the depth adjustment as long as the value
is far enough from 0 (which the range facts of the table guarantee). -/
theorem shiftBy_shiftOne (d v : Int) (hd : 0 ≤ d)
    (hr : v = 0 ∨ d + 2 ≤ v ∨ v ≤ -(d + 2)) :
    shiftBy d (shiftOne v) = shiftBy (d + 1) v := by
  unfold shiftBy shiftOne
  split_ifs <;> omega

theorem shiftOne_range (d v : Int) (hd : 0 ≤ d)
    (hr : v = 0 ∨ d + 2 ≤ v ∨ v ≤ -(d + 2)) :
    shiftOne v = 0 ∨ d + 1 ≤ shiftOne v ∨ shiftOne v ≤ -(d + 1) := by
  unfold shiftOne
  split_ifs <;> omega

/-- The depth adjustment is monotone on values far enough from 0. -/
theorem shiftBy_mono (d a b : Int) (hd : 0 ≤ d)
    (ha : a = 0 ∨ d + 1 ≤ a ∨ a ≤ -(d + 1))
    (hb : b = 0 ∨ d + 1 ≤ b ∨ b ≤ -(d + 1))
    (hab : a ≤ b) : shiftBy d a ≤ shiftBy d b := by
  unfold shiftBy
  split_ifs <;> omega

theorem shiftBy_abs_le (d v : Int) (hd : 0 ≤ d) (hd9 : d ≤ 9)
    (hv : -10 ≤ v ∧ v ≤ 10) : -1000 < shiftBy d v ∧ shiftBy d v < 1000 := by
  unfold shiftBy
  split_ifs <;> omega

/-! ## The master theorem: Board.minimax equals the table on decoded boards -/

/-- Terminal behaviour of the search on a decoded winning position. -/
theorem minimax_decodeC_line (g fuel : Nat) (d : Int) (m : Bool)
    (hg : g < 19683) (hl : glineWon g = true) :
    ((decodeC g (cmLinkC m)).minimax fuel d m).2 = shiftBy d (vlook g m) := by
  obtain ⟨hv0, hv1⟩ := vl_line g hg hl
  have hev := evaluate_decodeC g m
  rw [hl, if_pos rfl] at hev
  cases m
  · rw [if_neg (by simp)] at hev
    cases fuel <;>
    · simp only [Board.minimax, hev]
      rw [if_pos trivial]
      rw [hv0]
      unfold shiftBy
      split_ifs <;> (try dsimp only) <;> (try contradiction) <;> omega
  · rw [if_pos rfl] at hev
    cases fuel <;>
    · simp only [Board.minimax, hev]
      rw [if_pos trivial]
      rw [hv1]
      unfold shiftBy
      split_ifs <;> (try dsimp only) <;> (try contradiction) <;> omega

/-- Terminal behaviour of the search on a decoded full drawn position. -/
theorem minimax_decodeC_full (g fuel : Nat) (d : Int) (m : Bool)
    (hg : g < 19683) (hl : glineWon g = false) (hf : tfreeB g = false) :
    ((decodeC g (cmLinkC m)).minimax fuel d m).2 = shiftBy d (vlook g m) := by
  have hv := vl_full g hg hl hf
  have hev := evaluate_decodeC g m
  rw [hl, if_neg (by simp)] at hev
  have hfree : (decodeC g (cmLinkC m)).has_free_tiles = false := by
    rw [has_free_decodeC]
    exact hf
  cases m
  · cases fuel <;>
    · simp only [Board.minimax, hev, hfree]
      rw [if_pos trivial]
      rw [hv.1]
      unfold shiftBy
      split_ifs <;> (try dsimp only) <;> (try contradiction) <;> omega
  · cases fuel <;>
    · simp only [Board.minimax, hev, hfree]
      rw [if_pos trivial]
      rw [hv.2]
      unfold shiftBy
      split_ifs <;> (try dsimp only) <;> (try contradiction) <;> omega

set_option maxHeartbeats 1600000 in
/-- The search value on a decoded board is the depth-shifted table value:
the primary engine. -/
theorem minimax_table : ∀ (fuel g : Nat) (d : Int) (m : Bool),
    g < 19683 → freeCountG g ≤ fuel → 0 ≤ d → d + (freeCountG g : Int) ≤ 9 →
    ((decodeC g (cmLinkC m)).minimax fuel d m).2 = shiftBy d (vlook g m) := by
  intro fuel
  induction fuel with
  | zero =>
    intro g d m hg hfc hd hsum
    cases hl : glineWon g
    · have hf : tfreeB g = false := by
        rw [tfree_false_iff]
        omega
      exact minimax_decodeC_full g 0 d m hg hl hf
    · exact minimax_decodeC_line g 0 d m hg hl
  | succ fuel ih =>
    intro g d m hg hfc hd hsum
    cases hl : glineWon g
    case true => exact minimax_decodeC_line g (fuel + 1) d m hg hl
    case false =>
    cases hf : tfreeB g
    case false => exact minimax_decodeC_full g (fuel + 1) d m hg hl hf
    case true =>
    have hfc1 : 1 ≤ freeCountG g := (tfree_iff g).mp hf
    have hfc9 : freeCountG g ≤ 9 := fc_le9 g
    have hev := evaluate_decodeC g m
    rw [hl, if_neg (by simp)] at hev
    have hfree : (decodeC g (cmLinkC m)).has_free_tiles = true := by
      rw [has_free_decodeC]
      exact hf
    cases m
    case true =>
      simp only [Board.minimax, hev, hfree]
      rw [if_neg (by norm_num), if_neg (by norm_num), if_neg (by simp), if_pos trivial]
      rw [minimax_max_fold]
      dsimp only
      simp only [Bool.not_true]
      have hstep : ∀ (w : Int) (ij : Nat × Nat), ij ∈ allCells →
          (if (decodeC g (cmLinkC true)).getTile ij.1 ij.2 = Tile.Free then
            imax w
              (((decodeC g (cmLinkC true)).setTile ij.1 ij.2
                  (decodeC g (cmLinkC true)).computer_tile).change_player.minimax
                fuel (d + 1) false).2
          else w) =
          (if (decodeC g (cmLinkC true)).getTile ij.1 ij.2 = Tile.Free then
            imax w (shiftBy d (shiftOne (vlook (g + 3 ^ (3 * ij.1 + ij.2)) false)))
          else w) := by
        intro w ij hmem
        obtain ⟨hi, hj⟩ := (mem_allCells ij).mp hmem
        by_cases hfr : (decodeC g (cmLinkC true)).getTile ij.1 ij.2 = Tile.Free
        · rw [if_pos hfr, if_pos hfr]
          have hdig : tdigit g (3 * ij.1 + ij.2) = 0 :=
            (tile_free_decodeC g _ ij.1 ij.2 hi hj).mp hfr
          have hup : freeCountG (g + 3 ^ (3 * ij.1 + ij.2)) + 1 = freeCountG g := by
            have h2 := fc_upd g 1 (3 * ij.1 + ij.2) (by omega) hdig (by norm_num) (by norm_num)
            rw [one_mul] at h2
            exact h2
          have hg2 : g + 3 ^ (3 * ij.1 + ij.2) < 19683 := by
            have h2 := code_upd_lt g 1 (3 * ij.1 + ij.2) hg (by omega) hdig (by norm_num)
            omega
          rw [show (decodeC g (cmLinkC true)).computer_tile = Tile.X from rfl]
          rw [setTile_decodeC_X g _ ij.1 ij.2 hi hj hdig]
          rw [change_player_decodeC, flip_cmLinkC]
          simp only [Bool.not_true]
          rw [ih (g + 3 ^ (3 * ij.1 + ij.2)) (d + 1) false hg2 (by omega) (by omega)
            (by push_cast; push_cast at hsum; omega)]
          have hrange : vlook (g + 3 ^ (3 * ij.1 + ij.2)) false = 0 ∨
              d + 2 ≤ vlook (g + 3 ^ (3 * ij.1 + ij.2)) false ∨
              vlook (g + 3 ^ (3 * ij.1 + ij.2)) false ≤ -(d + 2) := by
            rcases vl_range_all (g + 3 ^ (3 * ij.1 + ij.2)) false hg2 with h | h | h <;>
              push_cast at h hsum ⊢ <;> omega
          rw [shiftBy_shiftOne d _ hd hrange]
        · rw [if_neg hfr, if_neg hfr]
      rw [foldl_congr_on _ _ allCells hstep (-1000)]
      obtain ⟨cs, hcs9, hcsd, hcse⟩ := vl_max_ex g hg hl hf
      have hmem_s : ((cs / 3 : Nat), (cs % 3 : Nat)) ∈ allCells :=
        (mem_allCells _).mpr ⟨by omega, by omega⟩
      have hcc : 3 * (cs / 3) + cs % 3 = cs := by omega
      have hguard_s : (decodeC g (cmLinkC true)).getTile (cs / 3) (cs % 3) = Tile.Free := by
        rw [tile_free_decodeC g _ _ _ (by omega) (by omega), hcc]
        exact hcsd
      have hVr : vlook g true = 0 ∨ d + 1 ≤ vlook g true ∨ vlook g true ≤ -(d + 1) := by
        rcases vl_range_all g true hg with h | h | h <;> push_cast at h hsum ⊢ <;> omega
      apply le_antisymm
      · rcases foldl_imax_mem (fun ij => (decodeC g (cmLinkC true)).getTile ij.1 ij.2 = Tile.Free)
            (fun ij => shiftBy d (shiftOne (vlook (g + 3 ^ (3 * ij.1 + ij.2)) false)))
            allCells (-1000) with hcase | ⟨y, hy, hgy, hval⟩
        · rw [hcase]
          have hb := shiftBy_abs_le d (vlook g true) hd (by push_cast at hsum; omega)
            (vl_bounds g true hg)
          omega
        · rw [hval]
          obtain ⟨hyi, hyj⟩ := (mem_allCells y).mp hy
          have hdy : tdigit g (3 * y.1 + y.2) = 0 :=
            (tile_free_decodeC g _ y.1 y.2 hyi hyj).mp hgy
          have hupy : freeCountG (g + 3 ^ (3 * y.1 + y.2)) + 1 = freeCountG g := by
            have h2 := fc_upd g 1 (3 * y.1 + y.2) (by omega) hdy (by norm_num) (by norm_num)
            rw [one_mul] at h2
            exact h2
          have hgy2 : g + 3 ^ (3 * y.1 + y.2) < 19683 := by
            have h2 := code_upd_lt g 1 (3 * y.1 + y.2) hg (by omega) hdy (by norm_num)
            omega
          have hrangey : vlook (g + 3 ^ (3 * y.1 + y.2)) false = 0 ∨
              d + 2 ≤ vlook (g + 3 ^ (3 * y.1 + y.2)) false ∨
              vlook (g + 3 ^ (3 * y.1 + y.2)) false ≤ -(d + 2) := by
            rcases vl_range_all (g + 3 ^ (3 * y.1 + y.2)) false hgy2 with h | h | h <;>
              push_cast at h hsum ⊢ <;> omega
          exact shiftBy_mono d _ _ hd (shiftOne_range d _ hd hrangey) hVr
            (vl_max_le g hg hl hf (3 * y.1 + y.2) (by omega) hdy)
      · have hfs : shiftBy d (vlook g true) =
            shiftBy d (shiftOne (vlook (g + 3 ^ (3 * (cs / 3) + cs % 3)) false)) := by
          rw [hcc, hcse]
        rw [hfs]
        exact foldl_imax_ge_elem
          (fun ij => (decodeC g (cmLinkC true)).getTile ij.1 ij.2 = Tile.Free)
          (fun ij => shiftBy d (shiftOne (vlook (g + 3 ^ (3 * ij.1 + ij.2)) false)))
          allCells (-1000) ((cs / 3, cs % 3)) hmem_s hguard_s
    case false =>
      simp only [Board.minimax, hev, hfree]
      rw [if_neg (by norm_num), if_neg (by norm_num), if_neg (by simp), if_neg (by simp)]
      rw [minimax_min_fold]
      dsimp only
      simp only [Bool.not_false]
      have hstep : ∀ (w : Int) (ij : Nat × Nat), ij ∈ allCells →
          (if (decodeC g (cmLinkC false)).getTile ij.1 ij.2 = Tile.Free then
            imin w
              (((decodeC g (cmLinkC false)).setTile ij.1 ij.2
                  (decodeC g (cmLinkC false)).player_tile).change_player.minimax
                fuel (d + 1) true).2
          else w) =
          (if (decodeC g (cmLinkC false)).getTile ij.1 ij.2 = Tile.Free then
            imin w (shiftBy d (shiftOne (vlook (g + 2 * 3 ^ (3 * ij.1 + ij.2)) true)))
          else w) := by
        intro w ij hmem
        obtain ⟨hi, hj⟩ := (mem_allCells ij).mp hmem
        by_cases hfr : (decodeC g (cmLinkC false)).getTile ij.1 ij.2 = Tile.Free
        · rw [if_pos hfr, if_pos hfr]
          have hdig : tdigit g (3 * ij.1 + ij.2) = 0 :=
            (tile_free_decodeC g _ ij.1 ij.2 hi hj).mp hfr
          have hup : freeCountG (g + 2 * 3 ^ (3 * ij.1 + ij.2)) + 1 = freeCountG g :=
            fc_upd g 2 (3 * ij.1 + ij.2) (by omega) hdig (by norm_num) (by norm_num)
          have hg2 : g + 2 * 3 ^ (3 * ij.1 + ij.2) < 19683 :=
            code_upd_lt g 2 (3 * ij.1 + ij.2) hg (by omega) hdig (by norm_num)
          rw [show (decodeC g (cmLinkC false)).player_tile = Tile.O from rfl]
          rw [setTile_decodeC_O g _ ij.1 ij.2 hi hj hdig]
          rw [change_player_decodeC, flip_cmLinkC]
          simp only [Bool.not_false]
          rw [ih (g + 2 * 3 ^ (3 * ij.1 + ij.2)) (d + 1) true hg2 (by omega) (by omega)
            (by push_cast; push_cast at hsum; omega)]
          have hrange : vlook (g + 2 * 3 ^ (3 * ij.1 + ij.2)) true = 0 ∨
              d + 2 ≤ vlook (g + 2 * 3 ^ (3 * ij.1 + ij.2)) true ∨
              vlook (g + 2 * 3 ^ (3 * ij.1 + ij.2)) true ≤ -(d + 2) := by
            rcases vl_range_all (g + 2 * 3 ^ (3 * ij.1 + ij.2)) true hg2 with h | h | h <;>
              push_cast at h hsum ⊢ <;> omega
          rw [shiftBy_shiftOne d _ hd hrange]
        · rw [if_neg hfr, if_neg hfr]
      rw [foldl_congr_on _ _ allCells hstep 1000]
      obtain ⟨cs, hcs9, hcsd, hcse⟩ := vl_min_ex g hg hl hf
      have hmem_s : ((cs / 3 : Nat), (cs % 3 : Nat)) ∈ allCells :=
        (mem_allCells _).mpr ⟨by omega, by omega⟩
      have hcc : 3 * (cs / 3) + cs % 3 = cs := by omega
      have hguard_s : (decodeC g (cmLinkC false)).getTile (cs / 3) (cs % 3) = Tile.Free := by
        rw [tile_free_decodeC g _ _ _ (by omega) (by omega), hcc]
        exact hcsd
      have hVr : vlook g false = 0 ∨ d + 1 ≤ vlook g false ∨ vlook g false ≤ -(d + 1) := by
        rcases vl_range_all g false hg with h | h | h <;> push_cast at h hsum ⊢ <;> omega
      apply le_antisymm
      · have hfs : shiftBy d (vlook g false) =
            shiftBy d (shiftOne (vlook (g + 2 * 3 ^ (3 * (cs / 3) + cs % 3)) true)) := by
          rw [hcc, hcse]
        rw [hfs]
        exact foldl_imin_le_elem
          (fun ij => (decodeC g (cmLinkC false)).getTile ij.1 ij.2 = Tile.Free)
          (fun ij => shiftBy d (shiftOne (vlook (g + 2 * 3 ^ (3 * ij.1 + ij.2)) true)))
          allCells 1000 ((cs / 3, cs % 3)) hmem_s hguard_s
      · rcases foldl_imin_mem (fun ij => (decodeC g (cmLinkC false)).getTile ij.1 ij.2 = Tile.Free)
            (fun ij => shiftBy d (shiftOne (vlook (g + 2 * 3 ^ (3 * ij.1 + ij.2)) true)))
            allCells 1000 with hcase | ⟨y, hy, hgy, hval⟩
        · rw [hcase]
          have hb := shiftBy_abs_le d (vlook g false) hd (by push_cast at hsum; omega)
            (vl_bounds g false hg)
          omega
        · rw [hval]
          obtain ⟨hyi, hyj⟩ := (mem_allCells y).mp hy
          have hdy : tdigit g (3 * y.1 + y.2) = 0 :=
            (tile_free_decodeC g _ y.1 y.2 hyi hyj).mp hgy
          have hupy : freeCountG (g + 2 * 3 ^ (3 * y.1 + y.2)) + 1 = freeCountG g :=
            fc_upd g 2 (3 * y.1 + y.2) (by omega) hdy (by norm_num) (by norm_num)
          have hgy2 : g + 2 * 3 ^ (3 * y.1 + y.2) < 19683 :=
            code_upd_lt g 2 (3 * y.1 + y.2) hg (by omega) hdy (by norm_num)
          have hrangey : vlook (g + 2 * 3 ^ (3 * y.1 + y.2)) true = 0 ∨
              d + 2 ≤ vlook (g + 2 * 3 ^ (3 * y.1 + y.2)) true ∨
              vlook (g + 2 * 3 ^ (3 * y.1 + y.2)) true ≤ -(d + 2) := by
            rcases vl_range_all (g + 2 * 3 ^ (3 * y.1 + y.2)) true hgy2 with h | h | h <;>
              push_cast at h hsum ⊢ <;> omega
          exact shiftBy_mono d _ _ hd hVr (shiftOne_range d _ hd hrangey)
            (vl_min_le g hg hl hf (3 * y.1 + y.2) (by omega) hdy)

/-! ## The master theorem for the mirrored engine -/

/-- Terminal behaviour of the search on a decoded winning position. -/
theorem minimax_decodeP_line (g fuel : Nat) (d : Int) (m : Bool)
    (hg : g < 19683) (hl : glineWon g = true) :
    ((decodeP g (cmLinkP m)).minimax_player fuel d m).2 = shiftBy d (vlook g m) := by
  obtain ⟨hv0, hv1⟩ := vl_line g hg hl
  have hev := evaluate_player_decodeP g m
  rw [hl, if_pos rfl] at hev
  cases m
  · rw [if_neg (by simp)] at hev
    cases fuel <;>
    · simp only [Board.minimax_player, hev]
      rw [if_pos trivial]
      rw [hv0]
      unfold shiftBy
      split_ifs <;> (try dsimp only) <;> (try contradiction) <;> omega
  · rw [if_pos rfl] at hev
    cases fuel <;>
    · simp only [Board.minimax_player, hev]
      rw [if_pos trivial]
      rw [hv1]
      unfold shiftBy
      split_ifs <;> (try dsimp only) <;> (try contradiction) <;> omega

/-- Terminal behaviour of the search on a decoded full drawn position. -/
theorem minimax_decodeP_full (g fuel : Nat) (d : Int) (m : Bool)
    (hg : g < 19683) (hl : glineWon g = false) (hf : tfreeB g = false) :
    ((decodeP g (cmLinkP m)).minimax_player fuel d m).2 = shiftBy d (vlook g m) := by
  have hv := vl_full g hg hl hf
  have hev := evaluate_player_decodeP g m
  rw [hl, if_neg (by simp)] at hev
  have hfree : (decodeP g (cmLinkP m)).has_free_tiles = false := by
    rw [has_free_decodeP]
    exact hf
  cases m
  · cases fuel <;>
    · simp only [Board.minimax_player, hev, hfree]
      rw [if_pos trivial]
      rw [hv.1]
      unfold shiftBy
      split_ifs <;> (try dsimp only) <;> (try contradiction) <;> omega
  · cases fuel <;>
    · simp only [Board.minimax_player, hev, hfree]
      rw [if_pos trivial]
      rw [hv.2]
      unfold shiftBy
      split_ifs <;> (try dsimp only) <;> (try contradiction) <;> omega

set_option maxHeartbeats 1600000 in
/-- The search value on a decoded board is the depth-shifted table value:
the primary engine. -/
theorem minimax_tableP : ∀ (fuel g : Nat) (d : Int) (m : Bool),
    g < 19683 → freeCountG g ≤ fuel → 0 ≤ d → d + (freeCountG g : Int) ≤ 9 →
    ((decodeP g (cmLinkP m)).minimax_player fuel d m).2 = shiftBy d (vlook g m) := by
  intro fuel
  induction fuel with
  | zero =>
    intro g d m hg hfc hd hsum
    cases hl : glineWon g
    · have hf : tfreeB g = false := by
        rw [tfree_false_iff]
        omega
      exact minimax_decodeP_full g 0 d m hg hl hf
    · exact minimax_decodeP_line g 0 d m hg hl
  | succ fuel ih =>
    intro g d m hg hfc hd hsum
    cases hl : glineWon g
    case true => exact minimax_decodeP_line g (fuel + 1) d m hg hl
    case false =>
    cases hf : tfreeB g
    case false => exact minimax_decodeP_full g (fuel + 1) d m hg hl hf
    case true =>
    have hfc1 : 1 ≤ freeCountG g := (tfree_iff g).mp hf
    have hfc9 : freeCountG g ≤ 9 := fc_le9 g
    have hev := evaluate_player_decodeP g m
    rw [hl, if_neg (by simp)] at hev
    have hfree : (decodeP g (cmLinkP m)).has_free_tiles = true := by
      rw [has_free_decodeP]
      exact hf
    cases m
    case true =>
      simp only [Board.minimax_player, hev, hfree]
      rw [if_neg (by norm_num), if_neg (by norm_num), if_neg (by simp), if_pos trivial]
      rw [minimax_player_max_fold]
      dsimp only
      simp only [Bool.not_true]
      have hstep : ∀ (w : Int) (ij : Nat × Nat), ij ∈ allCells →
          (if (decodeP g (cmLinkP true)).getTile ij.1 ij.2 = Tile.Free then
            imax w
              (((decodeP g (cmLinkP true)).setTile ij.1 ij.2
                  (decodeP g (cmLinkP true)).player_tile).change_player.minimax_player
                fuel (d + 1) false).2
          else w) =
          (if (decodeP g (cmLinkP true)).getTile ij.1 ij.2 = Tile.Free then
            imax w (shiftBy d (shiftOne (vlook (g + 3 ^ (3 * ij.1 + ij.2)) false)))
          else w) := by
        intro w ij hmem
        obtain ⟨hi, hj⟩ := (mem_allCells ij).mp hmem
        by_cases hfr : (decodeP g (cmLinkP true)).getTile ij.1 ij.2 = Tile.Free
        · rw [if_pos hfr, if_pos hfr]
          have hdig : tdigit g (3 * ij.1 + ij.2) = 0 :=
            (tile_free_decodeP g _ ij.1 ij.2 hi hj).mp hfr
          have hup : freeCountG (g + 3 ^ (3 * ij.1 + ij.2)) + 1 = freeCountG g := by
            have h2 := fc_upd g 1 (3 * ij.1 + ij.2) (by omega) hdig (by norm_num) (by norm_num)
            rw [one_mul] at h2
            exact h2
          have hg2 : g + 3 ^ (3 * ij.1 + ij.2) < 19683 := by
            have h2 := code_upd_lt g 1 (3 * ij.1 + ij.2) hg (by omega) hdig (by norm_num)
            omega
          rw [show (decodeP g (cmLinkP true)).player_tile = Tile.O from rfl]
          rw [setTile_decodeP_O g _ ij.1 ij.2 hi hj hdig]
          rw [change_player_decodeP, flip_cmLinkP]
          simp only [Bool.not_true]
          rw [ih (g + 3 ^ (3 * ij.1 + ij.2)) (d + 1) false hg2 (by omega) (by omega)
            (by push_cast; push_cast at hsum; omega)]
          have hrange : vlook (g + 3 ^ (3 * ij.1 + ij.2)) false = 0 ∨
              d + 2 ≤ vlook (g + 3 ^ (3 * ij.1 + ij.2)) false ∨
              vlook (g + 3 ^ (3 * ij.1 + ij.2)) false ≤ -(d + 2) := by
            rcases vl_range_all (g + 3 ^ (3 * ij.1 + ij.2)) false hg2 with h | h | h <;>
              push_cast at h hsum ⊢ <;> omega
          rw [shiftBy_shiftOne d _ hd hrange]
        · rw [if_neg hfr, if_neg hfr]
      rw [foldl_congr_on _ _ allCells hstep (-1000)]
      obtain ⟨cs, hcs9, hcsd, hcse⟩ := vl_max_ex g hg hl hf
      have hmem_s : ((cs / 3 : Nat), (cs % 3 : Nat)) ∈ allCells :=
        (mem_allCells _).mpr ⟨by omega, by omega⟩
      have hcc : 3 * (cs / 3) + cs % 3 = cs := by omega
      have hguard_s : (decodeP g (cmLinkP true)).getTile (cs / 3) (cs % 3) = Tile.Free := by
        rw [tile_free_decodeP g _ _ _ (by omega) (by omega), hcc]
        exact hcsd
      have hVr : vlook g true = 0 ∨ d + 1 ≤ vlook g true ∨ vlook g true ≤ -(d + 1) := by
        rcases vl_range_all g true hg with h | h | h <;> push_cast at h hsum ⊢ <;> omega
      apply le_antisymm
      · rcases foldl_imax_mem (fun ij => (decodeP g (cmLinkP true)).getTile ij.1 ij.2 = Tile.Free)
            (fun ij => shiftBy d (shiftOne (vlook (g + 3 ^ (3 * ij.1 + ij.2)) false)))
            allCells (-1000) with hcase | ⟨y, hy, hgy, hval⟩
        · rw [hcase]
          have hb := shiftBy_abs_le d (vlook g true) hd (by push_cast at hsum; omega)
            (vl_bounds g true hg)
          omega
        · rw [hval]
          obtain ⟨hyi, hyj⟩ := (mem_allCells y).mp hy
          have hdy : tdigit g (3 * y.1 + y.2) = 0 :=
            (tile_free_decodeP g _ y.1 y.2 hyi hyj).mp hgy
          have hupy : freeCountG (g + 3 ^ (3 * y.1 + y.2)) + 1 = freeCountG g := by
            have h2 := fc_upd g 1 (3 * y.1 + y.2) (by omega) hdy (by norm_num) (by norm_num)
            rw [one_mul] at h2
            exact h2
          have hgy2 : g + 3 ^ (3 * y.1 + y.2) < 19683 := by
            have h2 := code_upd_lt g 1 (3 * y.1 + y.2) hg (by omega) hdy (by norm_num)
            omega
          have hrangey : vlook (g + 3 ^ (3 * y.1 + y.2)) false = 0 ∨
              d + 2 ≤ vlook (g + 3 ^ (3 * y.1 + y.2)) false ∨
              vlook (g + 3 ^ (3 * y.1 + y.2)) false ≤ -(d + 2) := by
            rcases vl_range_all (g + 3 ^ (3 * y.1 + y.2)) false hgy2 with h | h | h <;>
              push_cast at h hsum ⊢ <;> omega
          exact shiftBy_mono d _ _ hd (shiftOne_range d _ hd hrangey) hVr
            (vl_max_le g hg hl hf (3 * y.1 + y.2) (by omega) hdy)
      · have hfs : shiftBy d (vlook g true) =
            shiftBy d (shiftOne (vlook (g + 3 ^ (3 * (cs / 3) + cs % 3)) false)) := by
          rw [hcc, hcse]
        rw [hfs]
        exact foldl_imax_ge_elem
          (fun ij => (decodeP g (cmLinkP true)).getTile ij.1 ij.2 = Tile.Free)
          (fun ij => shiftBy d (shiftOne (vlook (g + 3 ^ (3 * ij.1 + ij.2)) false)))
          allCells (-1000) ((cs / 3, cs % 3)) hmem_s hguard_s
    case false =>
      simp only [Board.minimax_player, hev, hfree]
      rw [if_neg (by norm_num), if_neg (by norm_num), if_neg (by simp), if_neg (by simp)]
      rw [minimax_player_min_fold]
      dsimp only
      simp only [Bool.not_false]
      have hstep : ∀ (w : Int) (ij : Nat × Nat), ij ∈ allCells →
          (if (decodeP g (cmLinkP false)).getTile ij.1 ij.2 = Tile.Free then
            imin w
              (((decodeP g (cmLinkP false)).setTile ij.1 ij.2
                  (decodeP g (cmLinkP false)).computer_tile).change_player.minimax_player
                fuel (d + 1) true).2
          else w) =
          (if (decodeP g (cmLinkP false)).getTile ij.1 ij.2 = Tile.Free then
            imin w (shiftBy d (shiftOne (vlook (g + 2 * 3 ^ (3 * ij.1 + ij.2)) true)))
          else w) := by
        intro w ij hmem
        obtain ⟨hi, hj⟩ := (mem_allCells ij).mp hmem
        by_cases hfr : (decodeP g (cmLinkP false)).getTile ij.1 ij.2 = Tile.Free
        · rw [if_pos hfr, if_pos hfr]
          have hdig : tdigit g (3 * ij.1 + ij.2) = 0 :=
            (tile_free_decodeP g _ ij.1 ij.2 hi hj).mp hfr
          have hup : freeCountG (g + 2 * 3 ^ (3 * ij.1 + ij.2)) + 1 = freeCountG g :=
            fc_upd g 2 (3 * ij.1 + ij.2) (by omega) hdig (by norm_num) (by norm_num)
          have hg2 : g + 2 * 3 ^ (3 * ij.1 + ij.2) < 19683 :=
            code_upd_lt g 2 (3 * ij.1 + ij.2) hg (by omega) hdig (by norm_num)
          rw [show (decodeP g (cmLinkP false)).computer_tile = Tile.X from rfl]
          rw [setTile_decodeP_X g _ ij.1 ij.2 hi hj hdig]
          rw [change_player_decodeP, flip_cmLinkP]
          simp only [Bool.not_false]
          rw [ih (g + 2 * 3 ^ (3 * ij.1 + ij.2)) (d + 1) true hg2 (by omega) (by omega)
            (by push_cast; push_cast at hsum; omega)]
          have hrange : vlook (g + 2 * 3 ^ (3 * ij.1 + ij.2)) true = 0 ∨
              d + 2 ≤ vlook (g + 2 * 3 ^ (3 * ij.1 + ij.2)) true ∨
              vlook (g + 2 * 3 ^ (3 * ij.1 + ij.2)) true ≤ -(d + 2) := by
            rcases vl_range_all (g + 2 * 3 ^ (3 * ij.1 + ij.2)) true hg2 with h | h | h <;>
              push_cast at h hsum ⊢ <;> omega
          rw [shiftBy_shiftOne d _ hd hrange]
        · rw [if_neg hfr, if_neg hfr]
      rw [foldl_congr_on _ _ allCells hstep 1000]
      obtain ⟨cs, hcs9, hcsd, hcse⟩ := vl_min_ex g hg hl hf
      have hmem_s : ((cs / 3 : Nat), (cs % 3 : Nat)) ∈ allCells :=
        (mem_allCells _).mpr ⟨by omega, by omega⟩
      have hcc : 3 * (cs / 3) + cs % 3 = cs := by omega
      have hguard_s : (decodeP g (cmLinkP false)).getTile (cs / 3) (cs % 3) = Tile.Free := by
        rw [tile_free_decodeP g _ _ _ (by omega) (by omega), hcc]
        exact hcsd
      have hVr : vlook g false = 0 ∨ d + 1 ≤ vlook g false ∨ vlook g false ≤ -(d + 1) := by
        rcases vl_range_all g false hg with h | h | h <;> push_cast at h hsum ⊢ <;> omega
      apply le_antisymm
      · have hfs : shiftBy d (vlook g false) =
            shiftBy d (shiftOne (vlook (g + 2 * 3 ^ (3 * (cs / 3) + cs % 3)) true)) := by
          rw [hcc, hcse]
        rw [hfs]
        exact foldl_imin_le_elem
          (fun ij => (decodeP g (cmLinkP false)).getTile ij.1 ij.2 = Tile.Free)
          (fun ij => shiftBy d (shiftOne (vlook (g + 2 * 3 ^ (3 * ij.1 + ij.2)) true)))
          allCells 1000 ((cs / 3, cs % 3)) hmem_s hguard_s
      · rcases foldl_imin_mem (fun ij => (decodeP g (cmLinkP false)).getTile ij.1 ij.2 = Tile.Free)
            (fun ij => shiftBy d (shiftOne (vlook (g + 2 * 3 ^ (3 * ij.1 + ij.2)) true)))
            allCells 1000 with hcase | ⟨y, hy, hgy, hval⟩
        · rw [hcase]
          have hb := shiftBy_abs_le d (vlook g false) hd (by push_cast at hsum; omega)
            (vl_bounds g false hg)
          omega
        · rw [hval]
          obtain ⟨hyi, hyj⟩ := (mem_allCells y).mp hy
          have hdy : tdigit g (3 * y.1 + y.2) = 0 :=
            (tile_free_decodeP g _ y.1 y.2 hyi hyj).mp hgy
          have hupy : freeCountG (g + 2 * 3 ^ (3 * y.1 + y.2)) + 1 = freeCountG g :=
            fc_upd g 2 (3 * y.1 + y.2) (by omega) hdy (by norm_num) (by norm_num)
          have hgy2 : g + 2 * 3 ^ (3 * y.1 + y.2) < 19683 :=
            code_upd_lt g 2 (3 * y.1 + y.2) hg (by omega) hdy (by norm_num)
          have hrangey : vlook (g + 2 * 3 ^ (3 * y.1 + y.2)) true = 0 ∨
              d + 2 ≤ vlook (g + 2 * 3 ^ (3 * y.1 + y.2)) true ∨
              vlook (g + 2 * 3 ^ (3 * y.1 + y.2)) true ≤ -(d + 2) := by
            rcases vl_range_all (g + 2 * 3 ^ (3 * y.1 + y.2)) true hgy2 with h | h | h <;>
              push_cast at h hsum ⊢ <;> omega
          exact shiftBy_mono d _ _ hd hVr (shiftOne_range d _ hd hrangey)
            (vl_min_le g hg hl hf (3 * y.1 + y.2) (by omega) hdy)

/-! ## Fast replay of the engines through the table -/

/-- The selection loop of the engines computed on board codes: the same
strict-improvement fold over the nine cells, scoring each free cell by
the stored value of the child position. -/
def fastSel (g : Nat) : Nat × Nat :=
  (allCells.foldl
    (fun p ij =>
      if tdigit g (3 * ij.1 + ij.2) = 0 then
        if vlook (g + 3 ^ (3 * ij.1 + ij.2)) false > p.1 then
          (vlook (g + 3 ^ (3 * ij.1 + ij.2)) false, ij)
        else p
      else p)
    (-1000, (0, 0))).2

/-- The cell-scoring function of computer_move equals the stored child
value on decoded boards. -/
theorem mmScore_decodeC (g : Nat) (hg : g < 19683) (ij : Nat × Nat)
    (hi : ij.1 < 3) (hj : ij.2 < 3) (hd : tdigit g (3 * ij.1 + ij.2) = 0) :
    mmScore (decodeC g Move.Computer) ij = vlook (g + 3 ^ (3 * ij.1 + ij.2)) false := by
  have hg2 : g + 3 ^ (3 * ij.1 + ij.2) < 19683 := by
    have h2 := code_upd_lt g 1 (3 * ij.1 + ij.2) hg (by omega) hd (by norm_num)
    omega
  unfold mmScore
  rw [show (decodeC g Move.Computer).computer_tile = Tile.X from rfl]
  rw [show (Move.Computer : Move) = cmLinkC false from rfl]
  rw [setTile_decodeC_X g (cmLinkC false) ij.1 ij.2 hi hj hd]
  rw [minimax_table 9 (g + 3 ^ (3 * ij.1 + ij.2)) 0 false hg2 (fc_le9 _) (le_refl 0)
    (by have := fc_le9 (g + 3 ^ (3 * ij.1 + ij.2)); omega)]
  rw [shiftBy_zero]

/-- The cell-scoring function of computer_player_move equals the stored
child value on decoded boards. -/
theorem mmScoreP_decodeP (g : Nat) (hg : g < 19683) (ij : Nat × Nat)
    (hi : ij.1 < 3) (hj : ij.2 < 3) (hd : tdigit g (3 * ij.1 + ij.2) = 0) :
    mmScoreP (decodeP g Move.Player) ij = vlook (g + 3 ^ (3 * ij.1 + ij.2)) false := by
  have hg2 : g + 3 ^ (3 * ij.1 + ij.2) < 19683 := by
    have h2 := code_upd_lt g 1 (3 * ij.1 + ij.2) hg (by omega) hd (by norm_num)
    omega
  unfold mmScoreP
  rw [show (decodeP g Move.Player).player_tile = Tile.O from rfl]
  rw [show (Move.Player : Move) = cmLinkP false from rfl]
  rw [setTile_decodeP_O g (cmLinkP false) ij.1 ij.2 hi hj hd]
  rw [minimax_tableP 9 (g + 3 ^ (3 * ij.1 + ij.2)) 0 false hg2 (fc_le9 _) (le_refl 0)
    (by have := fc_le9 (g + 3 ^ (3 * ij.1 + ij.2)); omega)]
  rw [shiftBy_zero]

/-- computer_move on a decoded board places X on the cell fastSel picks,
and that cell is free. -/
theorem computer_move_fast (g : Nat) (hg : g < 19683) (hfr : tfreeB g = true) :
    (fastSel g).1 < 3 ∧ (fastSel g).2 < 3 ∧
    tdigit g (3 * (fastSel g).1 + (fastSel g).2) = 0 ∧
    (decodeC g Move.Computer).computer_move =
      some ((decodeC g Move.Computer).setTile (fastSel g).1 (fastSel g).2 Tile.X) := by
  have hfree : (decodeC g Move.Computer).has_free_tiles = true := by
    rw [has_free_decodeC]
    exact hfr
  have hne : ¬ (decodeC g Move.Computer).has_free_tiles = false := by
    rw [hfree]
    simp
  have hcongr : ∀ (p : Int × (Nat × Nat)) (ij : Nat × Nat), ij ∈ allCells →
      (if (decodeC g Move.Computer).getTile ij.1 ij.2 = Tile.Free then
        if mmScore (decodeC g Move.Computer) ij > p.1 then
          (mmScore (decodeC g Move.Computer) ij, ij)
        else p
      else p) =
      (if tdigit g (3 * ij.1 + ij.2) = 0 then
        if vlook (g + 3 ^ (3 * ij.1 + ij.2)) false > p.1 then
          (vlook (g + 3 ^ (3 * ij.1 + ij.2)) false, ij)
        else p
      else p) := by
    intro p ij hmem
    obtain ⟨hi, hj⟩ := (mem_allCells ij).mp hmem
    by_cases hd : tdigit g (3 * ij.1 + ij.2) = 0
    · rw [if_pos ((tile_free_decodeC g Move.Computer ij.1 ij.2 hi hj).mpr hd), if_pos hd]
      rw [mmScore_decodeC g hg ij hi hj hd]
    · rw [if_neg (fun hc => hd ((tile_free_decodeC g Move.Computer ij.1 ij.2 hi hj).mp hc)),
        if_neg hd]
  have hstep : (decodeC g Move.Computer).best_search =
      (decodeC g Move.Computer,
        allCells.foldl
          (fun p ij =>
            if tdigit g (3 * ij.1 + ij.2) = 0 then
              if vlook (g + 3 ^ (3 * ij.1 + ij.2)) false > p.1 then
                (vlook (g + 3 ^ (3 * ij.1 + ij.2)) false, ij)
              else p
            else p)
          (-1000, (0, 0))) := by
    rw [best_search_fold]
    rw [foldl_congr_on _ _ allCells hcongr ((-1000 : Int), ((0 : Nat), (0 : Nat)))]
  have hmain : (fastSel g).1 < 3 ∧ (fastSel g).2 < 3 ∧
      tdigit g (3 * (fastSel g).1 + (fastSel g).2) = 0 := by
    rcases foldl_best_spec (fun ij => tdigit g (3 * ij.1 + ij.2) = 0)
        (fun ij => vlook (g + 3 ^ (3 * ij.1 + ij.2)) false)
        allCells (-1000) ((0 : Nat), (0 : Nat)) with ⟨heq, hall⟩ |
        ⟨l1, x, l2, hsp, hgx, heq, hlt, hfirst, hbnd⟩
    · exfalso
      obtain ⟨c, hc, hcd⟩ := digit_of_tfreeB g hfr
      have hmem : ((c / 3 : Nat), (c % 3 : Nat)) ∈ allCells :=
        (mem_allCells _).mpr ⟨by omega, by omega⟩
      have hgd : tdigit g (3 * (c / 3) + c % 3) = 0 := by
        rw [show 3 * (c / 3) + c % 3 = c from by omega]
        exact hcd
      have h1 := hall _ hmem hgd
      have hg2 : g + 3 ^ (3 * (c / 3) + c % 3) < 19683 := by
        have h2 := code_upd_lt g 1 (3 * (c / 3) + c % 3) hg (by omega) hgd (by norm_num)
        omega
      have h2 := vl_bounds (g + 3 ^ (3 * (c / 3) + c % 3)) false hg2
      dsimp only at h1
      omega
    · have hsel : fastSel g = x := by
        unfold fastSel
        rw [heq]
      have hxm : x ∈ allCells := by
        rw [hsp]
        simp
      obtain ⟨hx1, hx2⟩ := (mem_allCells x).mp hxm
      rw [hsel]
      exact ⟨hx1, hx2, hgx⟩
  refine ⟨hmain.1, hmain.2.1, hmain.2.2, ?_⟩
  unfold Board.computer_move
  rw [if_neg hne]
  show some (((decodeC g Move.Computer).best_search).1.make_move
    ((decodeC g Move.Computer).best_search).2.2
    ((decodeC g Move.Computer).best_search).1.computer_tile) = _
  rw [hstep]
  rfl

/-- computer_player_move on a decoded board places O on the cell fastSel
picks, and that cell is free. -/
theorem computer_player_move_fast (g : Nat) (hg : g < 19683) (hfr : tfreeB g = true) :
    (fastSel g).1 < 3 ∧ (fastSel g).2 < 3 ∧
    tdigit g (3 * (fastSel g).1 + (fastSel g).2) = 0 ∧
    (decodeP g Move.Player).computer_player_move =
      some ((decodeP g Move.Player).setTile (fastSel g).1 (fastSel g).2 Tile.O) := by
  have hfree : (decodeP g Move.Player).has_free_tiles = true := by
    rw [has_free_decodeP]
    exact hfr
  have hne : ¬ (decodeP g Move.Player).has_free_tiles = false := by
    rw [hfree]
    simp
  have hcongr : ∀ (p : Int × (Nat × Nat)) (ij : Nat × Nat), ij ∈ allCells →
      (if (decodeP g Move.Player).getTile ij.1 ij.2 = Tile.Free then
        if mmScoreP (decodeP g Move.Player) ij > p.1 then
          (mmScoreP (decodeP g Move.Player) ij, ij)
        else p
      else p) =
      (if tdigit g (3 * ij.1 + ij.2) = 0 then
        if vlook (g + 3 ^ (3 * ij.1 + ij.2)) false > p.1 then
          (vlook (g + 3 ^ (3 * ij.1 + ij.2)) false, ij)
        else p
      else p) := by
    intro p ij hmem
    obtain ⟨hi, hj⟩ := (mem_allCells ij).mp hmem
    by_cases hd : tdigit g (3 * ij.1 + ij.2) = 0
    · rw [if_pos ((tile_free_decodeP g Move.Player ij.1 ij.2 hi hj).mpr hd), if_pos hd]
      rw [mmScoreP_decodeP g hg ij hi hj hd]
    · rw [if_neg (fun hc => hd ((tile_free_decodeP g Move.Player ij.1 ij.2 hi hj).mp hc)),
        if_neg hd]
  have hstep : (decodeP g Move.Player).best_search_player =
      (decodeP g Move.Player,
        allCells.foldl
          (fun p ij =>
            if tdigit g (3 * ij.1 + ij.2) = 0 then
              if vlook (g + 3 ^ (3 * ij.1 + ij.2)) false > p.1 then
                (vlook (g + 3 ^ (3 * ij.1 + ij.2)) false, ij)
              else p
            else p)
          (-1000, (0, 0))) := by
    rw [best_search_player_fold]
    rw [foldl_congr_on _ _ allCells hcongr ((-1000 : Int), ((0 : Nat), (0 : Nat)))]
  have hmain : (fastSel g).1 < 3 ∧ (fastSel g).2 < 3 ∧
      tdigit g (3 * (fastSel g).1 + (fastSel g).2) = 0 := by
    rcases foldl_best_spec (fun ij => tdigit g (3 * ij.1 + ij.2) = 0)
        (fun ij => vlook (g + 3 ^ (3 * ij.1 + ij.2)) false)
        allCells (-1000) ((0 : Nat), (0 : Nat)) with ⟨heq, hall⟩ |
        ⟨l1, x, l2, hsp, hgx, heq, hlt, hfirst, hbnd⟩
    · exfalso
      obtain ⟨c, hc, hcd⟩ := digit_of_tfreeB g hfr
      have hmem : ((c / 3 : Nat), (c % 3 : Nat)) ∈ allCells :=
        (mem_allCells _).mpr ⟨by omega, by omega⟩
      have hgd : tdigit g (3 * (c / 3) + c % 3) = 0 := by
        rw [show 3 * (c / 3) + c % 3 = c from by omega]
        exact hcd
      have h1 := hall _ hmem hgd
      have hg2 : g + 3 ^ (3 * (c / 3) + c % 3) < 19683 := by
        have h2 := code_upd_lt g 1 (3 * (c / 3) + c % 3) hg (by omega) hgd (by norm_num)
        omega
      have h2 := vl_bounds (g + 3 ^ (3 * (c / 3) + c % 3)) false hg2
      dsimp only at h1
      omega
    · have hsel : fastSel g = x := by
        unfold fastSel
        rw [heq]
      have hxm : x ∈ allCells := by
        rw [hsp]
        simp
      obtain ⟨hx1, hx2⟩ := (mem_allCells x).mp hxm
      rw [hsel]
      exact ⟨hx1, hx2, hgx⟩
  refine ⟨hmain.1, hmain.2.1, hmain.2.2, ?_⟩
  unfold Board.computer_player_move
  rw [if_neg hne]
  show some (((decodeP g Move.Player).best_search_player).1.make_move
    ((decodeP g Move.Player).best_search_player).2.2
    ((decodeP g Move.Player).best_search_player).1.player_tile) = _
  rw [hstep]
  rfl

/-- One step of the self-play loop on board codes: both codes of the
physical board (primary and mirrored coding) advance together. -/
def fastStep : Nat × Nat × Move → Option (Nat × Nat × Move)
  | (gC, gP, Move.Computer) =>
    if tfreeB gC = false then none
    else
      some (gC + 3 ^ (3 * (fastSel gC).1 + (fastSel gC).2),
        gP + 2 * 3 ^ (3 * (fastSel gC).1 + (fastSel gC).2), Move.Player)
  | (gC, gP, Move.Player) =>
    if tfreeB gP = false then none
    else
      some (gC + 2 * 3 ^ (3 * (fastSel gP).1 + (fastSel gP).2),
        gP + 3 ^ (3 * (fastSel gP).1 + (fastSel gP).2), Move.Computer)

/-- Iterated fast steps, mirroring runMoves. -/
def fastRun : Nat → Nat × Nat × Move → Option (Nat × Nat × Move)
  | 0, s => some s
  | n + 1, s => (fastStep s).bind (fastRun n)

/-- The self-play loop on boards is simulated exactly by the fast replay
on codes: the two codes always denote the same physical board. -/
theorem runMoves_sim : ∀ (n gC gP : Nat) (cm : Move),
    gC < 19683 → gP < 19683 →
    decodeC gC cm = decodeP gP cm →
    runMoves n (decodeC gC cm) =
      Option.map (fun s => decodeC s.1 s.2.2) (fastRun n (gC, gP, cm))
  | 0, gC, gP, cm, _, _, _ => rfl
  | n + 1, gC, gP, cm, hgC, hgP, hlink => by
    cases cm
    case Player =>
      have hgs : gameStep (decodeP gP Move.Player) =
          (decodeP gP Move.Player).computer_player_move := rfl
      have hfs : fastStep (gC, gP, Move.Player) =
          (if tfreeB gP = false then none
           else some (gC + 2 * 3 ^ (3 * (fastSel gP).1 + (fastSel gP).2),
             gP + 3 ^ (3 * (fastSel gP).1 + (fastSel gP).2), Move.Computer)) := rfl
      cases hfr : tfreeB gP
      case false =>
        have hmv : (decodeP gP Move.Player).computer_player_move = none := by
          unfold Board.computer_player_move
          rw [if_pos (by rw [has_free_decodeP]; exact hfr)]
        simp only [runMoves, fastRun, hlink, hgs, hmv, hfs, if_pos hfr]
        rfl
      case true =>
        obtain ⟨h1, h2, hdig, hmv⟩ := computer_player_move_fast gP hgP hfr
        have hdigC : tdigit gC (3 * (fastSel gP).1 + (fastSel gP).2) = 0 := by
          have hfree : (decodeP gP Move.Player).getTile (fastSel gP).1 (fastSel gP).2 =
              Tile.Free := (tile_free_decodeP gP Move.Player _ _ h1 h2).mpr hdig
          rw [← hlink] at hfree
          exact (tile_free_decodeC gC Move.Player _ _ h1 h2).mp hfree
        have hbP : (decodeP gP Move.Player).setTile (fastSel gP).1 (fastSel gP).2 Tile.O =
            decodeP (gP + 3 ^ (3 * (fastSel gP).1 + (fastSel gP).2)) Move.Player :=
          setTile_decodeP_O gP Move.Player _ _ h1 h2 hdig
        have hbC : (decodeP gP Move.Player).setTile (fastSel gP).1 (fastSel gP).2 Tile.O =
            decodeC (gC + 2 * 3 ^ (3 * (fastSel gP).1 + (fastSel gP).2)) Move.Player := by
          rw [← hlink]
          exact setTile_decodeC_O gC Move.Player _ _ h1 h2 hdigC
        have e1 : ((decodeP gP Move.Player).setTile (fastSel gP).1 (fastSel gP).2
              Tile.O).change_player =
            decodeC (gC + 2 * 3 ^ (3 * (fastSel gP).1 + (fastSel gP).2)) Move.Computer := by
          rw [hbC, change_player_decodeC]
          rfl
        have e2 : ((decodeP gP Move.Player).setTile (fastSel gP).1 (fastSel gP).2
              Tile.O).change_player =
            decodeP (gP + 3 ^ (3 * (fastSel gP).1 + (fastSel gP).2)) Move.Computer := by
          rw [hbP, change_player_decodeP]
          rfl
        have hgC2 : gC + 2 * 3 ^ (3 * (fastSel gP).1 + (fastSel gP).2) < 19683 :=
          code_upd_lt gC 2 _ hgC (by omega) hdigC (by norm_num)
        have hgP2 : gP + 3 ^ (3 * (fastSel gP).1 + (fastSel gP).2) < 19683 := by
          have h3 := code_upd_lt gP 1 _ hgP (by omega) hdig (by norm_num)
          omega
        have hrec := runMoves_sim n (gC + 2 * 3 ^ (3 * (fastSel gP).1 + (fastSel gP).2))
          (gP + 3 ^ (3 * (fastSel gP).1 + (fastSel gP).2)) Move.Computer hgC2 hgP2
          (e1.symm.trans e2)
        simp only [runMoves, fastRun, hlink, hgs, hmv, hfs, if_neg (show ¬ tfreeB gP = false by rw [hfr]; simp)]
        simp only [Option.some_bind]
        rw [e1, hrec]
    case Computer =>
      have hgs : gameStep (decodeC gC Move.Computer) =
          (decodeC gC Move.Computer).computer_move := rfl
      have hfs : fastStep (gC, gP, Move.Computer) =
          (if tfreeB gC = false then none
           else some (gC + 3 ^ (3 * (fastSel gC).1 + (fastSel gC).2),
             gP + 2 * 3 ^ (3 * (fastSel gC).1 + (fastSel gC).2), Move.Player)) := rfl
      cases hfr : tfreeB gC
      case false =>
        have hmv : (decodeC gC Move.Computer).computer_move = none := by
          unfold Board.computer_move
          rw [if_pos (by rw [has_free_decodeC]; exact hfr)]
        simp only [runMoves, fastRun, hgs, hmv, hfs, if_pos hfr]
        rfl
      case true =>
        obtain ⟨h1, h2, hdig, hmv⟩ := computer_move_fast gC hgC hfr
        have hdigP : tdigit gP (3 * (fastSel gC).1 + (fastSel gC).2) = 0 := by
          have hfree : (decodeC gC Move.Computer).getTile (fastSel gC).1 (fastSel gC).2 =
              Tile.Free := (tile_free_decodeC gC Move.Computer _ _ h1 h2).mpr hdig
          rw [hlink] at hfree
          exact (tile_free_decodeP gP Move.Computer _ _ h1 h2).mp hfree
        have hbC : (decodeC gC Move.Computer).setTile (fastSel gC).1 (fastSel gC).2 Tile.X =
            decodeC (gC + 3 ^ (3 * (fastSel gC).1 + (fastSel gC).2)) Move.Computer :=
          setTile_decodeC_X gC Move.Computer _ _ h1 h2 hdig
        have hbP : (decodeC gC Move.Computer).setTile (fastSel gC).1 (fastSel gC).2 Tile.X =
            decodeP (gP + 2 * 3 ^ (3 * (fastSel gC).1 + (fastSel gC).2)) Move.Computer := by
          rw [hlink]
          exact setTile_decodeP_X gP Move.Computer _ _ h1 h2 hdigP
        have e1 : ((decodeC gC Move.Computer).setTile (fastSel gC).1 (fastSel gC).2
              Tile.X).change_player =
            decodeC (gC + 3 ^ (3 * (fastSel gC).1 + (fastSel gC).2)) Move.Player := by
          rw [hbC, change_player_decodeC]
          rfl
        have e2 : ((decodeC gC Move.Computer).setTile (fastSel gC).1 (fastSel gC).2
              Tile.X).change_player =
            decodeP (gP + 2 * 3 ^ (3 * (fastSel gC).1 + (fastSel gC).2)) Move.Player := by
          rw [hbP, change_player_decodeP]
          rfl
        have hgC2 : gC + 3 ^ (3 * (fastSel gC).1 + (fastSel gC).2) < 19683 := by
          have h3 := code_upd_lt gC 1 _ hgC (by omega) hdig (by norm_num)
          omega
        have hgP2 : gP + 2 * 3 ^ (3 * (fastSel gC).1 + (fastSel gC).2) < 19683 :=
          code_upd_lt gP 2 _ hgP (by omega) hdigP (by norm_num)
        have hrec := runMoves_sim n (gC + 3 ^ (3 * (fastSel gC).1 + (fastSel gC).2))
          (gP + 2 * 3 ^ (3 * (fastSel gC).1 + (fastSel gC).2)) Move.Player hgC2 hgP2
          (e1.symm.trans e2)
        simp only [runMoves, fastRun, hgs, hmv, hfs, if_neg (show ¬ tfreeB gC = false by rw [hfr]; simp)]
        simp only [Option.some_bind]
        rw [e1, hrec]

/-! ## The nine self-play games, replayed through the table -/

/-- Each of the nine first moves leads to a drawn self-play game. -/
theorem c1_aux : ∀ k, k < 9 → playGame k = some GameState.Draw := by
  intro k hk
  interval_cases k
  · show (runMoves 8 (emptyBoard.setTile (0 / 3) (0 % 3) emptyBoard.player_tile)).bind
        Board.analyse = some GameState.Draw
    rw [show emptyBoard.setTile (0 / 3) (0 % 3) emptyBoard.player_tile =
        decodeC (2 * 3 ^ 0) Move.Computer from by decide]
    rw [runMoves_sim 8 (2 * 3 ^ 0) (3 ^ 0) Move.Computer (by norm_num) (by norm_num)
      (by decide)]
    decide
  · show (runMoves 8 (emptyBoard.setTile (1 / 3) (1 % 3) emptyBoard.player_tile)).bind
        Board.analyse = some GameState.Draw
    rw [show emptyBoard.setTile (1 / 3) (1 % 3) emptyBoard.player_tile =
        decodeC (2 * 3 ^ 1) Move.Computer from by decide]
    rw [runMoves_sim 8 (2 * 3 ^ 1) (3 ^ 1) Move.Computer (by norm_num) (by norm_num)
      (by decide)]
    decide
  · show (runMoves 8 (emptyBoard.setTile (2 / 3) (2 % 3) emptyBoard.player_tile)).bind
        Board.analyse = some GameState.Draw
    rw [show emptyBoard.setTile (2 / 3) (2 % 3) emptyBoard.player_tile =
        decodeC (2 * 3 ^ 2) Move.Computer from by decide]
    rw [runMoves_sim 8 (2 * 3 ^ 2) (3 ^ 2) Move.Computer (by norm_num) (by norm_num)
      (by decide)]
    decide
  · show (runMoves 8 (emptyBoard.setTile (3 / 3) (3 % 3) emptyBoard.player_tile)).bind
        Board.analyse = some GameState.Draw
    rw [show emptyBoard.setTile (3 / 3) (3 % 3) emptyBoard.player_tile =
        decodeC (2 * 3 ^ 3) Move.Computer from by decide]
    rw [runMoves_sim 8 (2 * 3 ^ 3) (3 ^ 3) Move.Computer (by norm_num) (by norm_num)
      (by decide)]
    decide
  · show (runMoves 8 (emptyBoard.setTile (4 / 3) (4 % 3) emptyBoard.player_tile)).bind
        Board.analyse = some GameState.Draw
    rw [show emptyBoard.setTile (4 / 3) (4 % 3) emptyBoard.player_tile =
        decodeC (2 * 3 ^ 4) Move.Computer from by decide]
    rw [runMoves_sim 8 (2 * 3 ^ 4) (3 ^ 4) Move.Computer (by norm_num) (by norm_num)
      (by decide)]
    decide
  · show (runMoves 8 (emptyBoard.setTile (5 / 3) (5 % 3) emptyBoard.player_tile)).bind
        Board.analyse = some GameState.Draw
    rw [show emptyBoard.setTile (5 / 3) (5 % 3) emptyBoard.player_tile =
        decodeC (2 * 3 ^ 5) Move.Computer from by decide]
    rw [runMoves_sim 8 (2 * 3 ^ 5) (3 ^ 5) Move.Computer (by norm_num) (by norm_num)
      (by decide)]
    decide
  · show (runMoves 8 (emptyBoard.setTile (6 / 3) (6 % 3) emptyBoard.player_tile)).bind
        Board.analyse = some GameState.Draw
    rw [show emptyBoard.setTile (6 / 3) (6 % 3) emptyBoard.player_tile =
        decodeC (2 * 3 ^ 6) Move.Computer from by decide]
    rw [runMoves_sim 8 (2 * 3 ^ 6) (3 ^ 6) Move.Computer (by norm_num) (by norm_num)
      (by decide)]
    decide
  · show (runMoves 8 (emptyBoard.setTile (7 / 3) (7 % 3) emptyBoard.player_tile)).bind
        Board.analyse = some GameState.Draw
    rw [show emptyBoard.setTile (7 / 3) (7 % 3) emptyBoard.player_tile =
        decodeC (2 * 3 ^ 7) Move.Computer from by decide]
    rw [runMoves_sim 8 (2 * 3 ^ 7) (3 ^ 7) Move.Computer (by norm_num) (by norm_num)
      (by decide)]
    decide
  · show (runMoves 8 (emptyBoard.setTile (8 / 3) (8 % 3) emptyBoard.player_tile)).bind
        Board.analyse = some GameState.Draw
    rw [show emptyBoard.setTile (8 / 3) (8 % 3) emptyBoard.player_tile =
        decodeC (2 * 3 ^ 8) Move.Computer from by decide]
    rw [runMoves_sim 8 (2 * 3 ^ 8) (3 ^ 8) Move.Computer (by norm_num) (by norm_num)
      (by decide)]
    decide

/-- C1: if the search engine plays both sides (computer_move for the
computer, computer_player_move for the player, alternating with
change_player as the self-play test does), then each of the 9 possible
first moves yields a finished game whose outcome is Draw. -/
theorem c1_selfplay_all_draws :
    (List.range 9).map playGame = List.replicate 9 (some GameState.Draw) := by
  rw [show List.range 9 = [0, 1, 2, 3, 4, 5, 6, 7, 8] from rfl]
  simp only [List.map]
  rw [c1_aux 0 (by norm_num), c1_aux 1 (by norm_num), c1_aux 2 (by norm_num),
    c1_aux 3 (by norm_num), c1_aux 4 (by norm_num), c1_aux 5 (by norm_num),
    c1_aux 6 (by norm_num), c1_aux 7 (by norm_num), c1_aux 8 (by norm_num)]
  rfl

/-- C5: computer_move selects, among the Free cells, the first cell in
row-major order attaining the maximal minimax score (strict-improvement
updates keep the first maximum); on the fresh empty board all nine branch
scores are 0 and the chosen cell is (0, 0). -/
theorem c5_argmax_first_tiebreak (b : Board) (hwf : WF b) (hfree : b.has_free_tiles = true) :
    (∃ l1 ij l2, allCells = l1 ++ ij :: l2 ∧
      b.getTile ij.1 ij.2 = Tile.Free ∧
      b.computer_move = some (b.setTile ij.1 ij.2 b.computer_tile) ∧
      (∀ y ∈ allCells, b.getTile y.1 y.2 = Tile.Free → mmScore b y ≤ mmScore b ij) ∧
      (∀ y ∈ l1, b.getTile y.1 y.2 = Tile.Free → mmScore b y < mmScore b ij)) ∧
    (∀ ij ∈ allCells, mmScore emptyBoard ij = 0) ∧
    emptyBoard.computer_move = some (emptyBoard.setTile 0 0 Tile.X) := by
  refine ⟨computer_move_spec b hwf hfree, ?_, ?_⟩
  · intro ij hmem
    fin_cases hmem <;>
    · rw [show emptyBoard = decodeC 0 Move.Computer from by decide]
      rw [mmScore_decodeC 0 (by norm_num) _ (by norm_num) (by norm_num) (by decide)]
      decide
  · obtain ⟨_, _, _, hcm⟩ := computer_move_fast 0 (by norm_num) (by decide)
    rw [show emptyBoard = decodeC 0 Move.Computer from by decide]
    rw [hcm, show fastSel 0 = ((0 : Nat), (0 : Nat)) from by decide]

/-- Witness for C5 at the empty board. -/
theorem c5_argmax_first_tiebreak_witness :
    WF emptyBoard ∧ emptyBoard.has_free_tiles = true ∧
    ((∃ l1 ij l2, allCells = l1 ++ ij :: l2 ∧
      emptyBoard.getTile ij.1 ij.2 = Tile.Free ∧
      emptyBoard.computer_move = some (emptyBoard.setTile ij.1 ij.2 emptyBoard.computer_tile) ∧
      (∀ y ∈ allCells, emptyBoard.getTile y.1 y.2 = Tile.Free →
        mmScore emptyBoard y ≤ mmScore emptyBoard ij) ∧
      (∀ y ∈ l1, emptyBoard.getTile y.1 y.2 = Tile.Free →
        mmScore emptyBoard y < mmScore emptyBoard ij)) ∧
    (∀ ij ∈ allCells, mmScore emptyBoard ij = 0) ∧
    emptyBoard.computer_move = some (emptyBoard.setTile 0 0 Tile.X)) :=
  ⟨by decide, by decide, c5_argmax_first_tiebreak emptyBoard (by decide) (by decide)⟩
